import Mathlib

/-!
# Catalog record helpers of `db/utils.go`, the volume driver and service creation

A shallow embedding of the record constructors, updaters and comparison
functions of package `db` (file `db/utils.go`) and a model of the catalog, of the
volume driver of package `docker/volume` and of the creation of a service by the
management layer that follows their specification, followed by theorems about
them.

Modelling conventions.

* A Go `string` is a Lean `String`; the code only builds, copies and compares
  strings, so `==` on Go strings is equality of the Lean values.
* `int64` fields (`MemberIndex`, `Replicas`, `LastModified`, `Iops`,
  `VolumeSizeGB`) are `Int` and the `uint32` file mode is `Nat`: the code under
  study performs no arithmetic on them, it only stores and compares them.
* A pointer to a record (`*common.ServiceMember`, ...) passed to a function is
  the record itself: the functions read the fields of their arguments and build
  fresh records, they never write through a pointer.
* A slice is a list; a nil slice is the empty list (the code takes `len`,
  indexes and calls `bytes.Equal`, none of which tells nil from empty).
  An element of a `[]*common.MemberConfig` may be the nil pointer, so such a
  slice is a `List (Option MemberConfig)`; reading a field through a nil element
  panics, which the embedding renders as the result `none`.
* `time.Now().UnixNano()` is an extra last argument `now`: the clock reading
  taken by the call.
* The record types and `ServiceStatusCreating` belong to package `common`,
  `GenMD5` to package `utils`.  The record types are reconstructed from the
  fields `db/utils.go` touches; the status constant and the checksum function
  are parameters of the functions that use them.
-/

namespace Firecamp

/-! ## Records of package `common`, as used by `db/utils.go` -/

/-- Record `common.ServiceVolume`: the three fields compared by `EqualServiceVolume`. -/
structure ServiceVolume where
  VolumeType : String
  Iops : Int
  VolumeSizeGB : Int
deriving DecidableEq

/-- Record `common.ServiceVolumes`: primary and journal volume of a service. -/
structure ServiceVolumes where
  PrimaryDeviceName : String
  PrimaryVolume : ServiceVolume
  JournalDeviceName : String
  JournalVolume : ServiceVolume
deriving DecidableEq

/-- Record `common.ServiceAttr`, the twelve fields set by `CreateServiceAttr`. -/
structure ServiceAttr where
  ServiceUUID : String
  ServiceStatus : String
  LastModified : Int
  Replicas : Int
  ClusterName : String
  ServiceName : String
  Volumes : ServiceVolumes
  RegisterDNS : Bool
  DomainName : String
  HostedZoneID : String
  RequireStaticIP : Bool
  UserAttr : List (Fin 256)
deriving DecidableEq

/-- Record `common.MemberVolumes`: the four fields compared by `EqualMemberVolumes`. -/
structure MemberVolumes where
  PrimaryVolumeID : String
  PrimaryDeviceName : String
  JournalVolumeID : String
  JournalDeviceName : String
deriving DecidableEq

/-- Record `common.MemberConfig`: reference from a member to one config file revision. -/
structure MemberConfig where
  FileName : String
  FileID : String
  FileMD5 : String
deriving DecidableEq

/-- Record `common.ServiceMember`, the eleven fields set by `CreateServiceMember`.
`Configs` is a `[]*common.MemberConfig`: `none` is a nil element. -/
structure ServiceMember where
  ServiceUUID : String
  MemberIndex : Int
  MemberName : String
  AvailableZone : String
  TaskID : String
  ContainerInstanceID : String
  ServerInstanceID : String
  LastModified : Int
  Volumes : MemberVolumes
  StaticIP : String
  Configs : List (Option MemberConfig)
deriving DecidableEq

/-- Record `common.ConfigFile`, the seven fields set by `CreateConfigFile`. -/
structure ConfigFile where
  ServiceUUID : String
  FileID : String
  FileMD5 : String
  FileName : String
  FileMode : Nat
  LastModified : Int
  Content : String
deriving DecidableEq

/-- Record `common.ServiceStaticIP`, the five fields set by `CreateServiceStaticIP`. -/
structure ServiceStaticIP where
  StaticIP : String
  ServiceUUID : String
  AvailableZone : String
  ServerInstanceID : String
  NetworkInterfaceID : String
deriving DecidableEq

/-! ## Constants of `db/utils.go` -/

/-- Constant `DefaultTaskID` (utils.go line 17). -/
def DefaultTaskID : String := "defaultTaskID"

/-- Constant `DefaultContainerInstanceID` (utils.go line 18). -/
def DefaultContainerInstanceID : String := "defaultContainerInstanceID"

/-- Constant `DefaultServerInstanceID` (utils.go line 19). -/
def DefaultServerInstanceID : String := "defaultServerInstanceID"

/-! ## Service attributes -/

/-- Function `CreateInitialServiceAttr` (utils.go lines 56-73).  The first argument is
the constant `common.ServiceStatusCreating`, the last one the clock reading. -/
def CreateInitialServiceAttr (ServiceStatusCreating : String)
    (serviceUUID : String) (replicas : Int) (cluster : String) (service : String)
    (vols : ServiceVolumes) (registerDNS : Bool) (domain : String) (hostedZoneID : String)
    (requireStaticIP : Bool) (userAttr : List (Fin 256)) (now : Int) : ServiceAttr :=
  { ServiceUUID := serviceUUID
    ServiceStatus := ServiceStatusCreating
    LastModified := now
    Replicas := replicas
    ClusterName := cluster
    ServiceName := service
    Volumes := vols
    RegisterDNS := registerDNS
    DomainName := domain
    HostedZoneID := hostedZoneID
    RequireStaticIP := requireStaticIP
    UserAttr := userAttr }

/-- Function `CreateServiceAttr` (utils.go lines 75-92). -/
def CreateServiceAttr (serviceUUID : String) (status : String) (mtime : Int) (replicas : Int)
    (cluster : String) (service : String) (vols : ServiceVolumes) (registerDNS : Bool)
    (domain : String) (hostedZoneID : String) (requireStaticIP : Bool)
    (userAttr : List (Fin 256)) : ServiceAttr :=
  { ServiceUUID := serviceUUID
    ServiceStatus := status
    LastModified := mtime
    Replicas := replicas
    ClusterName := cluster
    ServiceName := service
    Volumes := vols
    RegisterDNS := registerDNS
    DomainName := domain
    HostedZoneID := hostedZoneID
    RequireStaticIP := requireStaticIP
    UserAttr := userAttr }

/-- Function `EqualServiceVolume` (utils.go lines 122-129). -/
def EqualServiceVolume (v1 v2 : ServiceVolume) : Bool :=
  if v1.VolumeType = v2.VolumeType ∧
      v1.Iops = v2.Iops ∧
      v1.VolumeSizeGB = v2.VolumeSizeGB then
    true
  else
    false

/-- Function `EqualServiceVolumes` (utils.go lines 112-120). -/
def EqualServiceVolumes (v1 v2 : ServiceVolumes) : Bool :=
  if v1.PrimaryDeviceName = v2.PrimaryDeviceName ∧
      EqualServiceVolume v1.PrimaryVolume v2.PrimaryVolume = true ∧
      v1.JournalDeviceName = v2.JournalDeviceName ∧
      EqualServiceVolume v1.JournalVolume v2.JournalVolume = true then
    true
  else
    false

/-- Function `EqualServiceAttr` (utils.go lines 94-110); `bytes.Equal` on the user
attribute is equality of the byte lists. -/
def EqualServiceAttr (t1 t2 : ServiceAttr) (skipMtime : Bool) : Bool :=
  if t1.ServiceUUID = t2.ServiceUUID ∧
      t1.ServiceStatus = t2.ServiceStatus ∧
      (skipMtime = true ∨ t1.LastModified = t2.LastModified) ∧
      t1.Replicas = t2.Replicas ∧
      t1.ClusterName = t2.ClusterName ∧
      t1.ServiceName = t2.ServiceName ∧
      EqualServiceVolumes t1.Volumes t2.Volumes = true ∧
      t1.RegisterDNS = t2.RegisterDNS ∧
      t1.DomainName = t2.DomainName ∧
      t1.HostedZoneID = t2.HostedZoneID ∧
      t1.RequireStaticIP = t2.RequireStaticIP ∧
      t1.UserAttr = t2.UserAttr then
    true
  else
    false

/-- Function `UpdateServiceAttr` (utils.go lines 131-146). -/
def UpdateServiceAttr (t1 : ServiceAttr) (status : String) (now : Int) : ServiceAttr :=
  { ServiceUUID := t1.ServiceUUID
    ServiceStatus := status
    LastModified := now
    Replicas := t1.Replicas
    ClusterName := t1.ClusterName
    ServiceName := t1.ServiceName
    Volumes := t1.Volumes
    RegisterDNS := t1.RegisterDNS
    DomainName := t1.DomainName
    HostedZoneID := t1.HostedZoneID
    RequireStaticIP := t1.RequireStaticIP
    UserAttr := t1.UserAttr }

/-! ## Service members -/

/-- Function `CreateInitialServiceMember` (utils.go lines 148-163). -/
def CreateInitialServiceMember (serviceUUID : String) (memberIndex : Int) (memberName : String)
    (az : String) (vols : MemberVolumes) (staticIP : String)
    (configs : List (Option MemberConfig)) (now : Int) : ServiceMember :=
  { ServiceUUID := serviceUUID
    MemberIndex := memberIndex
    MemberName := memberName
    AvailableZone := az
    TaskID := DefaultTaskID
    ContainerInstanceID := DefaultContainerInstanceID
    ServerInstanceID := DefaultServerInstanceID
    LastModified := now
    Volumes := vols
    StaticIP := staticIP
    Configs := configs }

/-- Function `CreateServiceMember` (utils.go lines 165-181). -/
def CreateServiceMember (serviceUUID : String) (memberIndex : Int) (memberName : String)
    (az : String) (taskID : String) (containerInstanceID : String) (ec2InstanceID : String)
    (mtime : Int) (vols : MemberVolumes) (staticIP : String)
    (configs : List (Option MemberConfig)) : ServiceMember :=
  { ServiceUUID := serviceUUID
    MemberIndex := memberIndex
    MemberName := memberName
    AvailableZone := az
    TaskID := taskID
    ContainerInstanceID := containerInstanceID
    ServerInstanceID := ec2InstanceID
    LastModified := mtime
    Volumes := vols
    StaticIP := staticIP
    Configs := configs }

/-- Function `EqualMemberVolumes` (utils.go lines 200-208). -/
def EqualMemberVolumes (v1 v2 : MemberVolumes) : Bool :=
  if v1.PrimaryVolumeID = v2.PrimaryVolumeID ∧
      v1.PrimaryDeviceName = v2.PrimaryDeviceName ∧
      v1.JournalVolumeID = v2.JournalVolumeID ∧
      v1.JournalDeviceName = v2.JournalDeviceName then
    true
  else
    false

/-- The loop of `equalConfigs` (utils.go lines 214-220), run over the remaining
positions of both slices.  Position by position it reads the three fields of both
entries: a nil entry on either side panics (`none`), a differing field returns
`false`, and when the positions of `c1` are used up the result is `true`.  Running
out of `c2` first is an index out of range, also a panic. -/
def equalConfigsLoop : List (Option MemberConfig) → List (Option MemberConfig) → Option Bool
  | [], _ => some true
  | _ :: _, [] => none
  | none :: _, _ :: _ => none
  | some _ :: _, none :: _ => none
  | some x :: c1, some y :: c2 =>
    if x.FileName ≠ y.FileName ∨ x.FileID ≠ y.FileID ∨ x.FileMD5 ≠ y.FileMD5 then
      some false
    else
      equalConfigsLoop c1 c2

/-- Function `equalConfigs` (utils.go lines 210-222): `none` is a nil-pointer panic. -/
def equalConfigs (c1 c2 : List (Option MemberConfig)) : Option Bool :=
  if c1.length ≠ c2.length then
    some false
  else
    equalConfigsLoop c1 c2

/-- Function `EqualServiceMember` (utils.go lines 183-198).  The `&&` chain is
evaluated left to right and stops at the first false operand, so `equalConfigs`, the
last operand and the only one that can panic, runs only when all the comparisons
before it hold; the function then returns what `equalConfigs` returns. -/
def EqualServiceMember (t1 t2 : ServiceMember) (skipMtime : Bool) : Option Bool :=
  if t1.ServiceUUID = t2.ServiceUUID ∧
      t1.MemberIndex = t2.MemberIndex ∧
      t1.MemberName = t2.MemberName ∧
      t1.AvailableZone = t2.AvailableZone ∧
      t1.TaskID = t2.TaskID ∧
      t1.ContainerInstanceID = t2.ContainerInstanceID ∧
      t1.ServerInstanceID = t2.ServerInstanceID ∧
      (skipMtime = true ∨ t1.LastModified = t2.LastModified) ∧
      EqualMemberVolumes t1.Volumes t2.Volumes = true ∧
      t1.StaticIP = t2.StaticIP then
    equalConfigs t1.Configs t2.Configs
  else
    some false

/-- Function `CopyMemberConfigs` (utils.go lines 224-234): every entry is copied into
a fresh record; a nil entry panics (`none`). -/
def CopyMemberConfigs : List (Option MemberConfig) → Option (List (Option MemberConfig))
  | [] => some []
  | none :: _ => none
  | some c :: c1 =>
    match CopyMemberConfigs c1 with
    | none => none
    | some c2 =>
      some (some { FileName := c.FileName, FileID := c.FileID, FileMD5 := c.FileMD5 } :: c2)

/-- Function `UpdateServiceMemberConfigs` (utils.go lines 236-249).  The composite
literal of the source names ten fields; `MemberIndex` is not among them and so holds
the zero value of `int64`. -/
def UpdateServiceMemberConfigs (t1 : ServiceMember) (c : List (Option MemberConfig))
    (now : Int) : ServiceMember :=
  { ServiceUUID := t1.ServiceUUID
    MemberIndex := 0
    MemberName := t1.MemberName
    AvailableZone := t1.AvailableZone
    TaskID := t1.TaskID
    ContainerInstanceID := t1.ContainerInstanceID
    ServerInstanceID := t1.ServerInstanceID
    LastModified := now
    Volumes := t1.Volumes
    StaticIP := t1.StaticIP
    Configs := c }

/-- Function `UpdateServiceMemberOwner` (utils.go lines 251-264).  The composite
literal of the source names ten fields; `MemberIndex` is not among them and so holds
the zero value of `int64`. -/
def UpdateServiceMemberOwner (t1 : ServiceMember) (taskID : String)
    (containerInstanceID : String) (ec2InstanceID : String) (now : Int) : ServiceMember :=
  { ServiceUUID := t1.ServiceUUID
    MemberIndex := 0
    MemberName := t1.MemberName
    AvailableZone := t1.AvailableZone
    TaskID := taskID
    ContainerInstanceID := containerInstanceID
    ServerInstanceID := ec2InstanceID
    LastModified := now
    Volumes := t1.Volumes
    StaticIP := t1.StaticIP
    Configs := t1.Configs }

/-! ## Config files -/

/-- Function `CreateInitialConfigFile` (utils.go lines 266-277); `GenMD5` is
`utils.GenMD5`. -/
def CreateInitialConfigFile (GenMD5 : String → String) (serviceUUID : String) (fileID : String)
    (fileName : String) (fileMode : Nat) (content : String) (now : Int) : ConfigFile :=
  let chksum := GenMD5 content
  { ServiceUUID := serviceUUID
    FileID := fileID
    FileMD5 := chksum
    FileName := fileName
    FileMode := fileMode
    LastModified := now
    Content := content }

/-- Function `CreateConfigFile` (utils.go lines 279-299).  The Go result pair
`(nil, err)` is `Except.error` carrying the message, `(cfg, nil)` is `Except.ok`. -/
def CreateConfigFile (GenMD5 : String → String) (serviceUUID : String) (fileID : String)
    (fileMD5 : String) (fileName : String) (fileMode : Nat) (mtime : Int)
    (content : String) : Except String ConfigFile :=
  let chksum := GenMD5 content
  if chksum ≠ fileMD5 then
    Except.error ("internal error, file " ++ fileID ++ " content corrupted, expect md5 " ++
      fileMD5 ++ " content md5 " ++ chksum)
  else
    Except.ok
      { ServiceUUID := serviceUUID
        FileID := fileID
        FileMD5 := fileMD5
        FileName := fileName
        FileMode := fileMode
        LastModified := mtime
        Content := content }

/-- Function `UpdateConfigFile` (utils.go lines 301-312). -/
def UpdateConfigFile (GenMD5 : String → String) (c : ConfigFile) (newFileID : String)
    (newContent : String) (now : Int) : ConfigFile :=
  let newMD5 := GenMD5 newContent
  { ServiceUUID := c.ServiceUUID
    FileID := newFileID
    FileMD5 := newMD5
    FileName := c.FileName
    FileMode := c.FileMode
    LastModified := now
    Content := newContent }

/-- Function `EqualConfigFile` (utils.go lines 314-325). -/
def EqualConfigFile (c1 c2 : ConfigFile) (skipMtime : Bool) (skipContent : Bool) : Bool :=
  if c1.ServiceUUID = c2.ServiceUUID ∧
      c1.FileID = c2.FileID ∧
      c1.FileMD5 = c2.FileMD5 ∧
      c1.FileName = c2.FileName ∧
      c1.FileMode = c2.FileMode ∧
      (skipMtime = true ∨ c1.LastModified = c2.LastModified) ∧
      (skipContent = true ∨ c1.Content = c2.Content) then
    true
  else
    false

/-! ## Static IPs -/

/-- Function `CreateServiceStaticIP` (utils.go lines 332-341). -/
def CreateServiceStaticIP (staticIP : String) (serviceUUID : String) (az : String)
    (serverInstanceID : String) (netInterfaceID : String) : ServiceStaticIP :=
  { StaticIP := staticIP
    ServiceUUID := serviceUUID
    AvailableZone := az
    ServerInstanceID := serverInstanceID
    NetworkInterfaceID := netInterfaceID }

/-- Function `EqualServiceStaticIP` (utils.go lines 343-352). -/
def EqualServiceStaticIP (t1 t2 : ServiceStaticIP) : Bool :=
  if t1.StaticIP = t2.StaticIP ∧
      t1.ServiceUUID = t2.ServiceUUID ∧
      t1.AvailableZone = t2.AvailableZone ∧
      t1.ServerInstanceID = t2.ServerInstanceID ∧
      t1.NetworkInterfaceID = t2.NetworkInterfaceID then
    true
  else
    false

/-- Function `UpdateServiceStaticIP` (utils.go lines 354-362). -/
def UpdateServiceStaticIP (t1 : ServiceStaticIP) (serverInstanceID : String)
    (netInterfaceID : String) : ServiceStaticIP :=
  { StaticIP := t1.StaticIP
    ServiceUUID := t1.ServiceUUID
    AvailableZone := t1.AvailableZone
    ServerInstanceID := serverInstanceID
    NetworkInterfaceID := netInterfaceID }

/-! ## Sample records used by the concrete evaluations below -/

/-- A member of index 2, owned by task `task-2` on container instance `cont-2` of
server `server-2`, with one config file reference. -/
def sampleMember : ServiceMember :=
  { ServiceUUID := "uuid-1"
    MemberIndex := 2
    MemberName := "svc1-2"
    AvailableZone := "az-1"
    TaskID := "task-2"
    ContainerInstanceID := "cont-2"
    ServerInstanceID := "server-2"
    LastModified := 100
    Volumes :=
      { PrimaryVolumeID := "vol-2"
        PrimaryDeviceName := "/dev/xvdf"
        JournalVolumeID := ""
        JournalDeviceName := "" }
    StaticIP := "127.0.0.1"
    Configs := [some { FileName := "c.conf", FileID := "file-1", FileMD5 := "md5-1" }] }

/-- A stand-in checksum function for concrete evaluations: it maps a content to
its reversal (any function on strings will do where the theorems quantify over
`GenMD5`). -/
def sampleMD5 (content : String) : String :=
  String.mk content.data.reverse

/-- A config file revision `file-1` of service `uuid-1` (its checksum is the one
`sampleMD5` gives its content). -/
def sampleConfigFile : ConfigFile :=
  { ServiceUUID := "uuid-1"
    FileID := "file-1"
    FileMD5 := "olleh"
    FileName := "c.conf"
    FileMode := 420
    LastModified := 100
    Content := "hello" }

/-! ## Volume driver: request names and mount paths

The volume driver (`parseRequestName`, `mountpoint`, `Get`, `Path`,
`findIdleMember`, `Mount`) and the error values of package `common` are exercised by
`docker/volume/volume_test.go`; the definitions below follow the specification of the
driver (its sections 4.2, 4.3, 4.4, 6 and 7, with the invariants of sections 3 and
8). -/

/-- Modelled from the spec: the error kinds of the table of section 7 (the error
values of package `common`, such as `common.ErrInvalidArgs`, are missing). -/
inductive ErrorKind where
  | InvalidArgs
  | NotFound
  | AlreadyExists
  | VersionMismatch
  | ClaimContested
  | NoEligibleMember
  | ServiceNotReady
  | CorruptConfig
  | CloudError
  | Busy
  | Timeout
deriving DecidableEq

/-- Modelled from the spec: `journalPrefix = "journal"` of the name grammar (section 6);
the constant `common.LogDevicePathPrefix` is missing. -/
def journalPrefix : String := "journal"

/-- Modelled from the spec: `separator = "_"` of the name grammar (section 6); the
constant `common.NameSeparator` is missing. -/
def separator : String := "_"

/-- Modelled from the spec: the `<N>` of the name grammar is a decimal numeral, a
non-empty run of the digits `0` to `9` (the number parsing of the missing
`parseRequestName`). -/
def isDecimal (ds : List Char) : Bool :=
  !ds.isEmpty && ds.all Char.isDigit

/-- Modelled from the spec: the number a decimal numeral `<N>` denotes (the number
parsing of the missing `parseRequestName`). -/
def decimalValue (ds : List Char) : Nat :=
  ds.foldl (fun n c => 10 * n + (c.toNat - '0'.toNat)) 0

/-- Modelled from the spec: removes a leading `pre` from a name, `none` when the name
does not start with it (recognising `<journalPrefix>_` in the missing
`parseRequestName`). -/
def stripPrefix : List Char → List Char → Option (List Char)
  | [], cs => some cs
  | _ :: _, [] => none
  | p :: pre, c :: cs => if p = c then stripPrefix pre cs else none

/-- Modelled from the spec: cuts a name at its first `-`, giving the part before it
and, when there is a `-`, everything after it (separating `<serviceUUID>` from `<N>`
in the missing `parseRequestName`). -/
def splitAtDash : List Char → List Char × Option (List Char)
  | [] => ([], none)
  | c :: cs =>
    if c = '-' then
      ([], some cs)
    else
      ((c :: (splitAtDash cs).1), (splitAtDash cs).2)

/-- Modelled from the spec: the shapes `<serviceUUID>` and `<serviceUUID>-<N>` of the
name grammar of section 4.3, giving the UUID and the member index: `-1` without a
suffix, `N-1` with the suffix `-<N>`, and `InvalidArgs` for anything else, as for
`abc-x-1` in scenario S3 (part of the missing `parseRequestName`).  The grammar puts
no bound on `<N>`, so none is checked. -/
def parseUUIDAndIndex (cs : List Char) : Except ErrorKind (List Char × Int) :=
  match splitAtDash cs with
  | (u, none) => Except.ok (u, -1)
  | (u, some n) =>
    if isDecimal n = true then
      Except.ok (u, (decimalValue n : Int) - 1)
    else
      Except.error ErrorKind.InvalidArgs

/-- Modelled from the spec: the missing `parseRequestName` of the volume driver, by the
name grammar of section 4.3.  The result is `(serviceUUID, pathKey, memberIndex)`:
a name starting with `<journalPrefix>_` names a journal volume, whose path-key is
`<journalPrefix>_<serviceUUID>`; any other name has the UUID for path-key; a
suffix `-<N>` gives member index `N-1` and is in neither; anything else fails with
`InvalidArgs`. -/
def parseRequestName (name : String) : Except ErrorKind (String × String × Int) :=
  match stripPrefix (journalPrefix ++ separator).data name.data with
  | some rest =>
    match parseUUIDAndIndex rest with
    | Except.ok (u, idx) =>
      Except.ok (String.mk u, journalPrefix ++ separator ++ String.mk u, idx)
    | Except.error e => Except.error e
  | none =>
    match parseUUIDAndIndex name.data with
    | Except.ok (u, idx) => Except.ok (String.mk u, String.mk u, idx)
    | Except.error e => Except.error e

/-- Modelled from the spec: the mount path of a path-key under the fixed root
directory, `<root>/<pathKey>` (section 6); the driver's `mountpoint` and its
`defaultRoot` are missing, the root is a parameter. -/
def mountpoint (root : String) (pathKey : String) : String :=
  root ++ "/" ++ pathKey

/-- Modelled from the spec: the missing `Path` operation of the driver (section 4.3):
the mount path of the name's path-key, without existence checks; it fails only for a
malformed name. -/
def Path (root : String) (name : String) : Except ErrorKind String :=
  match parseRequestName name with
  | Except.ok (_, pathKey, _) => Except.ok (mountpoint root pathKey)
  | Except.error e => Except.error e

/-- Modelled from the spec: the missing `Get` operation of the driver (section 4.3):
the volume, that is the requested name with the mount path of its path-key, whether
or not the volume is mounted; it fails only for a malformed name. -/
def Get (root : String) (name : String) : Except ErrorKind (String × String) :=
  match parseRequestName name with
  | Except.ok (_, pathKey, _) => Except.ok (name, mountpoint root pathKey)
  | Except.error e => Except.error e

/-- Modelled from the spec: the name grammar of section 4.3 read as a set of names,
the four shapes `<serviceUUID>`, `<serviceUUID>-<N>`, `<journalPrefix>_<serviceUUID>`
and `<journalPrefix>_<serviceUUID>-<N>`, where a service UUID is a string without
`-` and `<N>` is a decimal numeral (stated apart from the missing `parseRequestName`,
to compare the parser with). -/
def IsRequestName (name : String) : Prop :=
  (∃ u : String, '-' ∉ u.data ∧
    (name = u ∨ name = journalPrefix ++ separator ++ u)) ∨
  (∃ u N : String, '-' ∉ u.data ∧ isDecimal N.data = true ∧
    (name = u ++ "-" ++ N ∨ name = journalPrefix ++ separator ++ u ++ "-" ++ N))

/-! ## Volume driver: catalog, member selection and mount -/

/-- Modelled from the spec: the in-memory catalog of section 4.1 (the missing
`db.MemDB`), reduced to the mappings the driver and the creation of a service read and
write: service attributes by `serviceUUID`, members by `(serviceUUID, memberName)` and
config files by `(serviceUUID, fileID)`, each kept as the list of its stored records
(no config file unless stated). -/
structure MemDB where
  attrs : List ServiceAttr
  members : List ServiceMember
  configFiles : List ConfigFile := []

/-- Modelled from the spec: `GetX(key)` of section 4.1 for service attributes (the
missing `GetServiceAttr` of the catalog): the stored record, `NotFound` if absent. -/
def GetServiceAttr (db : MemDB) (serviceUUID : String) : Except ErrorKind ServiceAttr :=
  match db.attrs.find? (fun a => decide (a.ServiceUUID = serviceUUID)) with
  | some a => Except.ok a
  | none => Except.error ErrorKind.NotFound

/-- Modelled from the spec: `ListMembers(serviceUUID)` of section 4.1 (the missing
`ListServiceMembers` of the catalog): all members of the service. -/
def ListServiceMembers (db : MemDB) (serviceUUID : String) : List ServiceMember :=
  db.members.filter (fun m => decide (m.ServiceUUID = serviceUUID))

/-- Modelled from the spec: two member records have the same key
`(serviceUUID, memberName)` (section 3); part of the missing catalog. -/
def sameMemberKey (a b : ServiceMember) : Bool :=
  decide (a.ServiceUUID = b.ServiceUUID ∧ a.MemberName = b.MemberName)

/-- Modelled from the spec: stores `new` in place of the record kept under the key of
`prior` (the write of the missing catalog `UpdateServiceMember`). -/
def replaceMember (prior new : ServiceMember) : List ServiceMember → List ServiceMember
  | [] => []
  | m :: ms =>
    if sameMemberKey prior m = true then
      new :: ms
    else
      m :: replaceMember prior new ms

/-- Modelled from the spec: the conditional update `UpdateX(prior, new)` of section 4.1
for members (the missing `UpdateServiceMember` of the catalog): `NotFound` if no
member is stored under the key, `VersionMismatch` if the stored member differs from
`prior`, otherwise `new` is stored.  The comparison is `EqualServiceMember`;
`skipMtime` says whether the catalog excludes mtime from it.  `none` is the panic of
that comparison on a nil config entry. -/
def UpdateServiceMember (skipMtime : Bool) (db : MemDB) (prior new : ServiceMember) :
    Option (Except ErrorKind MemDB) :=
  match db.members.find? (fun m => sameMemberKey prior m) with
  | none => some (Except.error ErrorKind.NotFound)
  | some current =>
    match EqualServiceMember prior current skipMtime with
    | none => none
    | some false => some (Except.error ErrorKind.VersionMismatch)
    | some true => some (Except.ok { db with members := replaceMember prior new db.members })

/-- Modelled from the spec: this host's identity, the input of the member selector of
section 4.2 (`GetLocalInstanceID`, `GetLocalContainerInstanceID` and
`GetLocalAvailabilityZone` of the missing adapters). -/
structure HostInfo where
  ServerInstanceID : String
  ContainerInstanceID : String
  AvailableZone : String

/-- Modelled from the spec: rule 2 of section 4.2, the member is already owned by this
host: `serverInstanceID == thisHost` and `containerInstanceID == thisHost` (part of
the missing `findIdleMember`). -/
def ownedByHost (host : HostInfo) (m : ServiceMember) : Bool :=
  decide (m.ServerInstanceID = host.ServerInstanceID ∧
    m.ContainerInstanceID = host.ContainerInstanceID)

/-- Modelled from the spec: rule 3 of section 4.2, the member is in this host's zone
and its `taskID` is the sentinel or not in the live-task list of the service (part of
the missing `findIdleMember`). -/
def isIdleInZone (host : HostInfo) (liveTasks : List String) (m : ServiceMember) : Bool :=
  decide (m.AvailableZone = host.AvailableZone ∧
    (m.TaskID = DefaultTaskID ∨ m.TaskID ∉ liveTasks))

/-- Modelled from the spec: rule 4 of section 4.2, the member with the smallest
`memberIndex`, the earliest one in the list among equals (part of the missing
`findIdleMember`). -/
def smallestMemberIndex : List ServiceMember → Option ServiceMember
  | [] => none
  | m :: ms =>
    match smallestMemberIndex ms with
    | none => some m
    | some best => if m.MemberIndex ≤ best.MemberIndex then some m else some best

/-- Modelled from the spec: the selection policy of section 4.2 on the loaded member
list (the missing `findIdleMember`): if exactly one member is already owned by this
host, that member; otherwise the member of smallest index among those idle in this
host's zone, or `NoEligibleMember` when there is none. -/
def selectMember (host : HostInfo) (liveTasks : List String) (members : List ServiceMember) :
    Except ErrorKind ServiceMember :=
  match members.filter (ownedByHost host) with
  | [m] => Except.ok m
  | _ =>
    match smallestMemberIndex (members.filter (isIdleInZone host liveTasks)) with
    | some m => Except.ok m
    | none => Except.error ErrorKind.NoEligibleMember

/-- Modelled from the spec: what the driver is given at start, the collaborators of
section 6 seen from `Mount`: the fixed root, this host's identity, the two status
constants of package `common` that admit a mount, the live tasks of a service
`(cluster, service)` and the task of the service running on this host
(container-service adapter), whether the catalog excludes mtime from its comparison,
and the steps of section 4.4 that call the cloud, the DNS and the file system: steps
6 to 9 of `Mount` with the format of step 10 (attach volumes, static IP, DNS record,
file system on the device), which act on the cloud and the catalog, step 11 of
`Mount` (config files written under the mount path), and steps 4 and 5 of `Unmount`
(detach volumes, unassign the IP) for a path-key and its member; each either
succeeds or fails with an error kind.  The kernel mount of step 10 and the kernel
unmount of step 3 of `Unmount` are not among them: they act on the mounted paths of
`DriverState`. -/
structure DriverEnv where
  root : String
  host : HostInfo
  statusInitializing : String
  statusActive : String
  liveTasks : String → String → List String
  localTask : String → String → String
  skipMtime : Bool
  attachVolumes : MemDB → ServiceAttr → ServiceMember → Except ErrorKind Unit × MemDB
  materializeConfigs : MemDB → ServiceMember → String → Except ErrorKind Unit
  detachVolumes : String → ServiceMember → Except ErrorKind Unit

/-- Modelled from the spec: the missing driver method `findIdleMember(sattr)` of the
test: step 1 of section 4.2 loads the members of the service from the catalog, the
live tasks come from the container runtime, and the policy of `selectMember`
chooses. -/
def findIdleMember (env : DriverEnv) (db : MemDB) (sattr : ServiceAttr) :
    Except ErrorKind ServiceMember :=
  selectMember env.host (env.liveTasks sattr.ClusterName sattr.ServiceName)
    (ListServiceMembers db sattr.ServiceUUID)

/-- Modelled from the spec: one entry of the per-host mount table of section 4.4,
`{refCount, member, ...}` for a path-key (the attached volumes and the assigned IP are
those recorded in the member). -/
structure MountEntry where
  pathKey : String
  refCount : Nat
  member : ServiceMember

/-- Modelled from the spec: the state `Mount` and `Unmount` work on: the catalog, this
host's mount table (the fields of the missing `FireCampVolumeDriver`) and the part of
this host's kernel state that steps 10 of `Mount` and 3 of `Unmount` act on, namely
the paths at which a device is mounted and the mount paths under which a container
has files open (the cause of `EBUSY`); both are empty unless stated. -/
structure DriverState where
  db : MemDB
  volumes : List MountEntry
  mountedPaths : List String := []
  busyPaths : List String := []

/-- Modelled from the spec: the missing `NewVolumeDriver`, the driver at process start
(section 9: the mount table has an explicit init): an empty mount table, on the given
catalog and on a host whose kernel has the given mounted and busy paths. -/
def NewVolumeDriver (db : MemDB) (mountedPaths busyPaths : List String) : DriverState :=
  { db := db, volumes := [], mountedPaths := mountedPaths, busyPaths := busyPaths }

/-- Modelled from the spec: the missing `isDeviceMountToPath` of the driver, which
asks the kernel whether a device is mounted at the path. -/
def isDeviceMountToPath (s : DriverState) (path : String) : Bool :=
  decide (path ∈ s.mountedPaths)

/-- Modelled from the spec: the kernel mount of step 10 of `Mount` (section 4.4): the
device is mounted at the path; a device that has just been mounted has no open
files. -/
def kernelMount (path : String) (s : DriverState) : DriverState :=
  { s with
    mountedPaths := path :: s.mountedPaths
    busyPaths := s.busyPaths.filter (fun p => decide (p ≠ path)) }

/-- Modelled from the spec: the kernel unmount of step 3 of `Unmount` (section 4.4):
`Busy` when a container has files open under the path (`EBUSY`), otherwise no device
is mounted at the path any more. -/
def kernelUnmount (path : String) (s : DriverState) : Except ErrorKind DriverState :=
  if path ∈ s.busyPaths then
    Except.error ErrorKind.Busy
  else
    Except.ok { s with mountedPaths := s.mountedPaths.filter (fun p => decide (p ≠ path)) }

/-- Modelled from the spec: a container opens a file under a mount path (an event of
the container runtime, outside the driver): the path is busy from then on. -/
def containerOpensFile (path : String) (s : DriverState) : DriverState :=
  { s with busyPaths := path :: s.busyPaths }

/-- Modelled from the spec: the `refCount` of a path-key in the mount table, 0 when it
has no entry (section 4.4). -/
def refCount (volumes : List MountEntry) (pathKey : String) : Nat :=
  match volumes.find? (fun e => decide (e.pathKey = pathKey)) with
  | some e => e.refCount
  | none => 0

/-- Modelled from the spec: step 2 of `Mount`, increment the `refCount` of the entry
of a path-key (section 4.4). -/
def incrRefCount (pathKey : String) : List MountEntry → List MountEntry
  | [] => []
  | e :: es =>
    if e.pathKey = pathKey then
      { e with refCount := e.refCount + 1 } :: es
    else
      e :: incrRefCount pathKey es

/-- Modelled from the spec: one attempt at steps 4 and 5 of `Mount` (section 4.4):
select a member, then claim it by `UpdateServiceMember(prior = member, new = member
with this host's ownership triple and fresh mtime)`.  The result is the claimed
record and the catalog after the update; `none` is a panic. -/
def claimOnce (env : DriverEnv) (sattr : ServiceAttr) (now : Int) (db : MemDB) :
    Option (Except ErrorKind (ServiceMember × MemDB)) :=
  match findIdleMember env db sattr with
  | Except.error e => some (Except.error e)
  | Except.ok member =>
    let claimed := UpdateServiceMemberOwner member
      (env.localTask sattr.ClusterName sattr.ServiceName)
      env.host.ContainerInstanceID env.host.ServerInstanceID now
    match UpdateServiceMember env.skipMtime db member claimed with
    | none => none
    | some (Except.ok db2) => some (Except.ok (claimed, db2))
    | some (Except.error e) => some (Except.error e)

/-- Modelled from the spec: steps 4 and 5 of `Mount` with their retry (section 4.4):
on `VersionMismatch` the selection and the claim are run again on the fresh member
list, and when `retries` further attempts are used up the result is
`ClaimContested`. -/
def claimMember (env : DriverEnv) (sattr : ServiceAttr) (now : Int) (db : MemDB) :
    Nat → Option (Except ErrorKind (ServiceMember × MemDB))
  | 0 =>
    match claimOnce env sattr now db with
    | some (Except.error ErrorKind.VersionMismatch) =>
      some (Except.error ErrorKind.ClaimContested)
    | r => r
  | retries + 1 =>
    match claimOnce env sattr now db with
    | some (Except.error ErrorKind.VersionMismatch) => claimMember env sattr now db retries
    | r => r

/-- Modelled from the spec: the missing `Mount` of the driver, steps 1 to 12 of
section 4.4, with K = 3 retries of the claim.  The result is the response (the mount
path or an error kind) and the state after the call; `none` is a panic.  The member
index of the name takes no part in these steps: the member is chosen by the
selector.  A failure of steps 6 to 11 rolls back what they did (the device is not
left mounted) and keeps the claim. -/
def Mount (env : DriverEnv) (s : DriverState) (name : String) (now : Int) :
    Option (Except ErrorKind String × DriverState) :=
  match parseRequestName name with
  | Except.error e => some (Except.error e, s)
  | Except.ok (serviceUUID, pathKey, _) =>
    if 0 < refCount s.volumes pathKey then
      some (Except.ok (mountpoint env.root pathKey),
        { s with volumes := incrRefCount pathKey s.volumes })
    else
      match GetServiceAttr s.db serviceUUID with
      | Except.error e => some (Except.error e, s)
      | Except.ok sattr =>
        if sattr.ServiceStatus ≠ env.statusInitializing ∧
            sattr.ServiceStatus ≠ env.statusActive then
          some (Except.error ErrorKind.ServiceNotReady, s)
        else
          match claimMember env sattr now s.db 3 with
          | none => none
          | some (Except.error e) => some (Except.error e, s)
          | some (Except.ok (member, db2)) =>
            match env.attachVolumes db2 sattr member with
            | (Except.error e, db3) => some (Except.error e, { s with db := db3 })
            | (Except.ok _, db3) =>
              match env.materializeConfigs db3 member (mountpoint env.root pathKey) with
              | Except.error e => some (Except.error e, { s with db := db3 })
              | Except.ok _ =>
                some (Except.ok (mountpoint env.root pathKey),
                  kernelMount (mountpoint env.root pathKey)
                    { s with
                      db := db3
                      volumes := { pathKey := pathKey, refCount := 1, member := member }
                        :: s.volumes })

/-- Modelled from the spec: step 2 of `Unmount`, decrement the `refCount` of the entry
of a path-key (section 4.4). -/
def decrRefCount (pathKey : String) : List MountEntry → List MountEntry
  | [] => []
  | e :: es =>
    if e.pathKey = pathKey then
      { e with refCount := e.refCount - 1 } :: es
    else
      e :: decrRefCount pathKey es

/-- Modelled from the spec: step 6 of `Unmount`, drop the in-memory entry of a path-key
(section 4.4). -/
def dropEntry (pathKey : String) : List MountEntry → List MountEntry
  | [] => []
  | e :: es =>
    if e.pathKey = pathKey then
      es
    else
      e :: dropEntry pathKey es

/-- Modelled from the spec: the missing `Unmount` of the driver, steps 1 to 6 of
section 4.4.  A path-key without entry is not mounted on this host and the call fails
with `NotFound` (scenario S5; the test expects an error from a driver that did not
mount the volume).  When the kernel is busy the call fails with `Busy` and changes
nothing; when step 4 or 5 fails the error surfaces after the kernel unmount and the
entry is kept.  The result is the response and the state after the call. -/
def Unmount (env : DriverEnv) (s : DriverState) (name : String) :
    Except ErrorKind Unit × DriverState :=
  match parseRequestName name with
  | Except.error e => (Except.error e, s)
  | Except.ok (_, pathKey, _) =>
    match s.volumes.find? (fun e => decide (e.pathKey = pathKey)) with
    | none => (Except.error ErrorKind.NotFound, s)
    | some entry =>
      if 1 < entry.refCount then
        (Except.ok (), { s with volumes := decrRefCount pathKey s.volumes })
      else
        match kernelUnmount (mountpoint env.root pathKey) s with
        | Except.error e => (Except.error e, s)
        | Except.ok s1 =>
          match env.detachVolumes pathKey entry.member with
          | Except.error e => (Except.error e, s1)
          | Except.ok _ =>
            (Except.ok (), { s1 with volumes := dropEntry pathKey s1.volumes })

/-- Modelled from the spec: invariant 1 of section 8 (and the fourth invariant of
section 3): for every path-key mounted on this host, the member of its entry is a
member of the service that the path-key names, and the catalog record of that member
has `serverInstanceID` equal to this host. -/
def MountedMembersOwned (host : HostInfo) (s : DriverState) : Prop :=
  ∀ e ∈ s.volumes, 0 < e.refCount →
    (∀ (name serviceUUID : String) (memberIndex : Int),
      parseRequestName name = Except.ok (serviceUUID, e.pathKey, memberIndex) →
      e.member.ServiceUUID = serviceUUID) ∧
    ∃ m ∈ s.db.members, sameMemberKey e.member m = true ∧
      m.ServerInstanceID = host.ServerInstanceID

/-- Modelled from the spec: the zonal affinity that rule 3 of section 4.2 enforces
(the block volume cannot cross zones): every member whose catalog record has
`serverInstanceID` equal to this host is in this host's zone. -/
def OwnedMembersInZone (host : HostInfo) (db : MemDB) : Prop :=
  ∀ m ∈ db.members, m.ServerInstanceID = host.ServerInstanceID →
    m.AvailableZone = host.AvailableZone

/-- Modelled from the spec: the missing `Create` operation of the driver (section
4.3): it succeeds iff the service of the name's UUID exists in the catalog, with
`NotFound` for an unknown UUID, and allocates nothing: the state is returned as it
is. -/
def Create (s : DriverState) (name : String) : Except ErrorKind Unit × DriverState :=
  match parseRequestName name with
  | Except.error e => (Except.error e, s)
  | Except.ok (serviceUUID, _, _) =>
    match GetServiceAttr s.db serviceUUID with
    | Except.error e => (Except.error e, s)
    | Except.ok _ => (Except.ok (), s)

/-- Modelled from the spec: the missing `Remove` operation of the driver (section
4.3): it always succeeds and is a no-op, because volumes outlive containers. -/
def Remove (s : DriverState) (_name : String) : Except ErrorKind Unit × DriverState :=
  (Except.ok (), s)

/-- The calls of `volumeMountTest` on one driver: one `Mount` of the name per clock
reading of the list, in a row; the result is the list of responses and the state after
the last call, `none` if a call panics. -/
def mountAll (env : DriverEnv) (name : String) :
    List Int → DriverState → Option (List (Except ErrorKind String) × DriverState)
  | [], s => some ([], s)
  | now :: nows, s =>
    match Mount env s name now with
    | none => none
    | some (r, s1) =>
      match mountAll env name nows s1 with
      | none => none
      | some (rs, s2) => some (r :: rs, s2)

/-- The calls of `unmount` in the test on one driver: `n` calls of `Unmount` of the
name in a row; the result is the list of responses and the state after the last
call. -/
def unmountTimes (env : DriverEnv) (name : String) :
    Nat → DriverState → List (Except ErrorKind Unit) × DriverState
  | 0, s => ([], s)
  | n + 1, s =>
    ((Unmount env s name).1 :: (unmountTimes env name n (Unmount env s name).2).1,
      (unmountTimes env name n (Unmount env s name).2).2)

/-! ## Creation of a service by the management layer -/

/-- Modelled from the spec: `CreateX(v)` of section 4.1 for service attributes (the
missing catalog method `CreateServiceAttr`): `AlreadyExists` if the key is present. -/
def MemDB.CreateServiceAttr (db : MemDB) (attr : ServiceAttr) : Except ErrorKind MemDB :=
  if db.attrs.any (fun a => decide (a.ServiceUUID = attr.ServiceUUID)) = true then
    Except.error ErrorKind.AlreadyExists
  else
    Except.ok { db with attrs := db.attrs ++ [attr] }

/-- Modelled from the spec: `CreateX(v)` of section 4.1 for members (the missing
catalog method `CreateServiceMember`): `AlreadyExists` if the key is present. -/
def MemDB.CreateServiceMember (db : MemDB) (member : ServiceMember) :
    Except ErrorKind MemDB :=
  if db.members.any (fun m => sameMemberKey member m) = true then
    Except.error ErrorKind.AlreadyExists
  else
    Except.ok { db with members := db.members ++ [member] }

/-- Modelled from the spec: `CreateX(v)` of section 4.1 for config files, keyed
`(serviceUUID, fileID)` (the missing catalog method `CreateConfigFile`):
`AlreadyExists` if the key is present. -/
def MemDB.CreateConfigFile (db : MemDB) (cfg : ConfigFile) : Except ErrorKind MemDB :=
  if db.configFiles.any
      (fun c => decide (c.ServiceUUID = cfg.ServiceUUID ∧ c.FileID = cfg.FileID)) = true then
    Except.error ErrorKind.AlreadyExists
  else
    Except.ok { db with configFiles := db.configFiles ++ [cfg] }

/-- Modelled from the spec: stores `new` in place of the attributes kept under the
`serviceUUID` of `prior` (the write of the missing catalog `UpdateServiceAttr`). -/
def replaceAttr (prior new : ServiceAttr) : List ServiceAttr → List ServiceAttr
  | [] => []
  | a :: rest =>
    if a.ServiceUUID = prior.ServiceUUID then
      new :: rest
    else
      a :: replaceAttr prior new rest

/-- Modelled from the spec: the conditional update `UpdateX(prior, new)` of section 4.1
for service attributes (the missing catalog method `UpdateServiceAttr`): `NotFound`
if absent, `VersionMismatch` if the stored attributes differ from `prior` under
`EqualServiceAttr`, otherwise `new` is stored. -/
def MemDB.UpdateServiceAttr (skipMtime : Bool) (db : MemDB) (prior new : ServiceAttr) :
    Except ErrorKind MemDB :=
  match db.attrs.find? (fun a => decide (a.ServiceUUID = prior.ServiceUUID)) with
  | none => Except.error ErrorKind.NotFound
  | some current =>
    if EqualServiceAttr prior current skipMtime = true then
      Except.ok { db with attrs := replaceAttr prior new db.attrs }
    else
      Except.error ErrorKind.VersionMismatch

/-- Modelled from the spec: one config file of a service creation request, a name and
a content (scenario S1; `manage.ReplicaConfigFile` of the tests is missing). -/
structure ReplicaConfigFile where
  FileName : String
  Content : String

/-- Modelled from the spec: the request to create a service, as in scenarios S1 and S2:
the service name in its cluster, the number of replicas, the zone its members are
created in, its volumes, whether DNS is registered and a static IP required, and the
config files of a member (`manage.CreateServiceRequest` of the tests is missing). -/
structure CreateServiceRequest where
  Cluster : String
  ServiceName : String
  Replicas : Nat
  Zone : String
  Volumes : ServiceVolumes
  RegisterDNS : Bool
  RequireStaticIP : Bool
  Configs : List ReplicaConfigFile

/-- Modelled from the spec: what the management layer is given besides the catalog:
the two status constants of package `common` a creation goes through, whether the
catalog excludes mtime from its comparison, `utils.GenMD5`, the DNS domain and hosted
zone, the mode of a config file, the file ID generated for the file at a position of
a member slot, the static IP (or the no-IP sentinel) of a slot, and the provisioning
of the volumes of a slot by the cloud adapter, which succeeds with the volume IDs or
fails with an error kind. -/
structure ManageEnv where
  statusCreating : String
  statusInitializing : String
  skipMtime : Bool
  GenMD5 : String → String
  domain : String
  hostedZoneID : String
  fileMode : Nat
  genFileID : Nat → Nat → String
  staticIP : Nat → String
  provisionVolumes : Nat → Except ErrorKind MemberVolumes

/-- Modelled from the spec: a config file record is created once for each file of the
request, from position `j` on, and referenced from the member by
`{fileName, fileID, fileMD5}` (section 3; part of the missing `CreateService` of the
management layer).  The result is the list of references and the catalog. -/
def createConfigFiles (env : ManageEnv) (serviceUUID : String) (slot : Nat) (now : Int) :
    List ReplicaConfigFile → Nat → MemDB →
      Except ErrorKind (List (Option MemberConfig) × MemDB)
  | [], _, db => Except.ok ([], db)
  | f :: fs, j, db =>
    match db.CreateConfigFile
        (CreateInitialConfigFile env.GenMD5 serviceUUID (env.genFileID slot j) f.FileName
          env.fileMode f.Content now) with
    | Except.error e => Except.error e
    | Except.ok db1 =>
      match createConfigFiles env serviceUUID slot now fs (j + 1) db1 with
      | Except.error e => Except.error e
      | Except.ok (refs, db2) =>
        Except.ok
          (some
            { FileName := f.FileName
              FileID := env.genFileID slot j
              FileMD5 := env.GenMD5 f.Content } :: refs, db2)

/-- Modelled from the spec: the member of slot `N` of a new service: its volumes are
provisioned, its config files created, and the member record `serviceName-N` is
created with sentinel ownership (section 3; part of the missing `CreateService` of
the management layer). -/
def createMember (env : ManageEnv) (req : CreateServiceRequest) (serviceUUID : String)
    (now : Int) (slot : Nat) (db : MemDB) : Except ErrorKind MemDB :=
  match env.provisionVolumes slot with
  | Except.error e => Except.error e
  | Except.ok vols =>
    match createConfigFiles env serviceUUID slot now req.Configs 0 db with
    | Except.error e => Except.error e
    | Except.ok (refs, db1) =>
      db1.CreateServiceMember
        (CreateInitialServiceMember serviceUUID slot
          (req.ServiceName ++ "-" ++ toString slot) req.Zone vols (env.staticIP slot) refs
          now)

/-- Modelled from the spec: the members of the given slots are created one after the
other; the first failure ends the creation with its error (part of the missing
`CreateService` of the management layer). -/
def createMembers (env : ManageEnv) (req : CreateServiceRequest) (serviceUUID : String)
    (now : Int) : List Nat → MemDB → Except ErrorKind MemDB
  | [], db => Except.ok db
  | slot :: slots, db =>
    match createMember env req serviceUUID now slot db with
    | Except.error e => Except.error e
    | Except.ok db1 => createMembers env req serviceUUID now slots db1

/-- Modelled from the spec: the missing `CreateService` of the management layer, by
the service lifecycle of section 3: `ServiceAttr(Creating)` is created for the new
`serviceUUID`, then the members `serviceName-N` for `N` in `[0, replicas)` with
sentinel ownership and their provisioned volumes, then the status is set to
Initializing.  The result is the catalog after the creation or the error that ended
it. -/
def CreateService (env : ManageEnv) (db : MemDB) (req : CreateServiceRequest)
    (serviceUUID : String) (now : Int) : Except ErrorKind MemDB :=
  match db.CreateServiceAttr
      (CreateInitialServiceAttr env.statusCreating serviceUUID req.Replicas req.Cluster
        req.ServiceName req.Volumes req.RegisterDNS env.domain env.hostedZoneID
        req.RequireStaticIP [] now) with
  | Except.error e => Except.error e
  | Except.ok db1 =>
    match createMembers env req serviceUUID now (List.range req.Replicas) db1 with
    | Except.error e => Except.error e
    | Except.ok db2 =>
      db2.UpdateServiceAttr env.skipMtime
        (CreateInitialServiceAttr env.statusCreating serviceUUID req.Replicas req.Cluster
          req.ServiceName req.Volumes req.RegisterDNS env.domain env.hostedZoneID
          req.RequireStaticIP [] now)
        (UpdateServiceAttr
          (CreateInitialServiceAttr env.statusCreating serviceUUID req.Replicas req.Cluster
            req.ServiceName req.Volumes req.RegisterDNS env.domain env.hostedZoneID
            req.RequireStaticIP [] now)
          env.statusInitializing now)

/-! ## Sample driver set-up used by the concrete evaluations below -/

/-- The member of index `i` of service `uuid1` as `TestFindIdleVolume` creates
it: task `taskID`, container instance `contInsID`, server `serverInsID`, zone `az`. -/
def testMember (i : Int) (memberName az taskID contInsID serverInsID : String) :
    ServiceMember :=
  CreateServiceMember "uuid1" i memberName az taskID contInsID serverInsID 100
    { PrimaryVolumeID := "vol-" ++ memberName
      PrimaryDeviceName := "/dev/xvdf"
      JournalVolumeID := ""
      JournalDeviceName := "" }
    "127.0.0.1" []

/-- Five members in zone `az`, member `i` owned by task `task-i` on `contins-i` of
`serverins-i`, as in `TestFindIdleVolume`. -/
def testMembers (az : String) : List ServiceMember :=
  [testMember 0 "service1-0" az "task-0" "contins-0" "serverins-0",
   testMember 1 "service1-1" az "task-1" "contins-1" "serverins-1",
   testMember 2 "service1-2" az "task-2" "contins-2" "serverins-2",
   testMember 3 "service1-3" az "task-3" "contins-3" "serverins-3",
   testMember 4 "service1-4" az "task-4" "contins-4" "serverins-4"]

/-- A sixth member whose recorded owner is the local host of `testEnv`. -/
def testLocalMember (az : String) : ServiceMember :=
  testMember 6 "service1-6" az "task-6" "local-contins" "local-server"

/-- The attributes of `service1` with the given status and static-IP requirement. -/
def testAttr (status : String) (requireStaticIP : Bool) : ServiceAttr :=
  CreateServiceAttr "uuid1" status 100 5 "cluster1" "service1"
    { PrimaryDeviceName := "/dev/xvdf"
      PrimaryVolume := { VolumeType := "gp2", Iops := 0, VolumeSizeGB := 1 }
      JournalDeviceName := ""
      JournalVolume := { VolumeType := "", Iops := 0, VolumeSizeGB := 0 } }
    true "test.com" "hostedzone" requireStaticIP []

/-- The local host `local-server` / `local-contins` in zone `local-az`, with tasks
`task-0` and `task-1` live, a catalog that compares mtime, cloud, DNS and file system
steps of a mount that always succeed and leave the catalog as it is, and steps 4 and
5 of an unmount that always succeed. -/
def testEnv : DriverEnv :=
  { root := "/mnt/firecamp"
    host :=
      { ServerInstanceID := "local-server"
        ContainerInstanceID := "local-contins"
        AvailableZone := "local-az" }
    statusInitializing := "INITIALIZING"
    statusActive := "ACTIVE"
    liveTasks := fun _ _ => ["task-0", "task-1"]
    localTask := fun _ _ => "task-local"
    skipMtime := false
    attachVolumes := fun db _ _ => (Except.ok (), db)
    materializeConfigs := fun _ _ _ => Except.ok ()
    detachVolumes := fun _ _ => Except.ok () }

/-- A driver state with nothing mounted, whose catalog holds `service1` with the given
status and static-IP requirement and the given members. -/
def testState (status : String) (requireStaticIP : Bool) (members : List ServiceMember) :
    DriverState :=
  { db := { attrs := [testAttr status requireStaticIP], members := members }
    volumes := [] }

/-- A member of a second service `uuid2`, in the zone of the local host and owned by
it. -/
def testOtherMember : ServiceMember :=
  CreateServiceMember "uuid2" 0 "service2-0" "local-az" "task-local" "local-contins"
    "local-server" 100
    { PrimaryVolumeID := "vol-service2-0"
      PrimaryDeviceName := "/dev/xvdg"
      JournalVolumeID := ""
      JournalDeviceName := "" }
    "127.0.0.1" []

/-- A driver state whose catalog holds `service1` as active with its five members in
zone `another-az`, and in which the local host has mounted the volume of the member
`testOtherMember` of the second service once. -/
def testStateOtherMounted (requireStaticIP : Bool) : DriverState :=
  { db :=
      { attrs := [testAttr "ACTIVE" requireStaticIP]
        members := testMembers "another-az" ++ [testOtherMember] }
    volumes := [{ pathKey := "uuid2", refCount := 1, member := testOtherMember }]
    mountedPaths := ["/mnt/firecamp/uuid2"] }

/-- The sample member with a nil entry as its only config reference. -/
def sampleMemberNilConfig : ServiceMember :=
  { sampleMember with Configs := [none] }

/-- A management set-up whose cloud adapter provisions the volume `vol-N` for slot
`N` and whose file IDs are `file-N-j`. -/
def testManageEnv : ManageEnv :=
  { statusCreating := "CREATING"
    statusInitializing := "INITIALIZING"
    skipMtime := false
    GenMD5 := sampleMD5
    domain := "test.com"
    hostedZoneID := "hostedzone"
    fileMode := 384
    genFileID := fun slot j => "file-" ++ toString slot ++ "-" ++ toString j
    staticIP := fun _ => "127.0.0.1"
    provisionVolumes := fun slot =>
      Except.ok
        { PrimaryVolumeID := "vol-" ++ toString slot
          PrimaryDeviceName := "/dev/xvdf"
          JournalVolumeID := ""
          JournalDeviceName := "" } }

/-- The request of scenario S1: service `svc1` with 3 replicas in zone `az-1`, DNS
registered, no static IP, and the config file `c.conf` with content `hello`. -/
def testCreateRequest : CreateServiceRequest :=
  { Cluster := "cluster1"
    ServiceName := "svc1"
    Replicas := 3
    Zone := "az-1"
    Volumes :=
      { PrimaryDeviceName := "/dev/xvdf"
        PrimaryVolume := { VolumeType := "gp2", Iops := 0, VolumeSizeGB := 1 }
        JournalDeviceName := ""
        JournalVolume := { VolumeType := "", Iops := 0, VolumeSizeGB := 0 } }
    RegisterDNS := true
    RequireStaticIP := false
    Configs := [{ FileName := "c.conf", Content := "hello" }] }

/-! ## Shared lemmas -/

theorem EqualMemberVolumes_iff (v1 v2 : MemberVolumes) :
    EqualMemberVolumes v1 v2 = true ↔
      v1.PrimaryVolumeID = v2.PrimaryVolumeID ∧ v1.PrimaryDeviceName = v2.PrimaryDeviceName ∧
      v1.JournalVolumeID = v2.JournalVolumeID ∧ v1.JournalDeviceName = v2.JournalDeviceName := by
  unfold EqualMemberVolumes
  split <;> simp_all

theorem EqualMemberVolumes_self (v : MemberVolumes) : EqualMemberVolumes v v = true := by
  simp [EqualMemberVolumes_iff]

theorem EqualServiceVolume_self (v : ServiceVolume) : EqualServiceVolume v v = true := by
  simp [EqualServiceVolume]

theorem EqualServiceVolumes_self (v : ServiceVolumes) : EqualServiceVolumes v v = true := by
  simp [EqualServiceVolumes, EqualServiceVolume_self]

/-! ## Config file checksum (C1, C2) -/

/-- C1: `CreateConfigFile` returns an error, and then no record, exactly when
`GenMD5 content` differs from `fileMD5`, and it returns a record, and then no error,
exactly when the two are equal. -/
theorem CreateConfigFile_error_iff_md5_differs (GenMD5 : String → String)
    (serviceUUID fileID fileMD5 fileName : String) (fileMode : Nat) (mtime : Int)
    (content : String) :
    ((∃ e, CreateConfigFile GenMD5 serviceUUID fileID fileMD5 fileName fileMode mtime content
        = Except.error e) ↔ GenMD5 content ≠ fileMD5) ∧
    ((∃ c, CreateConfigFile GenMD5 serviceUUID fileID fileMD5 fileName fileMode mtime content
        = Except.ok c) ↔ GenMD5 content = fileMD5) := by
  unfold CreateConfigFile
  by_cases h : GenMD5 content = fileMD5 <;> simp [h]

/-- C2: every record produced by `CreateInitialConfigFile`, by a successful
`CreateConfigFile` or by `UpdateConfigFile` has `FileMD5` equal to `GenMD5` of its
`Content`, whatever the arguments and whatever record is passed to `UpdateConfigFile`;
and `CreateConfigFile` does succeed whenever the checksum it is given matches. -/
theorem ConfigFile_md5_of_constructors (GenMD5 : String → String)
    (serviceUUID fileID fileMD5 fileName : String) (fileMode : Nat) (mtime now : Int)
    (content : String) (c : ConfigFile) (newFileID newContent : String) :
    (CreateInitialConfigFile GenMD5 serviceUUID fileID fileName fileMode content now).FileMD5
      = GenMD5
          (CreateInitialConfigFile GenMD5 serviceUUID fileID fileName fileMode content now).Content ∧
    (∀ r, CreateConfigFile GenMD5 serviceUUID fileID fileMD5 fileName fileMode mtime content
        = Except.ok r → r.FileMD5 = GenMD5 r.Content) ∧
    (GenMD5 content = fileMD5 →
      ∃ r, CreateConfigFile GenMD5 serviceUUID fileID fileMD5 fileName fileMode mtime content
        = Except.ok r ∧ r.FileMD5 = GenMD5 r.Content) ∧
    (UpdateConfigFile GenMD5 c newFileID newContent now).FileMD5
      = GenMD5 (UpdateConfigFile GenMD5 c newFileID newContent now).Content := by
  refine ⟨rfl, ?_, ?_, rfl⟩
  · intro r hr
    unfold CreateConfigFile at hr
    by_cases h : GenMD5 content = fileMD5
    · simp [h] at hr
      subst hr
      exact h.symm
    · simp [h] at hr
  · intro h
    unfold CreateConfigFile
    simp [h]

/-! ## Ownership claim (C3, C4, C5) -/

/-- C3 (the code departs from the claim): `UpdateServiceMemberOwner` keeps
`ServiceUUID`, `MemberName`, `AvailableZone`, `Volumes`, `StaticIP` and `Configs` of
its argument, but the record it returns always has `MemberIndex = 0`; for the sample
member of index 2 the returned index differs from the one passed in. -/
theorem UpdateServiceMemberOwner_resets_MemberIndex :
    (∀ (m : ServiceMember) (taskID containerInstanceID serverInstanceID : String) (now : Int),
      (UpdateServiceMemberOwner m taskID containerInstanceID serverInstanceID now).MemberIndex = 0 ∧
      (UpdateServiceMemberOwner m taskID containerInstanceID serverInstanceID now).ServiceUUID
        = m.ServiceUUID ∧
      (UpdateServiceMemberOwner m taskID containerInstanceID serverInstanceID now).MemberName
        = m.MemberName ∧
      (UpdateServiceMemberOwner m taskID containerInstanceID serverInstanceID now).AvailableZone
        = m.AvailableZone ∧
      (UpdateServiceMemberOwner m taskID containerInstanceID serverInstanceID now).Volumes
        = m.Volumes ∧
      (UpdateServiceMemberOwner m taskID containerInstanceID serverInstanceID now).StaticIP
        = m.StaticIP ∧
      (UpdateServiceMemberOwner m taskID containerInstanceID serverInstanceID now).Configs
        = m.Configs) ∧
    sampleMember.MemberIndex = 2 ∧
    (UpdateServiceMemberOwner sampleMember "task-9" "cont-9" "server-9" 200).MemberIndex = 0 ∧
    (UpdateServiceMemberOwner sampleMember "task-9" "cont-9" "server-9" 200).MemberIndex
      ≠ sampleMember.MemberIndex := by
  refine ⟨fun m t c s now => ⟨rfl, rfl, rfl, rfl, rfl, rfl, rfl⟩, rfl, rfl, ?_⟩
  decide

/-- C4: when the new owner triple differs from the member's current triple in at
least one component, `EqualServiceMember` of the member and of the record returned by
`UpdateServiceMemberOwner` is `false` (it returns, and returns false) for both values
of `skipMtime` and in both argument orders, so the pre-claim record never matches the
record another owner's claim stored. -/
theorem EqualServiceMember_UpdateServiceMemberOwner_false (m : ServiceMember)
    (taskID containerInstanceID serverInstanceID : String) (now : Int) (skipMtime : Bool)
    (h : taskID ≠ m.TaskID ∨ containerInstanceID ≠ m.ContainerInstanceID ∨
      serverInstanceID ≠ m.ServerInstanceID) :
    EqualServiceMember m
        (UpdateServiceMemberOwner m taskID containerInstanceID serverInstanceID now) skipMtime
      = some false ∧
    EqualServiceMember
        (UpdateServiceMemberOwner m taskID containerInstanceID serverInstanceID now) m skipMtime
      = some false := by
  constructor
  · unfold EqualServiceMember UpdateServiceMemberOwner
    rw [if_neg]
    rintro ⟨-, -, -, -, h1, h2, h3, -⟩
    simp only at h1 h2 h3
    rcases h with h | h | h
    · exact h h1.symm
    · exact h h2.symm
    · exact h h3.symm
  · unfold EqualServiceMember UpdateServiceMemberOwner
    rw [if_neg]
    rintro ⟨-, -, -, -, h1, h2, h3, -⟩
    simp only at h1 h2 h3
    rcases h with h | h | h
    · exact h h1
    · exact h h2
    · exact h h3

/-- Witness of C4 at the sample member (owned by `task-2`) claimed by another host. -/
theorem EqualServiceMember_UpdateServiceMemberOwner_false_witness :
    ("task-9" ≠ sampleMember.TaskID ∨ "cont-9" ≠ sampleMember.ContainerInstanceID ∨
      "server-9" ≠ sampleMember.ServerInstanceID) ∧
    EqualServiceMember sampleMember
        (UpdateServiceMemberOwner sampleMember "task-9" "cont-9" "server-9" 200) true
      = some false ∧
    EqualServiceMember
        (UpdateServiceMemberOwner sampleMember "task-9" "cont-9" "server-9" 200) sampleMember true
      = some false :=
  ⟨Or.inl (by decide),
    EqualServiceMember_UpdateServiceMemberOwner_false sampleMember "task-9" "cont-9" "server-9"
      200 true (Or.inl (by decide))⟩

/-- C5: the record returned by `UpdateServiceMemberOwner` has `TaskID`,
`ContainerInstanceID` and `ServerInstanceID` equal to the second, third and fourth
argument, in that order, and `LastModified` equal to the clock reading of the call. -/
theorem UpdateServiceMemberOwner_sets_owner (m : ServiceMember)
    (taskID containerInstanceID serverInstanceID : String) (now : Int) :
    (UpdateServiceMemberOwner m taskID containerInstanceID serverInstanceID now).TaskID
      = taskID ∧
    (UpdateServiceMemberOwner m taskID containerInstanceID serverInstanceID now).ContainerInstanceID
      = containerInstanceID ∧
    (UpdateServiceMemberOwner m taskID containerInstanceID serverInstanceID now).ServerInstanceID
      = serverInstanceID ∧
    (UpdateServiceMemberOwner m taskID containerInstanceID serverInstanceID now).LastModified
      = now :=
  ⟨rfl, rfl, rfl, rfl⟩

/-! ## Config reference swap (C6) -/

/-- C6 (the code departs from the claim): `UpdateServiceMemberConfigs` returns a
record whose `Configs` is the list passed in and which keeps `ServiceUUID`,
`MemberName`, `AvailableZone`, the owner triple, `Volumes` and `StaticIP` of its
argument, but whose `MemberIndex` is always 0; for the sample member of index 2 the
returned index differs from the one passed in. -/
theorem UpdateServiceMemberConfigs_resets_MemberIndex :
    (∀ (m : ServiceMember) (c : List (Option MemberConfig)) (now : Int),
      (UpdateServiceMemberConfigs m c now).Configs = c ∧
      (UpdateServiceMemberConfigs m c now).MemberIndex = 0 ∧
      (UpdateServiceMemberConfigs m c now).ServiceUUID = m.ServiceUUID ∧
      (UpdateServiceMemberConfigs m c now).MemberName = m.MemberName ∧
      (UpdateServiceMemberConfigs m c now).AvailableZone = m.AvailableZone ∧
      (UpdateServiceMemberConfigs m c now).TaskID = m.TaskID ∧
      (UpdateServiceMemberConfigs m c now).ContainerInstanceID = m.ContainerInstanceID ∧
      (UpdateServiceMemberConfigs m c now).ServerInstanceID = m.ServerInstanceID ∧
      (UpdateServiceMemberConfigs m c now).Volumes = m.Volumes ∧
      (UpdateServiceMemberConfigs m c now).StaticIP = m.StaticIP) ∧
    sampleMember.MemberIndex = 2 ∧
    (UpdateServiceMemberConfigs sampleMember [] 200).MemberIndex = 0 ∧
    (UpdateServiceMemberConfigs sampleMember [] 200).MemberIndex ≠ sampleMember.MemberIndex := by
  refine ⟨fun m c now => ⟨rfl, rfl, rfl, rfl, rfl, rfl, rfl, rfl, rfl, rfl⟩, rfl, rfl, ?_⟩
  decide

/-! ## Member comparison (C7, C8) -/

theorem equalConfigsLoop_eq_true_iff (c1 c2 : List (Option MemberConfig))
    (hlen : c1.length = c2.length) :
    equalConfigsLoop c1 c2 = some true ↔
      List.Forall₂ (fun p q => ∃ x y, p = some x ∧ q = some y ∧
        x.FileName = y.FileName ∧ x.FileID = y.FileID ∧ x.FileMD5 = y.FileMD5) c1 c2 := by
  induction c1 generalizing c2 with
  | nil =>
    cases c2 with
    | nil => simp [equalConfigsLoop]
    | cons q c2 => simp at hlen
  | cons p c1 ih =>
    cases c2 with
    | nil => simp at hlen
    | cons q c2 =>
      have hlen2 : c1.length = c2.length := by simpa using hlen
      cases p with
      | none => simp [equalConfigsLoop]
      | some x =>
        cases q with
        | none => simp [equalConfigsLoop]
        | some y =>
          by_cases hxy : x.FileName ≠ y.FileName ∨ x.FileID ≠ y.FileID ∨ x.FileMD5 ≠ y.FileMD5
          · have hne : ¬ (x.FileName = y.FileName ∧ x.FileID = y.FileID ∧ x.FileMD5 = y.FileMD5) := by
              rintro ⟨h1, h2, h3⟩
              rcases hxy with h | h | h
              · exact h h1
              · exact h h2
              · exact h h3
            simp [equalConfigsLoop, hxy, hne]
          · have heq : x.FileName = y.FileName ∧ x.FileID = y.FileID ∧ x.FileMD5 = y.FileMD5 := by
              by_contra hcon
              apply hxy
              by_cases h1 : x.FileName = y.FileName
              · by_cases h2 : x.FileID = y.FileID
                · by_cases h3 : x.FileMD5 = y.FileMD5
                  · exact absurd ⟨h1, h2, h3⟩ hcon
                  · exact Or.inr (Or.inr h3)
                · exact Or.inr (Or.inl h2)
              · exact Or.inl h1
            simp [equalConfigsLoop, hxy, heq, ih c2 hlen2]

theorem equalConfigs_eq_true_iff (c1 c2 : List (Option MemberConfig)) :
    equalConfigs c1 c2 = some true ↔
      c1.length = c2.length ∧
      ∀ i, i < c1.length → ∃ x y, c1[i]? = some (some x) ∧ c2[i]? = some (some y) ∧
        x.FileName = y.FileName ∧ x.FileID = y.FileID ∧ x.FileMD5 = y.FileMD5 := by
  unfold equalConfigs
  by_cases hlen : c1.length = c2.length
  · rw [if_neg (not_not.mpr hlen), equalConfigsLoop_eq_true_iff c1 c2 hlen, List.forall₂_iff_get]
    constructor
    · rintro ⟨-, h⟩
      refine ⟨hlen, fun i hi => ?_⟩
      obtain ⟨x, y, hx, hy, hrest⟩ := h i hi (hlen ▸ hi)
      refine ⟨x, y, ?_, ?_, hrest⟩
      · rw [List.getElem?_eq_getElem hi]
        exact congrArg some hx
      · rw [List.getElem?_eq_getElem (hlen ▸ hi)]
        exact congrArg some hy
    · rintro ⟨-, h⟩
      refine ⟨hlen, fun i h1 h2 => ?_⟩
      obtain ⟨x, y, hx, hy, hrest⟩ := h i h1
      refine ⟨x, y, ?_, ?_, hrest⟩
      · rw [List.getElem?_eq_getElem h1] at hx
        exact Option.some.inj hx
      · rw [List.getElem?_eq_getElem h2] at hy
        exact Option.some.inj hy
  · rw [if_pos hlen]
    simp [hlen]

/-- C7: `EqualServiceMember a b false` returns true exactly when `a` and `b` agree on
`ServiceUUID`, `MemberIndex`, `MemberName`, `AvailableZone`, `TaskID`,
`ContainerInstanceID`, `ServerInstanceID`, `LastModified`, the four `Volumes` fields
and `StaticIP`, and their `Configs` have the same length and, at every position,
entries with equal `FileName`, `FileID` and `FileMD5`. -/
theorem EqualServiceMember_false_eq_true_iff (a b : ServiceMember) :
    EqualServiceMember a b false = some true ↔
      a.ServiceUUID = b.ServiceUUID ∧
      a.MemberIndex = b.MemberIndex ∧
      a.MemberName = b.MemberName ∧
      a.AvailableZone = b.AvailableZone ∧
      a.TaskID = b.TaskID ∧
      a.ContainerInstanceID = b.ContainerInstanceID ∧
      a.ServerInstanceID = b.ServerInstanceID ∧
      a.LastModified = b.LastModified ∧
      a.Volumes.PrimaryVolumeID = b.Volumes.PrimaryVolumeID ∧
      a.Volumes.PrimaryDeviceName = b.Volumes.PrimaryDeviceName ∧
      a.Volumes.JournalVolumeID = b.Volumes.JournalVolumeID ∧
      a.Volumes.JournalDeviceName = b.Volumes.JournalDeviceName ∧
      a.StaticIP = b.StaticIP ∧
      a.Configs.length = b.Configs.length ∧
      ∀ i, i < a.Configs.length →
        ∃ x y, a.Configs[i]? = some (some x) ∧ b.Configs[i]? = some (some y) ∧
          x.FileName = y.FileName ∧ x.FileID = y.FileID ∧ x.FileMD5 = y.FileMD5 := by
  unfold EqualServiceMember
  split
  · rename_i h
    rw [equalConfigs_eq_true_iff]
    obtain ⟨h1, h2, h3, h4, h5, h6, h7, h8, h9, h10⟩ := h
    have h8b : a.LastModified = b.LastModified := by simpa using h8
    obtain ⟨v1, v2, v3, v4⟩ := (EqualMemberVolumes_iff _ _).mp h9
    constructor
    · rintro ⟨hl, hc⟩
      exact ⟨h1, h2, h3, h4, h5, h6, h7, h8b, v1, v2, v3, v4, h10, hl, hc⟩
    · rintro ⟨-, -, -, -, -, -, -, -, -, -, -, -, -, hl, hc⟩
      exact ⟨hl, hc⟩
  · rename_i h
    constructor
    · intro hf
      simp at hf
    · rintro ⟨h1, h2, h3, h4, h5, h6, h7, h8, v1, v2, v3, v4, h10, -, -⟩
      exact absurd ⟨h1, h2, h3, h4, h5, h6, h7, Or.inr h8,
        (EqualMemberVolumes_iff _ _).mpr ⟨v1, v2, v3, v4⟩, h10⟩ h

/-- C8: `skipMtime` excludes the `LastModified` field and nothing else.
`EqualServiceMember a b true` returns the same result as `EqualServiceMember`
with `skipMtime = false` on `a` with `LastModified` replaced by that of `b`, so one
holds exactly when the other does; and likewise for `EqualServiceAttr`. -/
theorem skipMtime_excludes_only_LastModified (a b : ServiceMember) (s t : ServiceAttr) :
    (EqualServiceMember a b true = some true ↔
      EqualServiceMember { a with LastModified := b.LastModified } b false = some true) ∧
    EqualServiceMember a b true
      = EqualServiceMember { a with LastModified := b.LastModified } b false ∧
    (EqualServiceAttr s t true = true ↔
      EqualServiceAttr { s with LastModified := t.LastModified } t false = true) ∧
    EqualServiceAttr s t true
      = EqualServiceAttr { s with LastModified := t.LastModified } t false := by
  have hm : EqualServiceMember a b true
      = EqualServiceMember { a with LastModified := b.LastModified } b false := by
    simp [EqualServiceMember]
  have hs : EqualServiceAttr s t true
      = EqualServiceAttr { s with LastModified := t.LastModified } t false := by
    simp [EqualServiceAttr]
  exact ⟨by rw [hm], hm, by rw [hs], hs⟩

/-! ## Initial records (C9, C10) -/

/-- C9: the member returned by `CreateInitialServiceMember` carries the sentinel
triple `defaultTaskID`, `defaultContainerInstanceID`, `defaultServerInstanceID`, its
other fields except `LastModified` are the arguments, and it is the record
`CreateServiceMember` builds from the same arguments and the sentinel triple, once
`LastModified` is set to the clock reading. -/
theorem CreateInitialServiceMember_sentinel (serviceUUID : String) (memberIndex : Int)
    (memberName az : String) (vols : MemberVolumes) (staticIP : String)
    (configs : List (Option MemberConfig)) (now mtime : Int) :
    (CreateInitialServiceMember serviceUUID memberIndex memberName az vols staticIP configs
        now).TaskID = "defaultTaskID" ∧
    (CreateInitialServiceMember serviceUUID memberIndex memberName az vols staticIP configs
        now).ContainerInstanceID = "defaultContainerInstanceID" ∧
    (CreateInitialServiceMember serviceUUID memberIndex memberName az vols staticIP configs
        now).ServerInstanceID = "defaultServerInstanceID" ∧
    (CreateInitialServiceMember serviceUUID memberIndex memberName az vols staticIP configs
        now).ServiceUUID = serviceUUID ∧
    (CreateInitialServiceMember serviceUUID memberIndex memberName az vols staticIP configs
        now).MemberIndex = memberIndex ∧
    (CreateInitialServiceMember serviceUUID memberIndex memberName az vols staticIP configs
        now).MemberName = memberName ∧
    (CreateInitialServiceMember serviceUUID memberIndex memberName az vols staticIP configs
        now).AvailableZone = az ∧
    (CreateInitialServiceMember serviceUUID memberIndex memberName az vols staticIP configs
        now).Volumes = vols ∧
    (CreateInitialServiceMember serviceUUID memberIndex memberName az vols staticIP configs
        now).StaticIP = staticIP ∧
    (CreateInitialServiceMember serviceUUID memberIndex memberName az vols staticIP configs
        now).Configs = configs ∧
    CreateInitialServiceMember serviceUUID memberIndex memberName az vols staticIP configs now
      = { CreateServiceMember serviceUUID memberIndex memberName az DefaultTaskID
            DefaultContainerInstanceID DefaultServerInstanceID mtime vols staticIP configs
          with LastModified := now } :=
  ⟨rfl, rfl, rfl, rfl, rfl, rfl, rfl, rfl, rfl, rfl, rfl⟩

/-- C10: the attribute returned by `CreateInitialServiceAttr` has `ServiceStatus`
equal to the Creating status, every other field except `LastModified` equal to the
argument, and `EqualServiceAttr` with `skipMtime = true` holds between it and
`CreateServiceAttr` of the same arguments, status Creating and any mtime. -/
theorem CreateInitialServiceAttr_creating (ServiceStatusCreating : String)
    (serviceUUID : String) (replicas : Int) (cluster service : String) (vols : ServiceVolumes)
    (registerDNS : Bool) (domain hostedZoneID : String) (requireStaticIP : Bool)
    (userAttr : List (Fin 256)) (now mtime : Int) :
    (CreateInitialServiceAttr ServiceStatusCreating serviceUUID replicas cluster service vols
        registerDNS domain hostedZoneID requireStaticIP userAttr now).ServiceStatus
      = ServiceStatusCreating ∧
    (CreateInitialServiceAttr ServiceStatusCreating serviceUUID replicas cluster service vols
        registerDNS domain hostedZoneID requireStaticIP userAttr now).ServiceUUID = serviceUUID ∧
    (CreateInitialServiceAttr ServiceStatusCreating serviceUUID replicas cluster service vols
        registerDNS domain hostedZoneID requireStaticIP userAttr now).Replicas = replicas ∧
    (CreateInitialServiceAttr ServiceStatusCreating serviceUUID replicas cluster service vols
        registerDNS domain hostedZoneID requireStaticIP userAttr now).ClusterName = cluster ∧
    (CreateInitialServiceAttr ServiceStatusCreating serviceUUID replicas cluster service vols
        registerDNS domain hostedZoneID requireStaticIP userAttr now).ServiceName = service ∧
    (CreateInitialServiceAttr ServiceStatusCreating serviceUUID replicas cluster service vols
        registerDNS domain hostedZoneID requireStaticIP userAttr now).Volumes = vols ∧
    (CreateInitialServiceAttr ServiceStatusCreating serviceUUID replicas cluster service vols
        registerDNS domain hostedZoneID requireStaticIP userAttr now).RegisterDNS = registerDNS ∧
    (CreateInitialServiceAttr ServiceStatusCreating serviceUUID replicas cluster service vols
        registerDNS domain hostedZoneID requireStaticIP userAttr now).DomainName = domain ∧
    (CreateInitialServiceAttr ServiceStatusCreating serviceUUID replicas cluster service vols
        registerDNS domain hostedZoneID requireStaticIP userAttr now).HostedZoneID
      = hostedZoneID ∧
    (CreateInitialServiceAttr ServiceStatusCreating serviceUUID replicas cluster service vols
        registerDNS domain hostedZoneID requireStaticIP userAttr now).RequireStaticIP
      = requireStaticIP ∧
    (CreateInitialServiceAttr ServiceStatusCreating serviceUUID replicas cluster service vols
        registerDNS domain hostedZoneID requireStaticIP userAttr now).UserAttr = userAttr ∧
    EqualServiceAttr
        (CreateInitialServiceAttr ServiceStatusCreating serviceUUID replicas cluster service vols
          registerDNS domain hostedZoneID requireStaticIP userAttr now)
        (CreateServiceAttr serviceUUID ServiceStatusCreating mtime replicas cluster service vols
          registerDNS domain hostedZoneID requireStaticIP userAttr)
        true = true := by
  refine ⟨rfl, rfl, rfl, rfl, rfl, rfl, rfl, rfl, rfl, rfl, rfl, ?_⟩
  simp [EqualServiceAttr, CreateInitialServiceAttr, CreateServiceAttr, EqualServiceVolumes_self]

/-! ## Static IP update and config file revision (C11, C12) -/

/-- C11: `UpdateServiceStaticIP` returns a record whose `ServerInstanceID` and
`NetworkInterfaceID` are the two arguments and whose `StaticIP` (the key),
`ServiceUUID` and `AvailableZone` are those of the record passed in. -/
theorem UpdateServiceStaticIP_frame (r : ServiceStaticIP)
    (serverInstanceID netInterfaceID : String) :
    (UpdateServiceStaticIP r serverInstanceID netInterfaceID).ServerInstanceID
      = serverInstanceID ∧
    (UpdateServiceStaticIP r serverInstanceID netInterfaceID).NetworkInterfaceID
      = netInterfaceID ∧
    (UpdateServiceStaticIP r serverInstanceID netInterfaceID).StaticIP = r.StaticIP ∧
    (UpdateServiceStaticIP r serverInstanceID netInterfaceID).ServiceUUID = r.ServiceUUID ∧
    (UpdateServiceStaticIP r serverInstanceID netInterfaceID).AvailableZone = r.AvailableZone :=
  ⟨rfl, rfl, rfl, rfl, rfl⟩

/-- C12 as stated fails: called with the `FileID` of the revision it replaces,
`UpdateConfigFile` returns a record that carries that same `FileID`. -/
theorem UpdateConfigFile_same_FileID_counterexample :
    ¬ ((UpdateConfigFile sampleMD5 sampleConfigFile "file-1" "world" 200).FileID
        ≠ sampleConfigFile.FileID) := by
  decide

/-- C12 amended: the record returned by `UpdateConfigFile` has `FileID` equal to the
`newFileID` argument, so for every `newFileID` different from `c.FileID` it differs
from the `FileID` of the revision it replaces. -/
theorem UpdateConfigFile_new_FileID (GenMD5 : String → String) (c : ConfigFile)
    (newFileID newContent : String) (now : Int) (h : newFileID ≠ c.FileID) :
    (UpdateConfigFile GenMD5 c newFileID newContent now).FileID = newFileID ∧
    (UpdateConfigFile GenMD5 c newFileID newContent now).FileID ≠ c.FileID :=
  ⟨rfl, h⟩

/-- Witness of the amended C12: replacing revision `file-1` by revision `file-2`. -/
theorem UpdateConfigFile_new_FileID_witness :
    "file-2" ≠ sampleConfigFile.FileID ∧
    (UpdateConfigFile sampleMD5 sampleConfigFile "file-2" "world" 200).FileID = "file-2" ∧
    (UpdateConfigFile sampleMD5 sampleConfigFile "file-2" "world" 200).FileID
      ≠ sampleConfigFile.FileID :=
  ⟨by decide, UpdateConfigFile_new_FileID sampleMD5 sampleConfigFile "file-2" "world" 200
    (by decide)⟩

/-! ## Request names: auxiliary facts -/

theorem stripPrefix_append (pre r : List Char) : stripPrefix pre (pre ++ r) = some r := by
  induction pre with
  | nil => rfl
  | cons p pre ih => simp [stripPrefix, ih]

theorem stripPrefix_eq_some (pre cs r : List Char) (h : stripPrefix pre cs = some r) :
    cs = pre ++ r := by
  induction pre generalizing cs with
  | nil =>
    simp [stripPrefix] at h
    simp [h]
  | cons p pre ih =>
    cases cs with
    | nil => simp [stripPrefix] at h
    | cons c cs =>
      by_cases hpc : p = c
      · simp [stripPrefix, hpc] at h
        simp [hpc, ih cs h]
      · simp [stripPrefix, hpc] at h

theorem stripPrefix_eq_none_iff (pre cs : List Char) :
    stripPrefix pre cs = none ↔ ¬ pre <+: cs := by
  constructor
  · rintro h ⟨r, rfl⟩
    rw [stripPrefix_append] at h
    exact Option.noConfusion h
  · intro h
    cases hs : stripPrefix pre cs with
    | none => rfl
    | some r => exact absurd ⟨r, (stripPrefix_eq_some pre cs r hs).symm⟩ h

theorem stripPrefix_append_dash (pre u n : List Char) (hpre : '-' ∉ pre)
    (h : stripPrefix pre u = none) : stripPrefix pre (u ++ '-' :: n) = none := by
  induction pre generalizing u with
  | nil => simp [stripPrefix] at h
  | cons p pre ih =>
    have hp : p ≠ '-' := fun hp => hpre (by simp [hp])
    have hpre2 : '-' ∉ pre := fun hm => hpre (List.mem_cons_of_mem _ hm)
    cases u with
    | nil => simp [stripPrefix, hp]
    | cons c cs =>
      by_cases hpc : p = c
      · simp [stripPrefix, hpc] at h
        simp [stripPrefix, hpc, ih cs hpre2 h]
      · simp [stripPrefix, hpc]

theorem splitAtDash_of_not_mem (u : List Char) (hu : '-' ∉ u) : splitAtDash u = (u, none) := by
  induction u with
  | nil => rfl
  | cons c cs ih =>
    have hc : c ≠ '-' := fun hc => hu (by simp [hc])
    have hcs : '-' ∉ cs := fun hm => hu (List.mem_cons_of_mem _ hm)
    simp [splitAtDash, hc, ih hcs]

theorem splitAtDash_append_dash (u n : List Char) (hu : '-' ∉ u) :
    splitAtDash (u ++ '-' :: n) = (u, some n) := by
  induction u with
  | nil => simp [splitAtDash]
  | cons c cs ih =>
    have hc : c ≠ '-' := fun hc => hu (by simp [hc])
    have hcs : '-' ∉ cs := fun hm => hu (List.mem_cons_of_mem _ hm)
    simp [splitAtDash, hc, ih hcs]

theorem splitAtDash_spec (cs : List Char) :
    '-' ∉ (splitAtDash cs).1 ∧
    ((splitAtDash cs).2 = none → cs = (splitAtDash cs).1) ∧
    (∀ n, (splitAtDash cs).2 = some n → cs = (splitAtDash cs).1 ++ '-' :: n) := by
  induction cs with
  | nil => simp [splitAtDash]
  | cons c cs ih =>
    by_cases hc : c = '-'
    · simp [splitAtDash, hc]
    · obtain ⟨h1, h2, h3⟩ := ih
      refine ⟨?_, ?_, ?_⟩
      · simp only [splitAtDash, hc, if_false]
        intro hm
        rcases List.mem_cons.mp hm with h | h
        · exact hc h.symm
        · exact h1 h
      · simp only [splitAtDash, hc, if_false]
        intro hn
        rw [← h2 hn]
      · simp only [splitAtDash, hc, if_false]
        intro n hn
        rw [List.cons_append, ← h3 n hn]

theorem isDecimal_not_mem_dash (n : List Char) (h : isDecimal n = true) : '-' ∉ n := by
  intro hm
  simp only [isDecimal, Bool.and_eq_true, List.all_eq_true] at h
  have := h.2 '-' hm
  exact absurd this (by decide)

theorem digitChar_decimal (d : Nat) (h : d < 10) :
    (Nat.digitChar d).isDigit = true ∧ (Nat.digitChar d).toNat - '0'.toNat = d := by
  interval_cases d <;> decide

theorem isDecimal_append_singleton (xs : List Char) (c : Char) (hc : c.isDigit = true)
    (hxs : xs = [] ∨ isDecimal xs = true) : isDecimal (xs ++ [c]) = true := by
  rcases hxs with h | h
  · subst h
    simp [isDecimal, hc]
  · simp only [isDecimal, Bool.and_eq_true, List.all_eq_true] at h ⊢
    refine ⟨by simp, ?_⟩
    intro x hx
    rcases List.mem_append.mp hx with hx | hx
    · exact h.2 x hx
    · simp only [List.mem_singleton] at hx
      rw [hx]
      exact hc

theorem decimalValue_append_singleton (xs : List Char) (c : Char) :
    decimalValue (xs ++ [c]) = 10 * decimalValue xs + (c.toNat - '0'.toNat) := by
  simp [decimalValue, List.foldl_append]

theorem toDigitsCore_decimal (fuel : Nat) :
    ∀ (n : Nat) (ds : List Char), n < fuel →
      ∃ xs, Nat.toDigitsCore 10 fuel n ds = xs ++ ds ∧ isDecimal xs = true ∧
        decimalValue xs = n := by
  induction fuel with
  | zero => intro n ds h; exact absurd h (Nat.not_lt_zero n)
  | succ fuel ih =>
    intro n ds hn
    obtain ⟨hd1, hd2⟩ := digitChar_decimal (n % 10) (Nat.mod_lt n (by decide))
    by_cases hq : n / 10 = 0
    · refine ⟨[Nat.digitChar (n % 10)], ?_, ?_, ?_⟩
      · simp [Nat.toDigitsCore, hq]
      · simp [isDecimal, hd1]
      · have hlt : n < 10 := by omega
        simp only [decimalValue, List.foldl_cons, List.foldl_nil, hd2]
        omega
    · have hlt : n / 10 < fuel := by omega
      obtain ⟨xs, hxs, hdec, hval⟩ := ih (n / 10) (Nat.digitChar (n % 10) :: ds) hlt
      refine ⟨xs ++ [Nat.digitChar (n % 10)], ?_, ?_, ?_⟩
      · simp [Nat.toDigitsCore, hq, hxs]
      · exact isDecimal_append_singleton xs _ hd1 (Or.inr hdec)
      · rw [decimalValue_append_singleton, hval, hd2]
        omega

theorem toString_nat_decimal (n : Nat) :
    isDecimal (toString n).data = true ∧ decimalValue (toString n).data = n := by
  obtain ⟨xs, hxs, hdec, hval⟩ := toDigitsCore_decimal (n + 1) n [] (Nat.lt_succ_self n)
  have hdata : (toString n).data = Nat.toDigitsCore 10 (n + 1) n [] := rfl
  rw [hdata, hxs, List.append_nil]
  exact ⟨hdec, hval⟩

theorem parseUUIDAndIndex_of_not_mem (u : List Char) (hu : '-' ∉ u) :
    parseUUIDAndIndex u = Except.ok (u, -1) := by
  simp [parseUUIDAndIndex, splitAtDash_of_not_mem u hu]

theorem parseUUIDAndIndex_append_dash (u n : List Char) (hu : '-' ∉ u)
    (hn : isDecimal n = true) :
    parseUUIDAndIndex (u ++ '-' :: n) = Except.ok (u, (decimalValue n : Int) - 1) := by
  simp [parseUUIDAndIndex, splitAtDash_append_dash u n hu, hn]

theorem parseUUIDAndIndex_ok (cs u : List Char) (idx : Int)
    (h : parseUUIDAndIndex cs = Except.ok (u, idx)) :
    '-' ∉ u ∧ ((cs = u ∧ idx = -1) ∨
      ∃ n, isDecimal n = true ∧ cs = u ++ '-' :: n ∧ idx = (decimalValue n : Int) - 1) := by
  obtain ⟨h1, h2, h3⟩ := splitAtDash_spec cs
  unfold parseUUIDAndIndex at h
  cases hs : splitAtDash cs with
  | mk a r =>
    rw [hs] at h h1 h2 h3
    cases r with
    | none =>
      simp only [Except.ok.injEq, Prod.mk.injEq] at h
      obtain ⟨hu, hi⟩ := h
      subst hu
      exact ⟨h1, Or.inl ⟨h2 rfl, hi.symm⟩⟩
    | some n =>
      by_cases hn : isDecimal n = true
      · simp only [hn, if_true, Except.ok.injEq, Prod.mk.injEq] at h
        obtain ⟨hu, hi⟩ := h
        subst hu
        exact ⟨h1, Or.inr ⟨n, hn, h3 n rfl, hi.symm⟩⟩
      · simp [hn] at h

theorem parseUUIDAndIndex_error (cs : List Char) (e : ErrorKind)
    (h : parseUUIDAndIndex cs = Except.error e) : e = ErrorKind.InvalidArgs := by
  unfold parseUUIDAndIndex at h
  cases hs : splitAtDash cs with
  | mk a r =>
    rw [hs] at h
    cases r with
    | none => simp at h
    | some n =>
      by_cases hn : isDecimal n = true
      · simp [hn] at h
      · simp only [hn] at h
        simp at h
        exact h.symm

theorem journal_data : (journalPrefix ++ separator).data = "journal_".data := rfl

theorem parseRequestName_of_journal (name : String) (rest : List Char)
    (h : name.data = (journalPrefix ++ separator).data ++ rest) :
    parseRequestName name =
      match parseUUIDAndIndex rest with
      | Except.ok (u, idx) =>
        Except.ok (String.mk u, journalPrefix ++ separator ++ String.mk u, idx)
      | Except.error e => Except.error e := by
  unfold parseRequestName
  rw [h, stripPrefix_append]

theorem parseRequestName_of_not_journal (name : String)
    (h : ¬ (journalPrefix ++ separator).data <+: name.data) :
    parseRequestName name =
      match parseUUIDAndIndex name.data with
      | Except.ok (u, idx) => Except.ok (String.mk u, String.mk u, idx)
      | Except.error e => Except.error e := by
  unfold parseRequestName
  rw [(stripPrefix_eq_none_iff _ _).mpr h]

theorem parseRequestName_error (name : String) (e : ErrorKind)
    (h : parseRequestName name = Except.error e) : e = ErrorKind.InvalidArgs := by
  unfold parseRequestName at h
  cases hs : stripPrefix (journalPrefix ++ separator).data name.data with
  | some rest =>
    rw [hs] at h
    dsimp only at h
    cases hp : parseUUIDAndIndex rest with
    | ok r => rw [hp] at h; simp at h
    | error e2 =>
      rw [hp] at h
      simp only [Except.error.injEq] at h
      exact h ▸ parseUUIDAndIndex_error rest e2 hp
  | none =>
    rw [hs] at h
    dsimp only at h
    cases hp : parseUUIDAndIndex name.data with
    | ok r => rw [hp] at h; simp at h
    | error e2 =>
      rw [hp] at h
      simp only [Except.error.injEq] at h
      exact h ▸ parseUUIDAndIndex_error name.data e2 hp

theorem dash_not_mem_journal : '-' ∉ (journalPrefix ++ separator).data := by decide

theorem data_append_dash (u N : String) : (u ++ "-" ++ N).data = u.data ++ '-' :: N.data := by
  simp [String.data_append]

theorem parseRequestName_bare (u : String) (hu : '-' ∉ u.data)
    (hj : ¬ (journalPrefix ++ separator).data <+: u.data) :
    parseRequestName u = Except.ok (u, u, -1) := by
  rw [parseRequestName_of_not_journal u hj, parseUUIDAndIndex_of_not_mem u.data hu]

theorem parseRequestName_index (u N : String) (hu : '-' ∉ u.data)
    (hj : ¬ (journalPrefix ++ separator).data <+: u.data) (hN : isDecimal N.data = true) :
    parseRequestName (u ++ "-" ++ N) = Except.ok (u, u, (decimalValue N.data : Int) - 1) := by
  have hnj : ¬ (journalPrefix ++ separator).data <+: (u ++ "-" ++ N).data := by
    rw [data_append_dash, ← stripPrefix_eq_none_iff]
    exact stripPrefix_append_dash _ _ _ dash_not_mem_journal
      ((stripPrefix_eq_none_iff _ _).mpr hj)
  rw [parseRequestName_of_not_journal _ hnj, data_append_dash,
    parseUUIDAndIndex_append_dash u.data N.data hu hN]

theorem parseRequestName_journal (u : String) (hu : '-' ∉ u.data) :
    parseRequestName (journalPrefix ++ separator ++ u)
      = Except.ok (u, journalPrefix ++ separator ++ u, -1) := by
  rw [parseRequestName_of_journal _ u.data (by simp [String.data_append]),
    parseUUIDAndIndex_of_not_mem u.data hu]

theorem parseRequestName_journal_index (u N : String) (hu : '-' ∉ u.data)
    (hN : isDecimal N.data = true) :
    parseRequestName (journalPrefix ++ separator ++ u ++ "-" ++ N)
      = Except.ok (u, journalPrefix ++ separator ++ u, (decimalValue N.data : Int) - 1) := by
  rw [parseRequestName_of_journal _ (u.data ++ '-' :: N.data) (by simp [String.data_append]),
    parseUUIDAndIndex_append_dash u.data N.data hu hN]

theorem parseRequestName_dashfree (u N : String) (hu : '-' ∉ u.data)
    (hN : isDecimal N.data = true) :
    ∃ uuid, parseRequestName u = Except.ok (uuid, u, -1) ∧
      parseRequestName (u ++ "-" ++ N)
        = Except.ok (uuid, u, (decimalValue N.data : Int) - 1) := by
  by_cases hj : (journalPrefix ++ separator).data <+: u.data
  · obtain ⟨r, hr⟩ := hj
    have hur : u = journalPrefix ++ separator ++ String.mk r := by
      apply String.ext
      simp [String.data_append, ← hr]
    have hr2 : '-' ∉ (String.mk r).data := by
      intro hm
      apply hu
      rw [← hr]
      exact List.mem_append_right _ hm
    refine ⟨String.mk r, ?_, ?_⟩
    · conv_lhs => rw [hur]
      rw [parseRequestName_journal _ hr2, ← hur]
    · conv_lhs => rw [hur]
      rw [parseRequestName_journal_index _ N hr2 hN, ← hur]
  · exact ⟨u, parseRequestName_bare u hu hj, parseRequestName_index u N hu hj hN⟩

theorem parseRequestName_ok_of_isRequestName (name : String) (h : IsRequestName name) :
    ∃ r, parseRequestName name = Except.ok r := by
  have hzero : isDecimal "0".data = true := by decide
  rcases h with ⟨u, hu, hname | hname⟩ | ⟨u, N, hu, hN, hname | hname⟩
  · obtain ⟨uuid, h1, -⟩ := parseRequestName_dashfree u "0" hu hzero
    exact ⟨_, hname ▸ h1⟩
  · exact ⟨_, hname ▸ parseRequestName_journal u hu⟩
  · obtain ⟨uuid, -, h2⟩ := parseRequestName_dashfree u N hu hN
    exact ⟨_, hname ▸ h2⟩
  · exact ⟨_, hname ▸ parseRequestName_journal_index u N hu hN⟩

theorem isRequestName_of_parseRequestName_ok (name : String) (r : String × String × Int)
    (h : parseRequestName name = Except.ok r) : IsRequestName name := by
  unfold parseRequestName at h
  cases hs : stripPrefix (journalPrefix ++ separator).data name.data with
  | some rest =>
    rw [hs] at h
    dsimp only at h
    have hname := stripPrefix_eq_some _ _ _ hs
    cases hp : parseUUIDAndIndex rest with
    | error e => rw [hp] at h; simp at h
    | ok q =>
      obtain ⟨u, idx⟩ := q
      obtain ⟨hu, hrest | ⟨n, hn, hrest, -⟩⟩ := parseUUIDAndIndex_ok rest u idx hp
      · refine Or.inl ⟨String.mk u, hu, Or.inr ?_⟩
        apply String.ext
        simp [String.data_append, hname, hrest.1]
      · refine Or.inr ⟨String.mk u, String.mk n, hu, hn, Or.inr ?_⟩
        apply String.ext
        simp [String.data_append, hname, hrest]
  | none =>
    rw [hs] at h
    dsimp only at h
    cases hp : parseUUIDAndIndex name.data with
    | error e => rw [hp] at h; simp at h
    | ok q =>
      obtain ⟨u, idx⟩ := q
      obtain ⟨hu, hrest | ⟨n, hn, hrest, -⟩⟩ := parseUUIDAndIndex_ok name.data u idx hp
      · refine Or.inl ⟨String.mk u, hu, Or.inl ?_⟩
        apply String.ext
        simp [hrest.1]
      · refine Or.inr ⟨String.mk u, String.mk n, hu, hn, Or.inl ?_⟩
        apply String.ext
        simp [String.data_append, hrest]

theorem parseRequestName_error_iff (name : String) :
    parseRequestName name = Except.error ErrorKind.InvalidArgs ↔ ¬ IsRequestName name := by
  constructor
  · intro h hn
    obtain ⟨r, hr⟩ := parseRequestName_ok_of_isRequestName name hn
    rw [hr] at h
    exact Except.noConfusion h
  · intro hn
    cases hp : parseRequestName name with
    | ok r => exact absurd (isRequestName_of_parseRequestName_ok name r hp) hn
    | error e => rw [parseRequestName_error name e hp]

theorem parseRequestName_pathKey (name uuid key : String) (idx : Int)
    (h : parseRequestName name = Except.ok (uuid, key, idx)) :
    key = journalPrefix ++ separator ++ uuid ∨
      (key = uuid ∧ stripPrefix (journalPrefix ++ separator).data uuid.data = none) := by
  unfold parseRequestName at h
  cases hs : stripPrefix (journalPrefix ++ separator).data name.data with
  | some rest =>
    rw [hs] at h
    dsimp only at h
    cases hp : parseUUIDAndIndex rest with
    | error e => rw [hp] at h; simp at h
    | ok r =>
      obtain ⟨u, i⟩ := r
      rw [hp] at h
      simp only [Except.ok.injEq, Prod.mk.injEq] at h
      obtain ⟨h1, h2, _⟩ := h
      left
      rw [← h2, ← h1]
  | none =>
    rw [hs] at h
    dsimp only at h
    cases hp : parseUUIDAndIndex name.data with
    | error e => rw [hp] at h; simp at h
    | ok r =>
      obtain ⟨u, i⟩ := r
      rw [hp] at h
      simp only [Except.ok.injEq, Prod.mk.injEq] at h
      obtain ⟨h1, h2, _⟩ := h
      right
      refine ⟨by rw [← h2, ← h1], ?_⟩
      rw [← h1]
      show stripPrefix (journalPrefix ++ separator).data u = none
      cases hc : stripPrefix (journalPrefix ++ separator).data u with
      | none => rfl
      | some r =>
        have hu := stripPrefix_eq_some _ _ _ hc
        obtain ⟨_, hcs⟩ := parseUUIDAndIndex_ok name.data u i hp
        rcases hcs with ⟨hcs, _⟩ | ⟨n, _, hcs, _⟩
        · rw [hcs, hu, stripPrefix_append] at hs
          simp at hs
        · rw [hcs, hu, List.append_assoc, stripPrefix_append] at hs
          simp at hs

theorem parseRequestName_uuid_of_pathKey (n1 n2 u1 u2 key : String) (i1 i2 : Int)
    (h1 : parseRequestName n1 = Except.ok (u1, key, i1))
    (h2 : parseRequestName n2 = Except.ok (u2, key, i2)) : u1 = u2 := by
  have hdata : ∀ u : String, (journalPrefix ++ separator ++ u).data
      = (journalPrefix ++ separator).data ++ u.data := fun u => String.data_append _ _
  have hcross : ∀ a b : String, journalPrefix ++ separator ++ a = b →
      stripPrefix (journalPrefix ++ separator).data b.data = none → False := by
    intro a b hab hb
    rw [← hab, hdata, stripPrefix_append] at hb
    simp at hb
  rcases parseRequestName_pathKey n1 u1 key i1 h1 with hk1 | ⟨hk1, hs1⟩ <;>
    rcases parseRequestName_pathKey n2 u2 key i2 h2 with hk2 | ⟨hk2, hs2⟩
  · have h := congrArg String.data (hk1.symm.trans hk2)
    rw [hdata, hdata] at h
    exact String.ext (List.append_cancel_left h)
  · exact absurd hs2 (fun hs => hcross u1 u2 (hk1.symm.trans hk2) hs)
  · exact absurd hs1 (fun hs => hcross u2 u1 (hk2.symm.trans hk1) hs)
  · exact hk1.symm.trans hk2

/-! ## Request names (C13, C14, C15, C16) and mount paths (C17) -/

/-- C13: for a service UUID `u` the grammar accepts (no `-`, no journal prefix) and a
decimal numeral `N`, `parseRequestName (u ++ "-" ++ N)` succeeds with service UUID
`u`, path-key `u` and member index `N - 1`; in particular for the decimal writing of
every natural number `n` the index is `n - 1`. -/
theorem parseRequestName_uuid_with_index (u N : String) (hu : '-' ∉ u.data)
    (hj : ¬ (journalPrefix ++ separator).data <+: u.data) (hN : isDecimal N.data = true) :
    parseRequestName (u ++ "-" ++ N) = Except.ok (u, u, (decimalValue N.data : Int) - 1) ∧
    ∀ n : Nat, parseRequestName (u ++ "-" ++ toString n) = Except.ok (u, u, (n : Int) - 1) := by
  refine ⟨parseRequestName_index u N hu hj hN, fun n => ?_⟩
  obtain ⟨hdec, hval⟩ := toString_nat_decimal n
  rw [parseRequestName_index u (toString n) hu hj hdec, hval]

/-- Witness of C13: the name `uuid-1` of the test gives UUID `uuid`, path-key `uuid`
and index 0. -/
theorem parseRequestName_uuid_with_index_witness :
    parseRequestName ("uuid" ++ "-" ++ "1")
      = Except.ok ("uuid", "uuid", (decimalValue "1".data : Int) - 1) ∧
    (decimalValue "1".data : Int) - 1 = 0 ∧
    ∀ n : Nat, parseRequestName ("uuid" ++ "-" ++ toString n)
      = Except.ok ("uuid", "uuid", (n : Int) - 1) :=
  ⟨(parseRequestName_uuid_with_index "uuid" "1" (by decide) (by decide) (by decide)).1,
    by decide,
    (parseRequestName_uuid_with_index "uuid" "1" (by decide) (by decide) (by decide)).2⟩

/-- C14: for a name that is a bare service UUID (no `-` in it and no journal prefix),
`parseRequestName` succeeds with service UUID and path-key both equal to the name and
member index `-1`. -/
theorem parseRequestName_bare_uuid (name : String) (hdash : '-' ∉ name.data)
    (hj : ¬ (journalPrefix ++ separator).data <+: name.data) :
    parseRequestName name = Except.ok (name, name, -1) :=
  parseRequestName_bare name hdash hj

/-- Witness of C14: the name `uuid` of the test. -/
theorem parseRequestName_bare_uuid_witness :
    parseRequestName "uuid" = Except.ok ("uuid", "uuid", -1) :=
  parseRequestName_bare_uuid "uuid" (by decide) (by decide)

/-- C15: for a name `journal_` followed by `rest`, where `rest` is a valid name
without journal prefix, `parseRequestName` returns the service UUID and member index
of `rest` and the path-key `journal_` followed by the service UUID; the path-key of
`rest` itself is its service UUID, and the `-N` suffix is in neither the UUID nor the
path-key. -/
theorem parseRequestName_journal_of_rest (rest uuid key : String) (idx : Int)
    (hj : ¬ (journalPrefix ++ separator).data <+: rest.data)
    (hrest : parseRequestName rest = Except.ok (uuid, key, idx)) :
    parseRequestName (journalPrefix ++ separator ++ rest)
      = Except.ok (uuid, journalPrefix ++ separator ++ uuid, idx) ∧
    key = uuid ∧
    '-' ∉ uuid.data ∧
    '-' ∉ (journalPrefix ++ separator ++ uuid).data := by
  rw [parseRequestName_of_not_journal rest hj] at hrest
  cases hp : parseUUIDAndIndex rest.data with
  | error e => rw [hp] at hrest; simp at hrest
  | ok q =>
    obtain ⟨u, i⟩ := q
    rw [hp] at hrest
    simp only [Except.ok.injEq, Prod.mk.injEq] at hrest
    obtain ⟨h1, h2, h3⟩ := hrest
    have hu : '-' ∉ uuid.data := by
      rw [← h1]
      exact (parseUUIDAndIndex_ok rest.data u i hp).1
    refine ⟨?_, by rw [← h1, ← h2], hu, ?_⟩
    · rw [parseRequestName_of_journal _ rest.data (by simp [String.data_append]), hp]
      simp [h1, h3]
    · intro hm
      simp only [String.data_append, List.mem_append] at hm
      rcases hm with hm | hm
      · exact dash_not_mem_journal (by simpa [String.data_append] using hm)
      · exact hu hm

/-- Witness of C15: `journal_abc-2` of scenario S3, from the name `abc-2`. -/
theorem parseRequestName_journal_of_rest_witness :
    parseRequestName "abc-2" = Except.ok ("abc", "abc", 1) ∧
    parseRequestName (journalPrefix ++ separator ++ "abc-2")
      = Except.ok ("abc", journalPrefix ++ separator ++ "abc", 1) ∧
    journalPrefix ++ separator ++ "abc" = "journal_abc" :=
  ⟨rfl, (parseRequestName_journal_of_rest "abc-2" "abc" "abc" 1 (by decide) rfl).1, by decide⟩

/-- C16: a name that matches none of the four shapes of the grammar makes
`parseRequestName` fail with `InvalidArgs`; `InvalidArgs` is the only error it ever
returns, and it returns it only for such names.  The names `uuid-aaa-1` and
`uuid-aaa-1-1` of the test, `abc-x-1` of scenario S3 and the non-numeric suffix of
`uuid-x` all fail with `InvalidArgs`. -/
theorem parseRequestName_invalid_names :
    (∀ name, ¬ IsRequestName name →
      parseRequestName name = Except.error ErrorKind.InvalidArgs) ∧
    (∀ name e, parseRequestName name = Except.error e →
      e = ErrorKind.InvalidArgs ∧ ¬ IsRequestName name) ∧
    parseRequestName "uuid-aaa-1" = Except.error ErrorKind.InvalidArgs ∧
    parseRequestName "uuid-aaa-1-1" = Except.error ErrorKind.InvalidArgs ∧
    parseRequestName "abc-x-1" = Except.error ErrorKind.InvalidArgs ∧
    parseRequestName "uuid-x" = Except.error ErrorKind.InvalidArgs := by
  refine ⟨fun name h => (parseRequestName_error_iff name).mpr h, ?_, rfl, rfl, rfl, rfl⟩
  intro name e h
  have he := parseRequestName_error name e h
  exact ⟨he, (parseRequestName_error_iff name).mp (he ▸ h)⟩

/-- C17: the mount path `Get` and `Path` return for a valid name is the root directory
joined with the path-key of the name and nothing else; for a service UUID `u` (a name
without `-`) and a suffix `-N`, `Path` and `Get` of `u-N` give the path of `u`, and
likewise for the journal-prefixed names. -/
theorem Path_from_pathKey_only (root u N : String) (hu : '-' ∉ u.data)
    (hN : isDecimal N.data = true) :
    (∀ name uuid key idx, parseRequestName name = Except.ok (uuid, key, idx) →
      Path root name = Except.ok (mountpoint root key) ∧
      Get root name = Except.ok (name, mountpoint root key)) ∧
    Path root u = Except.ok (mountpoint root u) ∧
    Path root (u ++ "-" ++ N) = Path root u ∧
    Get root u = Except.ok (u, mountpoint root u) ∧
    Get root (u ++ "-" ++ N) = Except.ok (u ++ "-" ++ N, mountpoint root u) ∧
    Path root (journalPrefix ++ separator ++ u)
      = Except.ok (mountpoint root (journalPrefix ++ separator ++ u)) ∧
    Path root (journalPrefix ++ separator ++ u ++ "-" ++ N)
      = Path root (journalPrefix ++ separator ++ u) ∧
    Get root (journalPrefix ++ separator ++ u)
      = Except.ok (journalPrefix ++ separator ++ u,
          mountpoint root (journalPrefix ++ separator ++ u)) ∧
    Get root (journalPrefix ++ separator ++ u ++ "-" ++ N)
      = Except.ok (journalPrefix ++ separator ++ u ++ "-" ++ N,
          mountpoint root (journalPrefix ++ separator ++ u)) := by
  obtain ⟨uuid, h1, h2⟩ := parseRequestName_dashfree u N hu hN
  have h3 := parseRequestName_journal u hu
  have h4 := parseRequestName_journal_index u N hu hN
  refine ⟨?_, ?_, ?_, ?_, ?_, ?_, ?_, ?_, ?_⟩
  · intro name uuid key idx h
    simp [Path, Get, h]
  · simp [Path, h1]
  · simp [Path, h1, h2]
  · simp [Get, h1]
  · simp [Get, h2]
  · simp [Path, h3]
  · simp [Path, h3, h4]
  · simp [Get, h3]
  · simp [Get, h4]

/-- Witness of C17: the names `uuid` and `uuid-1` of the test under the root `/mnt`. -/
theorem Path_from_pathKey_only_witness :
    Path "/mnt" ("uuid" ++ "-" ++ "1") = Path "/mnt" "uuid" ∧
    Path "/mnt" "uuid" = Except.ok "/mnt/uuid" ∧
    Path "/mnt" (journalPrefix ++ separator ++ "uuid" ++ "-" ++ "1")
      = Path "/mnt" (journalPrefix ++ separator ++ "uuid") :=
  ⟨(Path_from_pathKey_only "/mnt" "uuid" "1" (by decide) (by decide)).2.2.1, rfl,
    (Path_from_pathKey_only "/mnt" "uuid" "1" (by decide) (by decide)).2.2.2.2.2.2.1⟩

/-! ## Member selection (C18, C19) -/

theorem smallestMemberIndex_mem (l : List ServiceMember) (m : ServiceMember)
    (h : smallestMemberIndex l = some m) : m ∈ l := by
  induction l generalizing m with
  | nil => simp [smallestMemberIndex] at h
  | cons x xs ih =>
    unfold smallestMemberIndex at h
    cases hs : smallestMemberIndex xs with
    | none =>
      rw [hs] at h
      simp only [Option.some.injEq] at h
      simp [h]
    | some best =>
      rw [hs] at h
      dsimp only at h
      by_cases hle : x.MemberIndex ≤ best.MemberIndex
      · simp only [hle, if_true, Option.some.injEq] at h
        simp [h]
      · simp only [hle, if_false, Option.some.injEq] at h
        exact List.mem_cons_of_mem _ (ih best hs |> fun hb => h ▸ hb)

theorem smallestMemberIndex_eq_none (l : List ServiceMember)
    (h : smallestMemberIndex l = none) : l = [] := by
  cases l with
  | nil => rfl
  | cons x xs =>
    unfold smallestMemberIndex at h
    cases hs : smallestMemberIndex xs with
    | none => rw [hs] at h; simp at h
    | some best =>
      rw [hs] at h
      dsimp only at h
      by_cases hle : x.MemberIndex ≤ best.MemberIndex
      · simp [hle] at h
      · simp [hle] at h

theorem selectMember_of_filter_singleton (host : HostInfo) (liveTasks : List String)
    (members : List ServiceMember) (m : ServiceMember)
    (h : members.filter (ownedByHost host) = [m]) :
    selectMember host liveTasks members = Except.ok m := by
  unfold selectMember
  rw [h]

theorem selectMember_of_filter_length_ne_one (host : HostInfo) (liveTasks : List String)
    (members : List ServiceMember)
    (h : (members.filter (ownedByHost host)).length ≠ 1) :
    selectMember host liveTasks members =
      match smallestMemberIndex (members.filter (isIdleInZone host liveTasks)) with
      | some m => Except.ok m
      | none => Except.error ErrorKind.NoEligibleMember := by
  unfold selectMember
  split
  · rename_i m hm
    rw [hm] at h
    exact absurd rfl h
  · rfl

theorem isIdleInZone_iff (host : HostInfo) (liveTasks : List String) (m : ServiceMember) :
    isIdleInZone host liveTasks m = true ↔
      m.AvailableZone = host.AvailableZone ∧
      (m.TaskID = DefaultTaskID ∨ m.TaskID ∉ liveTasks) := by
  simp [isIdleInZone]

theorem ownedByHost_iff (host : HostInfo) (m : ServiceMember) :
    ownedByHost host m = true ↔
      m.ServerInstanceID = host.ServerInstanceID ∧
      m.ContainerInstanceID = host.ContainerInstanceID := by
  simp [ownedByHost]

/-- C18: when the member list of the service holds exactly one member whose
`serverInstanceID` and `containerInstanceID` are this host's, `findIdleMember` returns
that member, whatever the other members of the service are. -/
theorem findIdleMember_returns_owned_member (env : DriverEnv) (db : MemDB)
    (sattr : ServiceAttr) (m : ServiceMember)
    (hm : m ∈ ListServiceMembers db sattr.ServiceUUID)
    (hown : m.ServerInstanceID = env.host.ServerInstanceID ∧
      m.ContainerInstanceID = env.host.ContainerInstanceID)
    (hone : (ListServiceMembers db sattr.ServiceUUID).countP (ownedByHost env.host) = 1) :
    findIdleMember env db sattr = Except.ok m := by
  unfold findIdleMember
  apply selectMember_of_filter_singleton
  have hlen : ((ListServiceMembers db sattr.ServiceUUID).filter (ownedByHost env.host)).length
      = 1 := by
    rw [← List.countP_eq_length_filter]
    exact hone
  have hmem : m ∈ (ListServiceMembers db sattr.ServiceUUID).filter (ownedByHost env.host) :=
    List.mem_filter.mpr ⟨hm, (ownedByHost_iff _ _).mpr hown⟩
  obtain ⟨x, hx⟩ := List.length_eq_one.mp hlen
  rw [hx] at hmem ⊢
  rw [List.mem_singleton.mp hmem]

/-- Witness of C18: the five members of the test, of which `service1-2`, `service1-3`
and `service1-4` are idle and eligible, plus one member owned by the local host. -/
theorem findIdleMember_returns_owned_member_witness :
    findIdleMember testEnv
        (testState "ACTIVE" false (testMembers "local-az" ++ [testLocalMember "local-az"])).db
        (testAttr "ACTIVE" false)
      = Except.ok (testLocalMember "local-az") :=
  findIdleMember_returns_owned_member testEnv
    (testState "ACTIVE" false (testMembers "local-az" ++ [testLocalMember "local-az"])).db
    (testAttr "ACTIVE" false) (testLocalMember "local-az") (by decide) (by decide) (by decide)

/-- C19: when no member of the service is already owned by this host, every member
`findIdleMember` returns is a member of the service in this host's zone whose
`taskID` is the sentinel or absent from the live tasks of the service; a member whose
task is live is never returned; a member is returned whenever some member meets the
two conditions, and the result is `NoEligibleMember` when none does. -/
theorem findIdleMember_idle_in_zone (env : DriverEnv) (db : MemDB) (sattr : ServiceAttr)
    (hnone : ∀ x ∈ ListServiceMembers db sattr.ServiceUUID,
      ¬ (x.ServerInstanceID = env.host.ServerInstanceID ∧
        x.ContainerInstanceID = env.host.ContainerInstanceID)) :
    (∀ m, findIdleMember env db sattr = Except.ok m →
      m ∈ ListServiceMembers db sattr.ServiceUUID ∧
      m.AvailableZone = env.host.AvailableZone ∧
      (m.TaskID = DefaultTaskID ∨
        m.TaskID ∉ env.liveTasks sattr.ClusterName sattr.ServiceName)) ∧
    (∀ m, m.TaskID ≠ DefaultTaskID →
      m.TaskID ∈ env.liveTasks sattr.ClusterName sattr.ServiceName →
      findIdleMember env db sattr ≠ Except.ok m) ∧
    ((∃ x ∈ ListServiceMembers db sattr.ServiceUUID,
        x.AvailableZone = env.host.AvailableZone ∧
        (x.TaskID = DefaultTaskID ∨
          x.TaskID ∉ env.liveTasks sattr.ClusterName sattr.ServiceName)) →
      ∃ m, findIdleMember env db sattr = Except.ok m) ∧
    ((∀ x ∈ ListServiceMembers db sattr.ServiceUUID,
        ¬ (x.AvailableZone = env.host.AvailableZone ∧
          (x.TaskID = DefaultTaskID ∨
            x.TaskID ∉ env.liveTasks sattr.ClusterName sattr.ServiceName))) →
      findIdleMember env db sattr = Except.error ErrorKind.NoEligibleMember) := by
  have hfilter : (ListServiceMembers db sattr.ServiceUUID).filter (ownedByHost env.host)
      = [] := by
    rw [List.filter_eq_nil_iff]
    intro x hx hox
    exact hnone x hx ((ownedByHost_iff _ _).mp hox)
  have hsel : findIdleMember env db sattr =
      match smallestMemberIndex ((ListServiceMembers db sattr.ServiceUUID).filter
        (isIdleInZone env.host (env.liveTasks sattr.ClusterName sattr.ServiceName))) with
      | some m => Except.ok m
      | none => Except.error ErrorKind.NoEligibleMember := by
    unfold findIdleMember
    apply selectMember_of_filter_length_ne_one
    rw [hfilter]
    decide
  have hret : ∀ m, findIdleMember env db sattr = Except.ok m →
      m ∈ ListServiceMembers db sattr.ServiceUUID ∧
      m.AvailableZone = env.host.AvailableZone ∧
      (m.TaskID = DefaultTaskID ∨
        m.TaskID ∉ env.liveTasks sattr.ClusterName sattr.ServiceName) := by
    intro m h
    rw [hsel] at h
    cases hs : smallestMemberIndex ((ListServiceMembers db sattr.ServiceUUID).filter
        (isIdleInZone env.host (env.liveTasks sattr.ClusterName sattr.ServiceName))) with
    | none => rw [hs] at h; simp at h
    | some best =>
      rw [hs] at h
      simp only [Except.ok.injEq] at h
      have hmem := smallestMemberIndex_mem _ _ hs
      rw [h] at hmem
      obtain ⟨h1, h2⟩ := List.mem_filter.mp hmem
      exact ⟨h1, (isIdleInZone_iff _ _ _).mp h2⟩
  refine ⟨hret, ?_, ?_, ?_⟩
  · intro m hsent hlive h
    rcases (hret m h).2.2 with h1 | h1
    · exact hsent h1
    · exact h1 hlive
  · rintro ⟨x, hx, hel⟩
    rw [hsel]
    cases hs : smallestMemberIndex ((ListServiceMembers db sattr.ServiceUUID).filter
        (isIdleInZone env.host (env.liveTasks sattr.ClusterName sattr.ServiceName))) with
    | none =>
      have hnil := smallestMemberIndex_eq_none _ hs
      have hxin : x ∈ (ListServiceMembers db sattr.ServiceUUID).filter
          (isIdleInZone env.host (env.liveTasks sattr.ClusterName sattr.ServiceName)) :=
        List.mem_filter.mpr ⟨hx, (isIdleInZone_iff _ _ _).mpr hel⟩
      rw [hnil] at hxin
      exact absurd hxin (List.not_mem_nil x)
    | some best => exact ⟨best, rfl⟩
  · intro hall
    rw [hsel]
    have hnil : (ListServiceMembers db sattr.ServiceUUID).filter
        (isIdleInZone env.host (env.liveTasks sattr.ClusterName sattr.ServiceName)) = [] := by
      rw [List.filter_eq_nil_iff]
      intro x hx hel
      exact hall x hx ((isIdleInZone_iff _ _ _).mp hel)
    rw [hnil]
    rfl

/-- Witness of C19: the five members of the test with tasks `task-0` and `task-1`
live and no member owned by the local host: the member returned is `service1-2`, in
the local zone, whose task `task-2` is not live. -/
theorem findIdleMember_idle_in_zone_witness :
    findIdleMember testEnv (testState "ACTIVE" false (testMembers "local-az")).db
        (testAttr "ACTIVE" false)
      = Except.ok (testMember 2 "service1-2" "local-az" "task-2" "contins-2" "serverins-2") ∧
    (testMember 2 "service1-2" "local-az" "task-2" "contins-2" "serverins-2").AvailableZone
      = testEnv.host.AvailableZone ∧
    ((testMember 2 "service1-2" "local-az" "task-2" "contins-2" "serverins-2").TaskID
        = DefaultTaskID ∨
      (testMember 2 "service1-2" "local-az" "task-2" "contins-2" "serverins-2").TaskID
        ∉ testEnv.liveTasks "cluster1" "service1") :=
  ⟨rfl,
    ((findIdleMember_idle_in_zone testEnv (testState "ACTIVE" false (testMembers "local-az")).db
      (testAttr "ACTIVE" false) (by decide)).1 _ rfl).2⟩

/-! ## Mount in a zone without members (C20) -/

theorem findIdleMember_no_member_in_zone (env : DriverEnv) (db : MemDB) (sattr : ServiceAttr)
    (hown : (ListServiceMembers db sattr.ServiceUUID).countP (ownedByHost env.host) ≠ 1)
    (hzone : ∀ m ∈ ListServiceMembers db sattr.ServiceUUID,
      m.AvailableZone ≠ env.host.AvailableZone) :
    findIdleMember env db sattr = Except.error ErrorKind.NoEligibleMember := by
  unfold findIdleMember
  rw [selectMember_of_filter_length_ne_one _ _ _
    (by rw [← List.countP_eq_length_filter]; exact hown)]
  have hnil : (ListServiceMembers db sattr.ServiceUUID).filter
      (isIdleInZone env.host (env.liveTasks sattr.ClusterName sattr.ServiceName)) = [] := by
    rw [List.filter_eq_nil_iff]
    intro x hx hel
    exact hzone x hx ((isIdleInZone_iff _ _ _).mp hel).1
  rw [hnil]
  rfl

theorem claimOnce_no_eligible (env : DriverEnv) (sattr : ServiceAttr) (now : Int) (db : MemDB)
    (h : findIdleMember env db sattr = Except.error ErrorKind.NoEligibleMember) :
    claimOnce env sattr now db = some (Except.error ErrorKind.NoEligibleMember) := by
  unfold claimOnce
  rw [h]

theorem claimMember_no_eligible (env : DriverEnv) (sattr : ServiceAttr) (now : Int) (db : MemDB)
    (retries : Nat)
    (h : findIdleMember env db sattr = Except.error ErrorKind.NoEligibleMember) :
    claimMember env sattr now db retries = some (Except.error ErrorKind.NoEligibleMember) := by
  cases retries with
  | zero => simp [claimMember, claimOnce_no_eligible env sattr now db h]
  | succ k => simp [claimMember, claimOnce_no_eligible env sattr now db h]

theorem GetServiceAttr_ok_uuid (db : MemDB) (serviceUUID : String) (a : ServiceAttr)
    (h : GetServiceAttr db serviceUUID = Except.ok a) : a.ServiceUUID = serviceUUID := by
  unfold GetServiceAttr at h
  cases hf : db.attrs.find? (fun a => decide (a.ServiceUUID = serviceUUID)) with
  | none =>
    rw [hf] at h
    simp at h
  | some b =>
    rw [hf] at h
    simp only [Except.ok.injEq] at h
    rw [← h]
    simpa using List.find?_some hf

theorem exists_entry_of_refCount_pos (volumes : List MountEntry) (pathKey : String)
    (h : 0 < refCount volumes pathKey) :
    ∃ e ∈ volumes, e.pathKey = pathKey ∧ 0 < e.refCount := by
  unfold refCount at h
  cases hf : volumes.find? (fun e => decide (e.pathKey = pathKey)) with
  | none =>
    rw [hf] at h
    exact absurd h (Nat.lt_irrefl 0)
  | some e =>
    rw [hf] at h
    exact ⟨e, List.mem_of_find?_eq_some hf, by simpa using List.find?_some hf, h⟩

theorem Mount_of_no_eligible_member (env : DriverEnv) (s : DriverState)
    (name : String) (now : Int) (serviceUUID pathKey : String) (idx : Int)
    (sattr : ServiceAttr)
    (hname : parseRequestName name = Except.ok (serviceUUID, pathKey, idx))
    (hfree : refCount s.volumes pathKey = 0)
    (hattr : GetServiceAttr s.db serviceUUID = Except.ok sattr)
    (hready : sattr.ServiceStatus = env.statusInitializing ∨
      sattr.ServiceStatus = env.statusActive)
    (hown : (ListServiceMembers s.db sattr.ServiceUUID).countP (ownedByHost env.host) ≠ 1)
    (hzone : ∀ m ∈ ListServiceMembers s.db sattr.ServiceUUID,
      m.AvailableZone ≠ env.host.AvailableZone) :
    Mount env s name now = some (Except.error ErrorKind.NoEligibleMember, s) := by
  have hstatus : ¬ (sattr.ServiceStatus ≠ env.statusInitializing ∧
      sattr.ServiceStatus ≠ env.statusActive) := by
    rintro ⟨h1, h2⟩
    rcases hready with h | h
    · exact h1 h
    · exact h2 h
  have hclaim := claimMember_no_eligible env sattr now s.db 3
    (findIdleMember_no_member_in_zone env s.db sattr hown hzone)
  unfold Mount
  rw [hname]
  dsimp only
  rw [hfree, if_neg (Nat.lt_irrefl 0), hattr]
  dsimp only
  rw [if_neg hstatus, hclaim]

theorem Mount_of_not_ready (env : DriverEnv) (s : DriverState)
    (name : String) (now : Int) (serviceUUID pathKey : String) (idx : Int)
    (sattr : ServiceAttr)
    (hname : parseRequestName name = Except.ok (serviceUUID, pathKey, idx))
    (hfree : refCount s.volumes pathKey = 0)
    (hattr : GetServiceAttr s.db serviceUUID = Except.ok sattr)
    (hnot : sattr.ServiceStatus ≠ env.statusInitializing ∧
      sattr.ServiceStatus ≠ env.statusActive) :
    Mount env s name now = some (Except.error ErrorKind.ServiceNotReady, s) := by
  unfold Mount
  rw [hname]
  dsimp only
  rw [hfree, if_neg (Nat.lt_irrefl 0), hattr]
  dsimp only
  rw [if_pos hnot]

theorem not_mounted_of_other_zone (host : HostInfo) (s : DriverState)
    (name : String) (serviceUUID pathKey : String) (idx : Int)
    (hname : parseRequestName name = Except.ok (serviceUUID, pathKey, idx))
    (hmounted : MountedMembersOwned host s)
    (hzonal : OwnedMembersInZone host s.db)
    (hzone : ∀ m ∈ ListServiceMembers s.db serviceUUID,
      m.AvailableZone ≠ host.AvailableZone) :
    refCount s.volumes pathKey = 0 := by
  by_contra hne
  obtain ⟨e, he, hkey, hpos⟩ :=
    exists_entry_of_refCount_pos s.volumes pathKey (Nat.pos_of_ne_zero hne)
  obtain ⟨hsvc, m, hm, hsame, howner⟩ := hmounted e he hpos
  have hu : e.member.ServiceUUID = serviceUUID := hsvc name serviceUUID idx (hkey ▸ hname)
  have hmu : m.ServiceUUID = serviceUUID := by
    have := hsame
    simp only [sameMemberKey, decide_eq_true_eq] at this
    rw [← this.1, hu]
  have hmem : m ∈ ListServiceMembers s.db serviceUUID := by
    unfold ListServiceMembers
    rw [List.mem_filter]
    exact ⟨hm, by simpa using hmu⟩
  exact hzone m hmem (hzonal m hm howner)

theorem not_owned_of_other_zone (host : HostInfo) (db : MemDB) (serviceUUID : String)
    (hzonal : OwnedMembersInZone host db)
    (hzone : ∀ m ∈ ListServiceMembers db serviceUUID,
      m.AvailableZone ≠ host.AvailableZone) :
    (ListServiceMembers db serviceUUID).countP (ownedByHost host) ≠ 1 := by
  have hzero : (ListServiceMembers db serviceUUID).countP (ownedByHost host) = 0 := by
    rw [List.countP_eq_zero]
    intro m hm hown
    have hmdb : m ∈ db.members := by
      unfold ListServiceMembers at hm
      exact (List.mem_filter.mp hm).1
    exact hzone m hm (hzonal m hmdb ((ownedByHost_iff host m).mp hown).1)
  rw [hzero]
  exact Nat.zero_ne_one

/-- C20: for every service all of whose members have an availability zone different
from this host's zone, `Mount` of a valid name of the service fails and claims no
member: the catalog, the mount table and the mounted paths are returned as they were,
whether or not the service requires a static IP (`sattr` is any stored attribute
record).  The failure is `NoEligibleMember` for every service whose status admits a
mount (Initializing or Active).  The driver state is one that satisfies the two
invariants the specification states for every execution: the member of a mounted
path-key is recorded in the catalog as owned by this host (invariant 1 of section 8),
and a member this host owns is in this host's zone (zonal affinity, section 4.2). -/
theorem Mount_other_zone_fails (env : DriverEnv) (s : DriverState)
    (name : String) (now : Int) (serviceUUID pathKey : String) (idx : Int)
    (sattr : ServiceAttr)
    (hname : parseRequestName name = Except.ok (serviceUUID, pathKey, idx))
    (hattr : GetServiceAttr s.db serviceUUID = Except.ok sattr)
    (hmounted : MountedMembersOwned env.host s)
    (hzonal : OwnedMembersInZone env.host s.db)
    (hzone : ∀ m ∈ ListServiceMembers s.db serviceUUID,
      m.AvailableZone ≠ env.host.AvailableZone) :
    (∃ e, Mount env s name now = some (Except.error e, s)) ∧
    ((sattr.ServiceStatus = env.statusInitializing ∨
        sattr.ServiceStatus = env.statusActive) →
      Mount env s name now = some (Except.error ErrorKind.NoEligibleMember, s)) := by
  have hfree := not_mounted_of_other_zone env.host s name serviceUUID pathKey idx hname
    hmounted hzonal hzone
  have hu := GetServiceAttr_ok_uuid s.db serviceUUID sattr hattr
  have hown := not_owned_of_other_zone env.host s.db serviceUUID hzonal hzone
  have hready : (sattr.ServiceStatus = env.statusInitializing ∨
      sattr.ServiceStatus = env.statusActive) →
      Mount env s name now = some (Except.error ErrorKind.NoEligibleMember, s) :=
    fun h => Mount_of_no_eligible_member env s name now serviceUUID pathKey idx sattr
      hname hfree hattr h (hu ▸ hown) (hu ▸ hzone)
  refine ⟨?_, hready⟩
  by_cases h : sattr.ServiceStatus = env.statusInitializing ∨
      sattr.ServiceStatus = env.statusActive
  · exact ⟨_, hready h⟩
  · exact ⟨_, Mount_of_not_ready env s name now serviceUUID pathKey idx sattr hname hfree
      hattr ⟨fun h1 => h (Or.inl h1), fun h2 => h (Or.inr h2)⟩⟩

/-- Witness of C20: the five members of the test in zone `another-az`, none owned by
the local host, service `uuid1` active: with a static IP required and nothing
mounted, and without static IP while the local host has the volume of another
service mounted, `Mount` fails with `NoEligibleMember` and returns the state as it
was. -/
theorem Mount_other_zone_fails_witness :
    Mount testEnv (testState "ACTIVE" true (testMembers "another-az")) "uuid1" 200
      = some (Except.error ErrorKind.NoEligibleMember,
          testState "ACTIVE" true (testMembers "another-az")) ∧
    Mount testEnv (testStateOtherMounted false) "uuid1" 200
      = some (Except.error ErrorKind.NoEligibleMember, testStateOtherMounted false) :=
  ⟨(Mount_other_zone_fails testEnv
      (testState "ACTIVE" true (testMembers "another-az")) "uuid1" 200 "uuid1" "uuid1" (-1)
      (testAttr "ACTIVE" true) rfl rfl (fun _ he => nomatch he)
      (by unfold OwnedMembersInZone; decide) (by decide)).2 (Or.inr rfl),
    (Mount_other_zone_fails testEnv (testStateOtherMounted false) "uuid1" 200 "uuid1"
      "uuid1" (-1) (testAttr "ACTIVE" false) rfl rfl
      (by
        intro e he _
        have he2 : e = { pathKey := "uuid2", refCount := 1, member := testOtherMember } :=
          List.mem_singleton.mp he
        rw [he2]
        exact ⟨fun name u i hp =>
            parseRequestName_uuid_of_pathKey "uuid2" name "uuid2" u "uuid2" (-1) i rfl hp,
          testOtherMember, by decide, rfl, rfl⟩)
      (by unfold OwnedMembersInZone; decide) (by decide)).2 (Or.inr rfl)⟩

/-! ## Service attribute update and config file records (C26, C27, C28) -/

/-- C26: `UpdateServiceAttr a s` returns an attribute whose `ServiceStatus` is `s` and
whose `ServiceUUID`, `Replicas`, `ClusterName`, `ServiceName`, `Volumes`,
`RegisterDNS`, `DomainName`, `HostedZoneID`, `RequireStaticIP` and `UserAttr` are
those of `a`; so `EqualServiceAttr (UpdateServiceAttr a a.ServiceStatus) a true` is
true. -/
theorem UpdateServiceAttr_frame (a : ServiceAttr) (s : String) (now : Int) :
    (UpdateServiceAttr a s now).ServiceStatus = s ∧
    (UpdateServiceAttr a s now).ServiceUUID = a.ServiceUUID ∧
    (UpdateServiceAttr a s now).Replicas = a.Replicas ∧
    (UpdateServiceAttr a s now).ClusterName = a.ClusterName ∧
    (UpdateServiceAttr a s now).ServiceName = a.ServiceName ∧
    (UpdateServiceAttr a s now).Volumes = a.Volumes ∧
    (UpdateServiceAttr a s now).RegisterDNS = a.RegisterDNS ∧
    (UpdateServiceAttr a s now).DomainName = a.DomainName ∧
    (UpdateServiceAttr a s now).HostedZoneID = a.HostedZoneID ∧
    (UpdateServiceAttr a s now).RequireStaticIP = a.RequireStaticIP ∧
    (UpdateServiceAttr a s now).UserAttr = a.UserAttr ∧
    EqualServiceAttr (UpdateServiceAttr a a.ServiceStatus now) a true = true := by
  refine ⟨rfl, rfl, rfl, rfl, rfl, rfl, rfl, rfl, rfl, rfl, rfl, ?_⟩
  simp [EqualServiceAttr, UpdateServiceAttr, EqualServiceVolumes_self]

/-- C27: `UpdateConfigFile c newFileID newContent` returns a record with
`FileID = newFileID` and `Content = newContent` that keeps the `ServiceUUID`,
`FileName` and `FileMode` of `c`, and the result is the same whatever the old
`FileID`, `FileMD5`, `Content` and `LastModified` of `c` are. -/
theorem UpdateConfigFile_frame (GenMD5 : String → String) (c : ConfigFile)
    (newFileID newContent : String) (now : Int) :
    (UpdateConfigFile GenMD5 c newFileID newContent now).FileID = newFileID ∧
    (UpdateConfigFile GenMD5 c newFileID newContent now).Content = newContent ∧
    (UpdateConfigFile GenMD5 c newFileID newContent now).ServiceUUID = c.ServiceUUID ∧
    (UpdateConfigFile GenMD5 c newFileID newContent now).FileName = c.FileName ∧
    (UpdateConfigFile GenMD5 c newFileID newContent now).FileMode = c.FileMode ∧
    ∀ (oldFileID oldMD5 oldContent : String) (oldMtime : Int),
      UpdateConfigFile GenMD5
          { c with FileID := oldFileID, FileMD5 := oldMD5, Content := oldContent,
                   LastModified := oldMtime }
          newFileID newContent now
        = UpdateConfigFile GenMD5 c newFileID newContent now :=
  ⟨rfl, rfl, rfl, rfl, rfl, fun _ _ _ _ => rfl⟩

theorem CreateConfigFile_of_md5 (GenMD5 : String → String) (c : ConfigFile)
    (h : c.FileMD5 = GenMD5 c.Content) :
    CreateConfigFile GenMD5 c.ServiceUUID c.FileID c.FileMD5 c.FileName c.FileMode
      c.LastModified c.Content = Except.ok c := by
  unfold CreateConfigFile
  simp [h.symm]

theorem EqualConfigFile_self (c : ConfigFile) (skipMtime skipContent : Bool) :
    EqualConfigFile c c skipMtime skipContent = true := by
  simp [EqualConfigFile]

/-- C28: writing then re-reading a config file round-trips: for the record `c`
returned by `CreateInitialConfigFile` and for the record returned by
`UpdateConfigFile`, `CreateConfigFile` called with the seven fields of `c` succeeds
and returns a record `c2` with `EqualConfigFile c c2 false false = true`. -/
theorem CreateConfigFile_round_trip (GenMD5 : String → String)
    (serviceUUID fileID fileName : String) (fileMode : Nat) (content : String) (now : Int)
    (old : ConfigFile) (newFileID newContent : String) :
    (∃ c2,
      CreateConfigFile GenMD5
          (CreateInitialConfigFile GenMD5 serviceUUID fileID fileName fileMode content
            now).ServiceUUID
          (CreateInitialConfigFile GenMD5 serviceUUID fileID fileName fileMode content
            now).FileID
          (CreateInitialConfigFile GenMD5 serviceUUID fileID fileName fileMode content
            now).FileMD5
          (CreateInitialConfigFile GenMD5 serviceUUID fileID fileName fileMode content
            now).FileName
          (CreateInitialConfigFile GenMD5 serviceUUID fileID fileName fileMode content
            now).FileMode
          (CreateInitialConfigFile GenMD5 serviceUUID fileID fileName fileMode content
            now).LastModified
          (CreateInitialConfigFile GenMD5 serviceUUID fileID fileName fileMode content
            now).Content
        = Except.ok c2 ∧
      EqualConfigFile
          (CreateInitialConfigFile GenMD5 serviceUUID fileID fileName fileMode content now)
          c2 false false = true) ∧
    (∃ c2,
      CreateConfigFile GenMD5
          (UpdateConfigFile GenMD5 old newFileID newContent now).ServiceUUID
          (UpdateConfigFile GenMD5 old newFileID newContent now).FileID
          (UpdateConfigFile GenMD5 old newFileID newContent now).FileMD5
          (UpdateConfigFile GenMD5 old newFileID newContent now).FileName
          (UpdateConfigFile GenMD5 old newFileID newContent now).FileMode
          (UpdateConfigFile GenMD5 old newFileID newContent now).LastModified
          (UpdateConfigFile GenMD5 old newFileID newContent now).Content
        = Except.ok c2 ∧
      EqualConfigFile (UpdateConfigFile GenMD5 old newFileID newContent now) c2 false false
        = true) :=
  ⟨⟨_, CreateConfigFile_of_md5 GenMD5 _ rfl, EqualConfigFile_self _ _ _⟩,
    ⟨_, CreateConfigFile_of_md5 GenMD5 _ rfl, EqualConfigFile_self _ _ _⟩⟩

/-! ## Config list copy and member comparison as a relation (C29, C30) -/

theorem CopyMemberConfigs_of_no_nil (c : List (Option MemberConfig))
    (h : ∀ e ∈ c, e ≠ none) : CopyMemberConfigs c = some c := by
  induction c with
  | nil => rfl
  | cons e c ih =>
    cases e with
    | none => exact absurd rfl (h none (List.mem_cons_self _ _))
    | some x =>
      have hc : ∀ e ∈ c, e ≠ none := fun e he => h e (List.mem_cons_of_mem _ he)
      simp [CopyMemberConfigs, ih hc]

theorem equalConfigsLoop_self (c : List (Option MemberConfig)) (h : ∀ e ∈ c, e ≠ none) :
    equalConfigsLoop c c = some true := by
  induction c with
  | nil => rfl
  | cons e c ih =>
    cases e with
    | none => exact absurd rfl (h none (List.mem_cons_self _ _))
    | some x =>
      have hc : ∀ e ∈ c, e ≠ none := fun e he => h e (List.mem_cons_of_mem _ he)
      simp [equalConfigsLoop, ih hc]

theorem equalConfigs_self (c : List (Option MemberConfig)) (h : ∀ e ∈ c, e ≠ none) :
    equalConfigs c c = some true := by
  simp [equalConfigs, equalConfigsLoop_self c h]

theorem EqualServiceMember_self (m : ServiceMember) (skipMtime : Bool)
    (h : ∀ e ∈ m.Configs, e ≠ none) : EqualServiceMember m m skipMtime = some true := by
  simp [EqualServiceMember, EqualMemberVolumes_self, equalConfigs_self m.Configs h]

theorem equalConfigsLoop_comm (c1 c2 : List (Option MemberConfig))
    (hlen : c1.length = c2.length) : equalConfigsLoop c1 c2 = equalConfigsLoop c2 c1 := by
  induction c1 generalizing c2 with
  | nil =>
    cases c2 with
    | nil => rfl
    | cons q c2 => simp at hlen
  | cons p c1 ih =>
    cases c2 with
    | nil => simp at hlen
    | cons q c2 =>
      have hlen2 : c1.length = c2.length := by simpa using hlen
      cases p with
      | none => cases q <;> simp [equalConfigsLoop]
      | some x =>
        cases q with
        | none => simp [equalConfigsLoop]
        | some y =>
          simp only [equalConfigsLoop, ih c2 hlen2]
          have hiff : (x.FileName ≠ y.FileName ∨ x.FileID ≠ y.FileID ∨ x.FileMD5 ≠ y.FileMD5)
              ↔ (y.FileName ≠ x.FileName ∨ y.FileID ≠ x.FileID ∨ y.FileMD5 ≠ x.FileMD5) := by
            simp only [ne_comm]
          by_cases hxy : x.FileName ≠ y.FileName ∨ x.FileID ≠ y.FileID ∨ x.FileMD5 ≠ y.FileMD5
          · rw [if_pos hxy, if_pos (hiff.mp hxy)]
          · rw [if_neg hxy, if_neg (fun h => hxy (hiff.mpr h))]

theorem equalConfigs_comm (c1 c2 : List (Option MemberConfig)) :
    equalConfigs c1 c2 = equalConfigs c2 c1 := by
  unfold equalConfigs
  by_cases hlen : c1.length = c2.length
  · rw [if_neg (not_not.mpr hlen), if_neg (not_not.mpr hlen.symm),
      equalConfigsLoop_comm c1 c2 hlen]
  · rw [if_pos hlen, if_pos (fun h => hlen h.symm)]

theorem EqualMemberVolumes_comm (v1 v2 : MemberVolumes) :
    EqualMemberVolumes v1 v2 = EqualMemberVolumes v2 v1 := by
  rw [Bool.eq_iff_iff, EqualMemberVolumes_iff, EqualMemberVolumes_iff]
  constructor
  · rintro ⟨h1, h2, h3, h4⟩
    exact ⟨h1.symm, h2.symm, h3.symm, h4.symm⟩
  · rintro ⟨h1, h2, h3, h4⟩
    exact ⟨h1.symm, h2.symm, h3.symm, h4.symm⟩

theorem EqualServiceMember_comm (a b : ServiceMember) (skipMtime : Bool) :
    EqualServiceMember a b skipMtime = EqualServiceMember b a skipMtime := by
  unfold EqualServiceMember
  rw [equalConfigs_comm a.Configs b.Configs, EqualMemberVolumes_comm a.Volumes b.Volumes]
  have hiff :
      (a.ServiceUUID = b.ServiceUUID ∧ a.MemberIndex = b.MemberIndex ∧
        a.MemberName = b.MemberName ∧ a.AvailableZone = b.AvailableZone ∧
        a.TaskID = b.TaskID ∧ a.ContainerInstanceID = b.ContainerInstanceID ∧
        a.ServerInstanceID = b.ServerInstanceID ∧
        (skipMtime = true ∨ a.LastModified = b.LastModified) ∧
        EqualMemberVolumes b.Volumes a.Volumes = true ∧ a.StaticIP = b.StaticIP) ↔
      (b.ServiceUUID = a.ServiceUUID ∧ b.MemberIndex = a.MemberIndex ∧
        b.MemberName = a.MemberName ∧ b.AvailableZone = a.AvailableZone ∧
        b.TaskID = a.TaskID ∧ b.ContainerInstanceID = a.ContainerInstanceID ∧
        b.ServerInstanceID = a.ServerInstanceID ∧
        (skipMtime = true ∨ b.LastModified = a.LastModified) ∧
        EqualMemberVolumes b.Volumes a.Volumes = true ∧ b.StaticIP = a.StaticIP) := by
    constructor
    · rintro ⟨h1, h2, h3, h4, h5, h6, h7, h8, h9, h10⟩
      exact ⟨h1.symm, h2.symm, h3.symm, h4.symm, h5.symm, h6.symm, h7.symm,
        h8.imp id Eq.symm, h9, h10.symm⟩
    · rintro ⟨h1, h2, h3, h4, h5, h6, h7, h8, h9, h10⟩
      exact ⟨h1.symm, h2.symm, h3.symm, h4.symm, h5.symm, h6.symm, h7.symm,
        h8.imp id Eq.symm, h9, h10.symm⟩
  by_cases h : a.ServiceUUID = b.ServiceUUID ∧ a.MemberIndex = b.MemberIndex ∧
        a.MemberName = b.MemberName ∧ a.AvailableZone = b.AvailableZone ∧
        a.TaskID = b.TaskID ∧ a.ContainerInstanceID = b.ContainerInstanceID ∧
        a.ServerInstanceID = b.ServerInstanceID ∧
        (skipMtime = true ∨ a.LastModified = b.LastModified) ∧
        EqualMemberVolumes b.Volumes a.Volumes = true ∧ a.StaticIP = b.StaticIP
  · rw [if_pos h, if_pos (hiff.mp h)]
  · rw [if_neg h, if_neg (fun h2 => h (hiff.mpr h2))]

theorem EqualServiceMember_eq_true_iff (a b : ServiceMember) (skipMtime : Bool) :
    EqualServiceMember a b skipMtime = some true ↔
      (a.ServiceUUID = b.ServiceUUID ∧ a.MemberIndex = b.MemberIndex ∧
        a.MemberName = b.MemberName ∧ a.AvailableZone = b.AvailableZone ∧
        a.TaskID = b.TaskID ∧ a.ContainerInstanceID = b.ContainerInstanceID ∧
        a.ServerInstanceID = b.ServerInstanceID ∧
        (skipMtime = true ∨ a.LastModified = b.LastModified) ∧
        a.Volumes = b.Volumes ∧ a.StaticIP = b.StaticIP) ∧
      equalConfigs a.Configs b.Configs = some true := by
  have hvol : EqualMemberVolumes a.Volumes b.Volumes = true ↔ a.Volumes = b.Volumes := by
    rw [EqualMemberVolumes_iff]
    constructor
    · rintro ⟨h1, h2, h3, h4⟩
      cases ha : a.Volumes
      cases hb : b.Volumes
      simp_all
    · intro h
      rw [h]
      exact ⟨rfl, rfl, rfl, rfl⟩
  unfold EqualServiceMember
  split
  · rename_i h
    obtain ⟨h1, h2, h3, h4, h5, h6, h7, h8, h9, h10⟩ := h
    constructor
    · intro hc
      exact ⟨⟨h1, h2, h3, h4, h5, h6, h7, h8, hvol.mp h9, h10⟩, hc⟩
    · rintro ⟨-, hc⟩
      exact hc
  · rename_i h
    constructor
    · intro hf
      simp at hf
    · rintro ⟨⟨h1, h2, h3, h4, h5, h6, h7, h8, h9, h10⟩, -⟩
      exact absurd ⟨h1, h2, h3, h4, h5, h6, h7, h8, hvol.mpr h9, h10⟩ h

theorem equalConfigs_trans (c1 c2 c3 : List (Option MemberConfig))
    (h12 : equalConfigs c1 c2 = some true) (h23 : equalConfigs c2 c3 = some true) :
    equalConfigs c1 c3 = some true := by
  rw [equalConfigs_eq_true_iff] at h12 h23 ⊢
  obtain ⟨hl12, hi12⟩ := h12
  obtain ⟨hl23, hi23⟩ := h23
  refine ⟨hl12.trans hl23, fun i hi => ?_⟩
  obtain ⟨x, y, hx, hy, hn, hid, hmd⟩ := hi12 i hi
  obtain ⟨y2, z, hy2, hz, hn2, hid2, hmd2⟩ := hi23 i (hl12 ▸ hi)
  have hyy : y = y2 := by
    rw [hy] at hy2
    exact Option.some.inj (Option.some.inj hy2)
  subst hyy
  exact ⟨x, z, hx, hz, hn.trans hn2, hid.trans hid2, hmd.trans hmd2⟩

/-- C29: for a list `c1` of member configs with no nil entry, `CopyMemberConfigs c1`
returns a list of the same length with equal `FileName`, `FileID` and `FileMD5` at
every position, so `equalConfigs` of `c1` and the copy is true and a member whose
`Configs` are replaced by the copy is `EqualServiceMember` (with `skipMtime = false`)
to the member holding `c1`. -/
theorem CopyMemberConfigs_equal (c1 : List (Option MemberConfig)) (m : ServiceMember)
    (hnonnil : ∀ e ∈ c1, e ≠ none) :
    ∃ c2, CopyMemberConfigs c1 = some c2 ∧
      c2.length = c1.length ∧
      (∀ i, i < c1.length → ∃ x y, c1[i]? = some (some x) ∧ c2[i]? = some (some y) ∧
        x.FileName = y.FileName ∧ x.FileID = y.FileID ∧ x.FileMD5 = y.FileMD5) ∧
      equalConfigs c1 c2 = some true ∧
      EqualServiceMember { m with Configs := c1 } { m with Configs := c2 } false
        = some true := by
  refine ⟨c1, CopyMemberConfigs_of_no_nil c1 hnonnil, rfl, ?_, equalConfigs_self c1 hnonnil,
    EqualServiceMember_self _ _ hnonnil⟩
  exact ((equalConfigs_eq_true_iff c1 c1).mp (equalConfigs_self c1 hnonnil)).2

/-- Witness of C29: the one-entry config list of the sample member. -/
theorem CopyMemberConfigs_equal_witness :
    ∃ c2, CopyMemberConfigs sampleMember.Configs = some c2 ∧
      c2.length = sampleMember.Configs.length ∧
      (∀ i, i < sampleMember.Configs.length →
        ∃ x y, sampleMember.Configs[i]? = some (some x) ∧ c2[i]? = some (some y) ∧
          x.FileName = y.FileName ∧ x.FileID = y.FileID ∧ x.FileMD5 = y.FileMD5) ∧
      equalConfigs sampleMember.Configs c2 = some true ∧
      EqualServiceMember { sampleMember with Configs := sampleMember.Configs }
        { sampleMember with Configs := c2 } false = some true :=
  CopyMemberConfigs_equal sampleMember.Configs sampleMember (by decide)

/-- C30 as stated fails: reflexivity does not hold for a member with a nil config
entry, for which `EqualServiceMember` of the member and itself panics instead of
returning true, for both values of `skipMtime`. -/
theorem EqualServiceMember_not_reflexive_counterexample :
    EqualServiceMember sampleMemberNilConfig sampleMemberNilConfig false ≠ some true ∧
    EqualServiceMember sampleMemberNilConfig sampleMemberNilConfig true ≠ some true ∧
    EqualServiceMember sampleMemberNilConfig sampleMemberNilConfig false = none := by
  decide

/-- C30 amended: for each value of `skipMtime`, `EqualServiceMember` is reflexive on
the members whose config list has no nil entry, and symmetric and transitive on all
members; the result, a panic included, does not depend on which of the two records is
passed first. -/
theorem EqualServiceMember_equivalence (skipMtime : Bool) :
    (∀ a : ServiceMember, (∀ e ∈ a.Configs, e ≠ none) →
      EqualServiceMember a a skipMtime = some true) ∧
    (∀ a b : ServiceMember,
      EqualServiceMember a b skipMtime = some true →
      EqualServiceMember b a skipMtime = some true) ∧
    (∀ a b : ServiceMember,
      EqualServiceMember a b skipMtime = EqualServiceMember b a skipMtime) ∧
    (∀ a b c : ServiceMember,
      EqualServiceMember a b skipMtime = some true →
      EqualServiceMember b c skipMtime = some true →
      EqualServiceMember a c skipMtime = some true) := by
  refine ⟨fun a h => EqualServiceMember_self a skipMtime h, ?_,
    fun a b => EqualServiceMember_comm a b skipMtime, ?_⟩
  · intro a b h
    rw [EqualServiceMember_comm b a skipMtime]
    exact h
  · intro a b c hab hbc
    rw [EqualServiceMember_eq_true_iff] at hab hbc ⊢
    obtain ⟨⟨h1, h2, h3, h4, h5, h6, h7, h8, h9, h10⟩, hc1⟩ := hab
    obtain ⟨⟨g1, g2, g3, g4, g5, g6, g7, g8, g9, g10⟩, hc2⟩ := hbc
    refine ⟨⟨h1.trans g1, h2.trans g2, h3.trans g3, h4.trans g4, h5.trans g5, h6.trans g6,
      h7.trans g7, ?_, h9.trans g9, h10.trans g10⟩, equalConfigs_trans _ _ _ hc1 hc2⟩
    rcases h8 with h8 | h8
    · exact Or.inl h8
    · rcases g8 with g8 | g8
      · exact Or.inl g8
      · exact Or.inr (h8.trans g8)

/-! ## Create, Remove and the conditional member update (C22, C23, C24) -/

theorem GetServiceAttr_ok_iff (db : MemDB) (serviceUUID : String) :
    (∃ a, GetServiceAttr db serviceUUID = Except.ok a) ↔
      ∃ a ∈ db.attrs, a.ServiceUUID = serviceUUID := by
  unfold GetServiceAttr
  cases hf : db.attrs.find? (fun a => decide (a.ServiceUUID = serviceUUID)) with
  | none =>
    rw [List.find?_eq_none] at hf
    constructor
    · rintro ⟨a, ha⟩
      simp at ha
    · rintro ⟨a, ha, hu⟩
      exact absurd (by simpa using hu) (hf a ha)
  | some a =>
    constructor
    · intro _
      exact ⟨a, List.mem_of_find?_eq_some hf, by simpa using List.find?_some hf⟩
    · intro _
      exact ⟨a, rfl⟩

theorem GetServiceAttr_error (db : MemDB) (serviceUUID : String) (e : ErrorKind)
    (h : GetServiceAttr db serviceUUID = Except.error e) : e = ErrorKind.NotFound := by
  unfold GetServiceAttr at h
  cases hf : db.attrs.find? (fun a => decide (a.ServiceUUID = serviceUUID)) with
  | none =>
    rw [hf] at h
    simp only [Except.error.injEq] at h
    exact h.symm
  | some a =>
    rw [hf] at h
    simp at h

/-- C22: `Create(name)` succeeds if and only if `name` is a valid name and the service
of the UUID in `name` exists in the catalog; for a valid name with an unknown UUID it
fails with `NotFound`; in every case it leaves catalog and mount table as they were.
In the set-up of the test, `Create` of the existing `uuid1` succeeds and `Create` of
`non` fails with `NotFound`. -/
theorem Create_succeeds_iff_service_exists :
    (∀ (s : DriverState) (name : String),
      ((Create s name).1 = Except.ok () ↔
        ∃ serviceUUID pathKey idx,
          parseRequestName name = Except.ok (serviceUUID, pathKey, idx) ∧
          ∃ a ∈ s.db.attrs, a.ServiceUUID = serviceUUID) ∧
      (∀ serviceUUID pathKey idx,
        parseRequestName name = Except.ok (serviceUUID, pathKey, idx) →
        (∀ a ∈ s.db.attrs, a.ServiceUUID ≠ serviceUUID) →
        (Create s name).1 = Except.error ErrorKind.NotFound) ∧
      (Create s name).2 = s) ∧
    (Create (testState "ACTIVE" false (testMembers "local-az")) "uuid1").1 = Except.ok () ∧
    (Create (testState "ACTIVE" false (testMembers "local-az")) "non").1
      = Except.error ErrorKind.NotFound := by
  refine ⟨fun s name => ⟨?_, ?_, ?_⟩, rfl, rfl⟩
  · unfold Create
    cases hp : parseRequestName name with
    | error e => simp
    | ok r =>
      obtain ⟨u, k, i⟩ := r
      dsimp only
      cases hg : GetServiceAttr s.db u with
      | error e =>
        have hno : ¬ ∃ a ∈ s.db.attrs, a.ServiceUUID = u := by
          intro hex
          obtain ⟨a, ha⟩ := (GetServiceAttr_ok_iff s.db u).mpr hex
          rw [hg] at ha
          exact Except.noConfusion ha
        constructor
        · intro h
          simp at h
        · rintro ⟨u2, k2, i2, heq, hex⟩
          simp only [Except.ok.injEq, Prod.mk.injEq] at heq
          exact absurd (heq.1 ▸ hex) hno
      | ok a =>
        constructor
        · intro _
          exact ⟨u, k, i, rfl, (GetServiceAttr_ok_iff s.db u).mp ⟨a, hg⟩⟩
        · intro _
          rfl
  · intro u k i hp hno
    unfold Create
    rw [hp]
    dsimp only
    cases hg : GetServiceAttr s.db u with
    | error e =>
      dsimp only
      rw [GetServiceAttr_error s.db u e hg]
    | ok a =>
      obtain ⟨b, hb, hbu⟩ := (GetServiceAttr_ok_iff s.db u).mp ⟨a, hg⟩
      exact absurd hbu (hno b hb)
  · unfold Create
    cases parseRequestName name with
    | error e => rfl
    | ok r =>
      obtain ⟨u, k, i⟩ := r
      dsimp only
      cases GetServiceAttr s.db u <;> rfl

/-- C23: `Remove(name)` succeeds for every name, the UUID of a service that does not
exist in the catalog included, and changes neither the catalog nor the mount table. -/
theorem Remove_always_succeeds (s : DriverState) (name : String) :
    (Remove s name).1 = Except.ok () ∧
    (Remove s name).2.db = s.db ∧
    (Remove s name).2.volumes = s.volumes ∧
    (Remove (testState "ACTIVE" false (testMembers "local-az")) "non").1 = Except.ok () :=
  ⟨rfl, rfl, rfl, rfl⟩

theorem find?_replaceMember (prior new : ServiceMember) (members : List ServiceMember)
    (current : ServiceMember) (hkey : sameMemberKey prior new = true)
    (hfind : members.find? (fun m => sameMemberKey prior m) = some current) :
    (replaceMember prior new members).find? (fun m => sameMemberKey prior m) = some new := by
  induction members with
  | nil => simp at hfind
  | cons m ms ih =>
    by_cases hm : sameMemberKey prior m = true
    · simp [replaceMember, hm, hkey]
    · have hm2 : sameMemberKey prior m = false := by simpa using hm
      rw [List.find?_cons, hm2] at hfind
      simp only [replaceMember, hm, if_false, Bool.false_eq_true]
      rw [List.find?_cons, hm2]
      exact ih hfind

theorem mem_replaceMember_of_other_key (prior new : ServiceMember)
    (members : List ServiceMember) (x : ServiceMember)
    (hx : sameMemberKey prior x = false) (hnew : sameMemberKey prior new = true) :
    x ∈ replaceMember prior new members ↔ x ∈ members := by
  have hxn : x ≠ new := by
    intro h
    rw [h, hnew] at hx
    exact Bool.noConfusion hx
  induction members with
  | nil => simp [replaceMember]
  | cons m ms ih =>
    by_cases hm : sameMemberKey prior m = true
    · have hxm : x ≠ m := by
        intro h
        rw [h, hm] at hx
        exact Bool.noConfusion hx
      simp [replaceMember, hm, hxn, hxm]
    · simp [replaceMember, hm, ih]

theorem equalConfigsLoop_of_no_nil (c1 c2 : List (Option MemberConfig))
    (h1 : ∀ e ∈ c1, e ≠ none) (h2 : ∀ e ∈ c2, e ≠ none) (hlen : c1.length = c2.length) :
    equalConfigsLoop c1 c2 = some false ∨ equalConfigsLoop c1 c2 = some true := by
  induction c1 generalizing c2 with
  | nil => exact Or.inr rfl
  | cons e c1 ih =>
    cases c2 with
    | nil => simp at hlen
    | cons f c2 =>
      cases e with
      | none => exact absurd rfl (h1 none (List.mem_cons_self _ _))
      | some x =>
        cases f with
        | none => exact absurd rfl (h2 none (List.mem_cons_self _ _))
        | some y =>
          unfold equalConfigsLoop
          by_cases hd : x.FileName ≠ y.FileName ∨ x.FileID ≠ y.FileID ∨ x.FileMD5 ≠ y.FileMD5
          · rw [if_pos hd]
            exact Or.inl rfl
          · rw [if_neg hd]
            exact ih c2 (fun e he => h1 e (List.mem_cons_of_mem _ he))
              (fun e he => h2 e (List.mem_cons_of_mem _ he))
              (by simpa using hlen)

theorem EqualServiceMember_of_no_nil (a b : ServiceMember) (skipMtime : Bool)
    (ha : ∀ e ∈ a.Configs, e ≠ none) (hb : ∀ e ∈ b.Configs, e ≠ none) :
    EqualServiceMember a b skipMtime = some false ∨
      EqualServiceMember a b skipMtime = some true := by
  unfold EqualServiceMember
  split
  · unfold equalConfigs
    by_cases hlen : a.Configs.length ≠ b.Configs.length
    · rw [if_pos hlen]
      exact Or.inl rfl
    · rw [if_neg hlen]
      exact equalConfigsLoop_of_no_nil a.Configs b.Configs ha hb (by simpa using hlen)
  · exact Or.inl rfl

/-- C24 as stated fails.  The catalog below stores one member, whose only config
entry is nil, and `prior` is that very record, so a member is stored under the key
and it does not differ from `prior`; `new` has the same key.  The update does not
store `new`: for either treatment of mtime it panics in `EqualServiceMember`, and so
it neither returns a catalog nor fails with `VersionMismatch` or `NotFound`. -/
theorem UpdateServiceMember_nil_config_counterexample :
    sameMemberKey sampleMemberNilConfig
      (UpdateServiceMemberOwner sampleMemberNilConfig "task-local" "local-contins"
        "local-server" 200) = true ∧
    ({ attrs := [], members := [sampleMemberNilConfig] } : MemDB).members.find?
      (fun m => sameMemberKey sampleMemberNilConfig m) = some sampleMemberNilConfig ∧
    UpdateServiceMember false { attrs := [], members := [sampleMemberNilConfig] }
      sampleMemberNilConfig
      (UpdateServiceMemberOwner sampleMemberNilConfig "task-local" "local-contins"
        "local-server" 200) = none ∧
    UpdateServiceMember true { attrs := [], members := [sampleMemberNilConfig] }
      sampleMemberNilConfig
      (UpdateServiceMemberOwner sampleMemberNilConfig "task-local" "local-contins"
        "local-server" 200) = none :=
  ⟨rfl, rfl, rfl, rfl⟩

/-- C24 amended: for a pair `(prior, new)` of member records with the same key,
`UpdateServiceMember(prior, new)` fails with `NotFound` when no member is stored under
the key, fails with `VersionMismatch` (no catalog is returned, the catalog stays as
it was) when `EqualServiceMember` finds the stored member different from `prior`, and
when `EqualServiceMember` finds them equal it stores `new` under the key and leaves
the service attributes and the members of other keys as they were.  When
`EqualServiceMember` panics the update panics and nothing is stored.  One of the
first three outcomes occurs whenever neither `prior` nor the stored member has a nil
config entry. -/
theorem UpdateServiceMember_conditional (skipMtime : Bool) (db : MemDB)
    (prior new : ServiceMember) (hkey : sameMemberKey prior new = true) :
    (db.members.find? (fun m => sameMemberKey prior m) = none →
      UpdateServiceMember skipMtime db prior new = some (Except.error ErrorKind.NotFound)) ∧
    (∀ current, db.members.find? (fun m => sameMemberKey prior m) = some current →
      EqualServiceMember prior current skipMtime = some false →
      UpdateServiceMember skipMtime db prior new
        = some (Except.error ErrorKind.VersionMismatch)) ∧
    (∀ current, db.members.find? (fun m => sameMemberKey prior m) = some current →
      EqualServiceMember prior current skipMtime = some true →
      ∃ db2, UpdateServiceMember skipMtime db prior new = some (Except.ok db2) ∧
        db2.members.find? (fun m => sameMemberKey prior m) = some new ∧
        db2.attrs = db.attrs ∧
        ∀ x, sameMemberKey prior x = false → (x ∈ db2.members ↔ x ∈ db.members)) ∧
    (∀ current, db.members.find? (fun m => sameMemberKey prior m) = some current →
      EqualServiceMember prior current skipMtime = none →
      UpdateServiceMember skipMtime db prior new = none) ∧
    (∀ current, db.members.find? (fun m => sameMemberKey prior m) = some current →
      (∀ e ∈ prior.Configs, e ≠ none) → (∀ e ∈ current.Configs, e ≠ none) →
      EqualServiceMember prior current skipMtime = some false ∨
        EqualServiceMember prior current skipMtime = some true) := by
  refine ⟨?_, ?_, ?_, ?_, ?_⟩
  · intro hf
    unfold UpdateServiceMember
    rw [hf]
  · intro current hf heq
    unfold UpdateServiceMember
    rw [hf]
    dsimp only
    rw [heq]
  · intro current hf heq
    refine ⟨{ db with members := replaceMember prior new db.members }, ?_, ?_, rfl, ?_⟩
    · unfold UpdateServiceMember
      rw [hf]
      dsimp only
      rw [heq]
    · exact find?_replaceMember prior new db.members current hkey hf
    · intro x hx
      exact mem_replaceMember_of_other_key prior new db.members x hx hkey
  · intro current hf heq
    unfold UpdateServiceMember
    rw [hf]
    dsimp only
    rw [heq]
  · intro current _ hp hc
    exact EqualServiceMember_of_no_nil prior current skipMtime hp hc

/-- Witness of the amended C24: in the catalog of the test, the claim of member
`service1-2` by the local host is stored, a second update from the same prior record
then fails with `VersionMismatch`, and in a catalog without members the update fails
with `NotFound`. -/
theorem UpdateServiceMember_conditional_witness :
    (∃ db2,
      UpdateServiceMember false (testState "ACTIVE" false (testMembers "local-az")).db
          (testMember 2 "service1-2" "local-az" "task-2" "contins-2" "serverins-2")
          (UpdateServiceMemberOwner
            (testMember 2 "service1-2" "local-az" "task-2" "contins-2" "serverins-2")
            "task-local" "local-contins" "local-server" 200)
        = some (Except.ok db2) ∧
      UpdateServiceMember false db2
          (testMember 2 "service1-2" "local-az" "task-2" "contins-2" "serverins-2")
          (UpdateServiceMemberOwner
            (testMember 2 "service1-2" "local-az" "task-2" "contins-2" "serverins-2")
            "task-other" "contins-other" "server-other" 300)
        = some (Except.error ErrorKind.VersionMismatch)) ∧
    UpdateServiceMember false (testState "ACTIVE" false []).db
        (testMember 2 "service1-2" "local-az" "task-2" "contins-2" "serverins-2")
        (UpdateServiceMemberOwner
          (testMember 2 "service1-2" "local-az" "task-2" "contins-2" "serverins-2")
          "task-local" "local-contins" "local-server" 200)
      = some (Except.error ErrorKind.NotFound) :=
  ⟨⟨_, rfl, rfl⟩,
    (UpdateServiceMember_conditional false (testState "ACTIVE" false []).db
      (testMember 2 "service1-2" "local-az" "task-2" "contins-2" "serverins-2")
      (UpdateServiceMemberOwner
        (testMember 2 "service1-2" "local-az" "task-2" "contins-2" "serverins-2")
        "task-local" "local-contins" "local-server" 200) rfl).1 rfl⟩

/-! ## Reference counting of mounts (C21) -/

theorem Mount_ok_of_not_mounted (env : DriverEnv) (s s1 : DriverState) (name : String)
    (now : Int) (serviceUUID pathKey : String) (idx : Int) (p : String)
    (hname : parseRequestName name = Except.ok (serviceUUID, pathKey, idx))
    (hfree : refCount s.volumes pathKey = 0)
    (h : Mount env s name now = some (Except.ok p, s1)) :
    p = mountpoint env.root pathKey ∧
    ∃ member db3, s1 = kernelMount (mountpoint env.root pathKey)
      { s with
        db := db3
        volumes := { pathKey := pathKey, refCount := 1, member := member } :: s.volumes } := by
  unfold Mount at h
  rw [hname] at h
  dsimp only at h
  rw [hfree, if_neg (Nat.lt_irrefl 0)] at h
  cases hg : GetServiceAttr s.db serviceUUID with
  | error e => rw [hg] at h; simp at h
  | ok sattr =>
    rw [hg] at h
    dsimp only at h
    by_cases hst : sattr.ServiceStatus ≠ env.statusInitializing ∧
        sattr.ServiceStatus ≠ env.statusActive
    · rw [if_pos hst] at h
      simp at h
    · rw [if_neg hst] at h
      cases hc : claimMember env sattr now s.db 3 with
      | none => rw [hc] at h; simp at h
      | some r =>
        rw [hc] at h
        cases r with
        | error e => simp at h
        | ok q =>
          obtain ⟨member, db2⟩ := q
          dsimp only at h
          cases ha : env.attachVolumes db2 sattr member with
          | mk r3 db3 =>
            rw [ha] at h
            cases r3 with
            | error e => simp at h
            | ok u =>
              dsimp only at h
              cases hm : env.materializeConfigs db3 member (mountpoint env.root pathKey) with
              | error e => rw [hm] at h; simp at h
              | ok u2 =>
                rw [hm] at h
                simp only [Option.some.injEq, Prod.mk.injEq, Except.ok.injEq] at h
                obtain ⟨hp, hs⟩ := h
                exact ⟨hp.symm, member, db3, hs.symm⟩

theorem refCount_cons_self (pathKey : String) (n : Nat) (member : ServiceMember)
    (base : List MountEntry) :
    refCount ({ pathKey := pathKey, refCount := n, member := member } :: base) pathKey = n := by
  simp [refCount]

theorem Mount_of_mounted (env : DriverEnv) (s : DriverState) (name : String) (now : Int)
    (serviceUUID pathKey : String) (idx : Int) (n : Nat) (member : ServiceMember)
    (base : List MountEntry)
    (hname : parseRequestName name = Except.ok (serviceUUID, pathKey, idx))
    (hvol : s.volumes = { pathKey := pathKey, refCount := n + 1, member := member } :: base) :
    Mount env s name now
      = some (Except.ok (mountpoint env.root pathKey),
          { s with volumes :=
              { pathKey := pathKey, refCount := n + 2, member := member } :: base }) := by
  unfold Mount
  rw [hname]
  dsimp only
  rw [hvol, refCount_cons_self, if_pos (Nat.succ_pos n)]
  simp [incrRefCount]

theorem Unmount_of_refCount_gt_one (env : DriverEnv) (s : DriverState) (name : String)
    (serviceUUID pathKey : String) (idx : Int) (n : Nat) (member : ServiceMember)
    (base : List MountEntry)
    (hname : parseRequestName name = Except.ok (serviceUUID, pathKey, idx))
    (hvol : s.volumes = { pathKey := pathKey, refCount := n + 2, member := member } :: base) :
    Unmount env s name
      = (Except.ok (),
          { s with volumes :=
              { pathKey := pathKey, refCount := n + 1, member := member } :: base }) := by
  unfold Unmount
  rw [hname]
  dsimp only
  rw [hvol]
  simp [decrRefCount]

theorem Unmount_of_refCount_one (env : DriverEnv) (s : DriverState) (name : String)
    (serviceUUID pathKey : String) (idx : Int) (member : ServiceMember)
    (base : List MountEntry)
    (hname : parseRequestName name = Except.ok (serviceUUID, pathKey, idx))
    (hvol : s.volumes = { pathKey := pathKey, refCount := 1, member := member } :: base)
    (hidle : mountpoint env.root pathKey ∉ s.busyPaths) :
    Unmount env s name =
      match env.detachVolumes pathKey member with
      | Except.error e =>
        (Except.error e,
          { s with mountedPaths :=
              s.mountedPaths.filter (fun p => decide (p ≠ mountpoint env.root pathKey)) })
      | Except.ok _ =>
        (Except.ok (),
          { s with
            volumes := base
            mountedPaths :=
              s.mountedPaths.filter (fun p => decide (p ≠ mountpoint env.root pathKey)) }) := by
  unfold Unmount
  rw [hname]
  dsimp only
  rw [hvol]
  simp only [List.find?_cons_of_pos, decide_True, Nat.lt_irrefl, if_false, kernelUnmount,
    if_neg hidle]
  cases env.detachVolumes pathKey member with
  | error e => simp [hvol]
  | ok u => simp [dropEntry, hvol]

theorem Unmount_of_busy (env : DriverEnv) (s : DriverState) (name : String)
    (serviceUUID pathKey : String) (idx : Int) (member : ServiceMember)
    (base : List MountEntry)
    (hname : parseRequestName name = Except.ok (serviceUUID, pathKey, idx))
    (hvol : s.volumes = { pathKey := pathKey, refCount := 1, member := member } :: base) :
    Unmount env (containerOpensFile (mountpoint env.root pathKey) s) name
      = (Except.error ErrorKind.Busy, containerOpensFile (mountpoint env.root pathKey) s) := by
  unfold Unmount
  rw [hname]
  dsimp only
  simp [containerOpensFile, hvol, kernelUnmount]

theorem mountAll_of_mounted (env : DriverEnv) (name : String)
    (serviceUUID pathKey : String) (idx : Int) (member : ServiceMember)
    (base : List MountEntry)
    (hname : parseRequestName name = Except.ok (serviceUUID, pathKey, idx))
    (nows : List Int) :
    ∀ (s : DriverState) (n : Nat),
      s.volumes = { pathKey := pathKey, refCount := n + 1, member := member } :: base →
      mountAll env name nows s
        = some (List.replicate nows.length (Except.ok (mountpoint env.root pathKey)),
            { s with volumes :=
                { pathKey := pathKey, refCount := n + 1 + nows.length, member := member }
                  :: base }) := by
  induction nows with
  | nil =>
    intro s n hvol
    simp [mountAll, ← hvol]
  | cons now nows ih =>
    intro s n hvol
    unfold mountAll
    rw [Mount_of_mounted env s name now serviceUUID pathKey idx n member base hname hvol]
    dsimp only
    rw [ih _ (n + 1) rfl]
    simp [List.replicate_succ]
    omega

theorem unmountTimes_of_mounted (env : DriverEnv) (name : String)
    (serviceUUID pathKey : String) (idx : Int) (member : ServiceMember)
    (base : List MountEntry)
    (hname : parseRequestName name = Except.ok (serviceUUID, pathKey, idx))
    (k : Nat) :
    ∀ (s : DriverState) (n : Nat), k ≤ n →
      s.volumes = { pathKey := pathKey, refCount := n + 1, member := member } :: base →
      unmountTimes env name k s
        = (List.replicate k (Except.ok ()),
            { s with volumes :=
                { pathKey := pathKey, refCount := n + 1 - k, member := member } :: base }) := by
  induction k with
  | zero =>
    intro s n _ hvol
    simp [unmountTimes, ← hvol]
  | succ k ih =>
    intro s n hk hvol
    obtain ⟨m, rfl⟩ : ∃ m, n = m + 1 := ⟨n - 1, by omega⟩
    unfold unmountTimes
    rw [Unmount_of_refCount_gt_one env s name serviceUUID pathKey idx m member base hname hvol]
    dsimp only
    rw [ih _ m (by omega) rfl]
    simp [List.replicate_succ]

theorem mount_unmount_cycle (env : DriverEnv) (s s1 : DriverState)
    (name name2 : String) (serviceUUID serviceUUID2 pathKey : String) (idx idx2 : Int)
    (now : Int) (nows : List Int) (rs : List (Except ErrorKind String))
    (hname : parseRequestName name = Except.ok (serviceUUID, pathKey, idx))
    (hname2 : parseRequestName name2 = Except.ok (serviceUUID2, pathKey, idx2))
    (hfree : refCount s.volumes pathKey = 0)
    (hmount : mountAll env name (now :: nows) s = some (rs, s1))
    (hok : ∀ r ∈ rs, ∃ p, r = Except.ok p) :
    rs = List.replicate (nows.length + 1) (Except.ok (mountpoint env.root pathKey)) ∧
    refCount s1.volumes pathKey = nows.length + 1 ∧
    (∀ k, k ≤ nows.length →
      (unmountTimes env name2 k s1).1 = List.replicate k (Except.ok ()) ∧
      isDeviceMountToPath (unmountTimes env name2 k s1).2 (mountpoint env.root pathKey)
        = true) ∧
    isDeviceMountToPath (Unmount env (unmountTimes env name2 nows.length s1).2 name2).2
      (mountpoint env.root pathKey) = false ∧
    ((Unmount env (unmountTimes env name2 nows.length s1).2 name2).1 = Except.ok () →
      (Unmount env (unmountTimes env name2 nows.length s1).2 name2).2.volumes
        = s.volumes) := by
  unfold mountAll at hmount
  cases hM : Mount env s name now with
  | none => rw [hM] at hmount; simp at hmount
  | some q =>
    obtain ⟨r, sa⟩ := q
    rw [hM] at hmount
    dsimp only at hmount
    cases hA : mountAll env name nows sa with
    | none => rw [hA] at hmount; simp at hmount
    | some q2 =>
      obtain ⟨rs2, sb⟩ := q2
      rw [hA] at hmount
      simp only [Option.some.injEq, Prod.mk.injEq] at hmount
      obtain ⟨hrs, hs1⟩ := hmount
      obtain ⟨p, hp⟩ := hok r (by rw [← hrs]; exact List.mem_cons_self _ _)
      rw [hp] at hM
      obtain ⟨hpath, member, db3, hsa⟩ :=
        Mount_ok_of_not_mounted env s sa name now serviceUUID pathKey idx p hname hfree hM
      have hvol : sa.volumes
          = { pathKey := pathKey, refCount := 0 + 1, member := member } :: s.volumes := by
        rw [hsa]
        rfl
      have hall := mountAll_of_mounted env name serviceUUID pathKey idx member s.volumes
        hname nows sa 0 hvol
      rw [hA] at hall
      simp only [Option.some.injEq, Prod.mk.injEq] at hall
      obtain ⟨hrs2, hsb⟩ := hall
      have hvol1 : s1.volumes
          = { pathKey := pathKey, refCount := nows.length + 1, member := member }
            :: s.volumes := by
        rw [← hs1, hsb]
        simp
        omega
      have hmp : s1.mountedPaths = mountpoint env.root pathKey :: s.mountedPaths := by
        rw [← hs1, hsb, hsa]
        rfl
      have hbp : s1.busyPaths
          = s.busyPaths.filter (fun p => decide (p ≠ mountpoint env.root pathKey)) := by
        rw [← hs1, hsb, hsa]
        rfl
      have hun : ∀ k, k ≤ nows.length →
          unmountTimes env name2 k s1
            = (List.replicate k (Except.ok ()),
                { s1 with volumes :=
                    { pathKey := pathKey, refCount := nows.length + 1 - k,
                      member := member } :: s.volumes }) :=
        fun k hk => unmountTimes_of_mounted env name2 serviceUUID2 pathKey idx2 member
          s.volumes hname2 k s1 nows.length hk hvol1
      have hidle : mountpoint env.root pathKey ∉ s1.busyPaths := by
        rw [hbp]
        simp
      have hlast := Unmount_of_refCount_one env
        { s1 with volumes :=
            { pathKey := pathKey, refCount := 1, member := member } :: s.volumes }
        name2 serviceUUID2 pathKey idx2 member s.volumes hname2 rfl hidle
      have hone : nows.length + 1 - nows.length = 1 := by omega
      refine ⟨?_, ?_, ?_, ?_, ?_⟩
      · rw [← hrs, hp, hpath, hrs2, List.replicate_succ]
      · rw [hvol1, refCount_cons_self]
      · intro k hk
        rw [hun k hk]
        refine ⟨rfl, ?_⟩
        simp [isDeviceMountToPath, hmp]
      · rw [hun nows.length (Nat.le_refl _)]
        dsimp only
        rw [hone, hlast]
        cases env.detachVolumes pathKey member <;> simp [isDeviceMountToPath]
      · rw [hun nows.length (Nat.le_refl _)]
        dsimp only
        rw [hone, hlast]
        cases env.detachVolumes pathKey member <;> simp

/-- C21: `Mount` is reference-counted per path-key.  On one driver, from its start
(`NewVolumeDriver`, on any catalog and any kernel state), N successful `Mount` calls
of a valid name (N at least 1, one per clock reading of `now :: nows`) all return the
same mount path, the root joined with the path-key, and bring the `refCount` to N;
each of the first N-1 following `Unmount` calls of a name with that path-key succeeds
and leaves the device mounted at the path; and the N-th `Unmount` releases it: no
device is mounted at the path any more, and when that call reports no error the
mount table is empty again. -/
theorem Mount_Unmount_reference_counted (env : DriverEnv) (db : MemDB)
    (mountedPaths busyPaths : List String) (s1 : DriverState)
    (name name2 : String) (serviceUUID serviceUUID2 pathKey : String) (idx idx2 : Int)
    (now : Int) (nows : List Int) (rs : List (Except ErrorKind String))
    (hname : parseRequestName name = Except.ok (serviceUUID, pathKey, idx))
    (hname2 : parseRequestName name2 = Except.ok (serviceUUID2, pathKey, idx2))
    (hmount : mountAll env name (now :: nows) (NewVolumeDriver db mountedPaths busyPaths)
      = some (rs, s1))
    (hok : ∀ r ∈ rs, ∃ p, r = Except.ok p) :
    rs = List.replicate (nows.length + 1) (Except.ok (mountpoint env.root pathKey)) ∧
    refCount s1.volumes pathKey = nows.length + 1 ∧
    (∀ k, k ≤ nows.length →
      (unmountTimes env name2 k s1).1 = List.replicate k (Except.ok ()) ∧
      isDeviceMountToPath (unmountTimes env name2 k s1).2 (mountpoint env.root pathKey)
        = true) ∧
    isDeviceMountToPath (Unmount env (unmountTimes env name2 nows.length s1).2 name2).2
      (mountpoint env.root pathKey) = false ∧
    ((Unmount env (unmountTimes env name2 nows.length s1).2 name2).1 = Except.ok () →
      (Unmount env (unmountTimes env name2 nows.length s1).2 name2).2.volumes = []) :=
  mount_unmount_cycle env (NewVolumeDriver db mountedPaths busyPaths) s1 name name2
    serviceUUID serviceUUID2 pathKey idx idx2 now nows rs hname hname2 rfl hmount hok

/-- Witness of C21: on a new driver in the set-up of the test, three mounts of
`uuid1-1` return the same path; two unmounts of `uuid1` leave the device mounted at
that path and the third releases it. -/
theorem Mount_Unmount_reference_counted_witness :
    ∃ s1,
      mountAll testEnv "uuid1-1" [1, 2, 3]
          (NewVolumeDriver (testState "ACTIVE" true (testMembers "local-az")).db [] [])
        = some ([Except.ok "/mnt/firecamp/uuid1", Except.ok "/mnt/firecamp/uuid1",
            Except.ok "/mnt/firecamp/uuid1"], s1) ∧
      refCount s1.volumes "uuid1" = 3 ∧
      isDeviceMountToPath (unmountTimes testEnv "uuid1" 2 s1).2 "/mnt/firecamp/uuid1"
        = true ∧
      isDeviceMountToPath
          (Unmount testEnv (unmountTimes testEnv "uuid1" 2 s1).2 "uuid1").2
          "/mnt/firecamp/uuid1"
        = false :=
  ⟨_, rfl,
    (Mount_Unmount_reference_counted testEnv
      (testState "ACTIVE" true (testMembers "local-az")).db [] [] _ "uuid1-1" "uuid1"
      "uuid1" "uuid1" "uuid1" 0 (-1) 1 [2, 3]
      [Except.ok "/mnt/firecamp/uuid1", Except.ok "/mnt/firecamp/uuid1",
        Except.ok "/mnt/firecamp/uuid1"]
      rfl rfl rfl
      (by
        intro r hr
        simp only [List.mem_cons, List.mem_singleton, List.not_mem_nil, or_false] at hr
        rcases hr with h | h | h <;> exact ⟨_, h⟩)).2.1,
    rfl, rfl⟩

/-! ## The state invariants are kept by the driver -/

theorem selectMember_ok (host : HostInfo) (liveTasks : List String)
    (members : List ServiceMember) (m : ServiceMember)
    (h : selectMember host liveTasks members = Except.ok m) :
    m ∈ members ∧ (ownedByHost host m = true ∨ isIdleInZone host liveTasks m = true) := by
  by_cases hlen : (members.filter (ownedByHost host)).length = 1
  · obtain ⟨x, hx⟩ := List.length_eq_one.mp hlen
    rw [selectMember_of_filter_singleton host liveTasks members x hx] at h
    simp only [Except.ok.injEq] at h
    have hmem : x ∈ members.filter (ownedByHost host) := by
      rw [hx]
      exact List.mem_singleton_self x
    rw [← h]
    exact ⟨(List.mem_filter.mp hmem).1, Or.inl (List.mem_filter.mp hmem).2⟩
  · rw [selectMember_of_filter_length_ne_one host liveTasks members hlen] at h
    cases hs : smallestMemberIndex (members.filter (isIdleInZone host liveTasks)) with
    | none => rw [hs] at h; simp at h
    | some b =>
      rw [hs] at h
      simp only [Except.ok.injEq] at h
      have hmem := smallestMemberIndex_mem _ _ hs
      rw [← h]
      exact ⟨(List.mem_filter.mp hmem).1, Or.inr (List.mem_filter.mp hmem).2⟩

theorem claimOnce_ok (env : DriverEnv) (sattr : ServiceAttr) (now : Int) (db : MemDB)
    (claimed : ServiceMember) (db2 : MemDB)
    (h : claimOnce env sattr now db = some (Except.ok (claimed, db2))) :
    ∃ m current, m ∈ ListServiceMembers db sattr.ServiceUUID ∧
      (ownedByHost env.host m = true ∨ m.AvailableZone = env.host.AvailableZone) ∧
      claimed = UpdateServiceMemberOwner m (env.localTask sattr.ClusterName sattr.ServiceName)
        env.host.ContainerInstanceID env.host.ServerInstanceID now ∧
      db.members.find? (fun x => sameMemberKey m x) = some current ∧
      db2 = { db with members := replaceMember m claimed db.members } := by
  unfold claimOnce at h
  cases hf : findIdleMember env db sattr with
  | error e => rw [hf] at h; simp at h
  | ok m =>
    rw [hf] at h
    dsimp only at h
    obtain ⟨hmem, hsel⟩ := selectMember_ok _ _ _ _ hf
    have hzone : ownedByHost env.host m = true ∨ m.AvailableZone = env.host.AvailableZone :=
      hsel.imp id (fun hi => ((isIdleInZone_iff _ _ _).mp hi).1)
    unfold UpdateServiceMember at h
    cases hfind : db.members.find? (fun x => sameMemberKey m x) with
    | none => rw [hfind] at h; simp at h
    | some current =>
      rw [hfind] at h
      dsimp only at h
      cases heq : EqualServiceMember m current env.skipMtime with
      | none => rw [heq] at h; simp at h
      | some b =>
        rw [heq] at h
        cases b with
        | false => simp at h
        | true =>
          simp only [Option.some.injEq, Except.ok.injEq, Prod.mk.injEq] at h
          exact ⟨m, current, hmem, hzone, h.1.symm, hfind, h.1 ▸ h.2.symm⟩

theorem claimMember_ok (env : DriverEnv) (sattr : ServiceAttr) (now : Int) (db : MemDB)
    (retries : Nat) (claimed : ServiceMember) (db2 : MemDB)
    (h : claimMember env sattr now db retries = some (Except.ok (claimed, db2))) :
    claimOnce env sattr now db = some (Except.ok (claimed, db2)) := by
  induction retries with
  | zero =>
    unfold claimMember at h
    split at h
    · simp at h
    · exact h
  | succ k ih =>
    unfold claimMember at h
    split at h
    · exact ih h
    · exact h

theorem mem_replaceMember (prior new : ServiceMember) (members : List ServiceMember)
    (x : ServiceMember) (hx : x ∈ replaceMember prior new members) :
    x = new ∨ x ∈ members := by
  induction members with
  | nil => simp [replaceMember] at hx
  | cons m ms ih =>
    by_cases hm : sameMemberKey prior m = true
    · simp only [replaceMember, hm, if_true, List.mem_cons] at hx
      rcases hx with hx | hx
      · exact Or.inl hx
      · exact Or.inr (List.mem_cons_of_mem _ hx)
    · simp only [replaceMember, hm, if_false, Bool.false_eq_true, List.mem_cons] at hx
      rcases hx with hx | hx
      · exact Or.inr (by rw [hx]; exact List.mem_cons_self _ _)
      · exact (ih hx).imp id (List.mem_cons_of_mem _)

theorem MountedMembersOwned_of_entries (host : HostInfo) (s s2 : DriverState)
    (hdb : s2.db.members = s.db.members)
    (hvol : ∀ e ∈ s2.volumes, 0 < e.refCount →
      ∃ e0 ∈ s.volumes, e0.pathKey = e.pathKey ∧ e0.member = e.member ∧ 0 < e0.refCount)
    (h : MountedMembersOwned host s) : MountedMembersOwned host s2 := by
  intro e he hpos
  obtain ⟨e0, he0, hk, hm, hpos0⟩ := hvol e he hpos
  obtain ⟨hsvc, hrec⟩ := h e0 he0 hpos0
  rw [hk, hm] at hsvc
  rw [hm, ← hdb] at hrec
  exact ⟨hsvc, hrec⟩

theorem incrRefCount_entries (pathKey : String) (volumes : List MountEntry)
    (hpos : 0 < refCount volumes pathKey) :
    ∀ e ∈ incrRefCount pathKey volumes, 0 < e.refCount →
      ∃ e0 ∈ volumes, e0.pathKey = e.pathKey ∧ e0.member = e.member ∧ 0 < e0.refCount := by
  induction volumes with
  | nil => intro e he; simp [incrRefCount] at he
  | cons e0 es ih =>
    intro e he hp
    by_cases hk : e0.pathKey = pathKey
    · simp only [incrRefCount, hk, if_true, List.mem_cons] at he
      have h0 : 0 < e0.refCount := by
        simpa [refCount, hk] using hpos
      rcases he with he | he
      · exact ⟨e0, List.mem_cons_self _ _, by rw [he]; exact hk, by rw [he], h0⟩
      · exact ⟨e, List.mem_cons_of_mem _ he, rfl, rfl, hp⟩
    · simp only [incrRefCount, hk, if_false, List.mem_cons] at he
      rcases he with he | he
      · exact ⟨e0, List.mem_cons_self _ _, by rw [he], by rw [he], he ▸ hp⟩
      · have hpos2 : 0 < refCount es pathKey := by
          simpa [refCount, hk] using hpos
        obtain ⟨x, hx, h1, h2, h3⟩ := ih hpos2 e he hp
        exact ⟨x, List.mem_cons_of_mem _ hx, h1, h2, h3⟩

theorem decrRefCount_entries (pathKey : String) (volumes : List MountEntry) :
    ∀ e ∈ decrRefCount pathKey volumes, 0 < e.refCount →
      ∃ e0 ∈ volumes, e0.pathKey = e.pathKey ∧ e0.member = e.member ∧ 0 < e0.refCount := by
  induction volumes with
  | nil => intro e he; simp [decrRefCount] at he
  | cons e0 es ih =>
    intro e he hp
    by_cases hk : e0.pathKey = pathKey
    · simp only [decrRefCount, hk, if_true, List.mem_cons] at he
      rcases he with he | he
      · refine ⟨e0, List.mem_cons_self _ _, by rw [he]; exact hk, by rw [he], ?_⟩
        rw [he] at hp
        exact Nat.lt_of_lt_of_le hp (Nat.sub_le _ _)
      · exact ⟨e, List.mem_cons_of_mem _ he, rfl, rfl, hp⟩
    · simp only [decrRefCount, hk, if_false, List.mem_cons] at he
      rcases he with he | he
      · exact ⟨e0, List.mem_cons_self _ _, by rw [he], by rw [he], he ▸ hp⟩
      · obtain ⟨x, hx, h1, h2, h3⟩ := ih e he hp
        exact ⟨x, List.mem_cons_of_mem _ hx, h1, h2, h3⟩

theorem dropEntry_subset (pathKey : String) (volumes : List MountEntry) :
    ∀ e ∈ dropEntry pathKey volumes, e ∈ volumes := by
  induction volumes with
  | nil => intro e he; simp [dropEntry] at he
  | cons e0 es ih =>
    intro e he
    by_cases hk : e0.pathKey = pathKey
    · simp only [dropEntry, hk, if_true] at he
      exact List.mem_cons_of_mem _ he
    · simp only [dropEntry, hk, if_false, List.mem_cons] at he
      rcases he with he | he
      · rw [he]
        exact List.mem_cons_self _ _
      · exact List.mem_cons_of_mem _ (ih e he)

theorem invariants_after_claim (host : HostInfo) (s : DriverState)
    (m claimed current : ServiceMember)
    (hm : m ∈ s.db.members)
    (hsel : ownedByHost host m = true ∨ m.AvailableZone = host.AvailableZone)
    (hkey : sameMemberKey m claimed = true)
    (hsrv : claimed.ServerInstanceID = host.ServerInstanceID)
    (hzone : claimed.AvailableZone = m.AvailableZone)
    (hfind : s.db.members.find? (fun x => sameMemberKey m x) = some current)
    (hmounted : MountedMembersOwned host s)
    (hzonal : OwnedMembersInZone host s.db) :
    MountedMembersOwned host
        { s with db := { s.db with members := replaceMember m claimed s.db.members } } ∧
      OwnedMembersInZone host
        { s.db with members := replaceMember m claimed s.db.members } ∧
      claimed ∈ replaceMember m claimed s.db.members := by
  have hin : claimed ∈ replaceMember m claimed s.db.members :=
    List.mem_of_find?_eq_some (find?_replaceMember m claimed s.db.members current hkey hfind)
  have hmz : m.AvailableZone = host.AvailableZone := by
    rcases hsel with h | h
    · exact hzonal m hm ((ownedByHost_iff host m).mp h).1
    · exact h
  refine ⟨?_, ?_, hin⟩
  · intro e he hpos
    obtain ⟨hsvc, x, hx, hsame, hown⟩ := hmounted e he hpos
    refine ⟨hsvc, ?_⟩
    by_cases hxk : sameMemberKey m x = true
    · refine ⟨claimed, hin, ?_, hsrv⟩
      simp only [sameMemberKey, decide_eq_true_eq] at hsame hxk hkey ⊢
      exact ⟨hsame.1.trans (hxk.1.symm.trans hkey.1), hsame.2.trans (hxk.2.symm.trans hkey.2)⟩
    · have hxk2 : sameMemberKey m x = false := by simpa using hxk
      exact ⟨x, (mem_replaceMember_of_other_key m claimed s.db.members x hxk2 hkey).mpr hx,
        hsame, hown⟩
  · intro x hx howner
    rcases mem_replaceMember m claimed s.db.members x hx with h | h
    · rw [h, hzone, hmz]
    · exact hzonal x h howner

/-- The driver keeps the two state invariants: when the cloud steps of a mount leave
the member records as they are, the state after any `Mount` call, successful or not,
satisfies invariant 1 of section 8 and the zonal affinity of section 4.2 if the state
before did. -/
theorem Mount_preserves_invariants (env : DriverEnv) (s s1 : DriverState) (name : String)
    (now : Int) (r : Except ErrorKind String)
    (hattach : ∀ db a m, (env.attachVolumes db a m).2.members = db.members)
    (hmounted : MountedMembersOwned env.host s)
    (hzonal : OwnedMembersInZone env.host s.db)
    (h : Mount env s name now = some (r, s1)) :
    MountedMembersOwned env.host s1 ∧ OwnedMembersInZone env.host s1.db := by
  unfold Mount at h
  cases hp : parseRequestName name with
  | error e =>
    rw [hp] at h
    simp only [Option.some.injEq, Prod.mk.injEq] at h
    rw [← h.2]
    exact ⟨hmounted, hzonal⟩
  | ok q =>
    obtain ⟨serviceUUID, pathKey, idx⟩ := q
    rw [hp] at h
    dsimp only at h
    by_cases hrc : 0 < refCount s.volumes pathKey
    · rw [if_pos hrc] at h
      simp only [Option.some.injEq, Prod.mk.injEq] at h
      rw [← h.2]
      exact ⟨MountedMembersOwned_of_entries env.host s _ rfl
        (incrRefCount_entries pathKey s.volumes hrc) hmounted, hzonal⟩
    · rw [if_neg hrc] at h
      cases hg : GetServiceAttr s.db serviceUUID with
      | error e =>
        rw [hg] at h
        simp only [Option.some.injEq, Prod.mk.injEq] at h
        rw [← h.2]
        exact ⟨hmounted, hzonal⟩
      | ok sattr =>
        rw [hg] at h
        dsimp only at h
        by_cases hst : sattr.ServiceStatus ≠ env.statusInitializing ∧
            sattr.ServiceStatus ≠ env.statusActive
        · rw [if_pos hst] at h
          simp only [Option.some.injEq, Prod.mk.injEq] at h
          rw [← h.2]
          exact ⟨hmounted, hzonal⟩
        · rw [if_neg hst] at h
          cases hc : claimMember env sattr now s.db 3 with
          | none => rw [hc] at h; simp at h
          | some rc =>
            rw [hc] at h
            cases rc with
            | error e =>
              simp only [Option.some.injEq, Prod.mk.injEq] at h
              rw [← h.2]
              exact ⟨hmounted, hzonal⟩
            | ok q2 =>
              obtain ⟨claimed, db2⟩ := q2
              dsimp only at h
              obtain ⟨m, current, hm, hsel, hclaimed, hfind, hdb2⟩ :=
                claimOnce_ok env sattr now s.db claimed db2
                  (claimMember_ok env sattr now s.db 3 claimed db2 hc)
              have hmdb : m ∈ s.db.members := by
                unfold ListServiceMembers at hm
                exact (List.mem_filter.mp hm).1
              have hmu : m.ServiceUUID = serviceUUID := by
                unfold ListServiceMembers at hm
                have := (List.mem_filter.mp hm).2
                simp only [decide_eq_true_eq] at this
                rw [this, GetServiceAttr_ok_uuid s.db serviceUUID sattr hg]
              have hkey : sameMemberKey m claimed = true := by
                rw [hclaimed]
                simp [sameMemberKey, UpdateServiceMemberOwner]
              have hsrv : claimed.ServerInstanceID = env.host.ServerInstanceID := by
                rw [hclaimed]
                rfl
              have hcz : claimed.AvailableZone = m.AvailableZone := by
                rw [hclaimed]
                rfl
              have hcu : claimed.ServiceUUID = serviceUUID := by
                rw [hclaimed]
                exact hmu
              obtain ⟨hmo2, hoz2, hin⟩ := invariants_after_claim env.host s m claimed current
                hmdb hsel hkey hsrv hcz hfind hmounted hzonal
              have hmem3 : (env.attachVolumes db2 sattr claimed).2.members
                  = replaceMember m claimed s.db.members := by
                rw [hattach, hdb2]
              have hoz3 : OwnedMembersInZone env.host (env.attachVolumes db2 sattr claimed).2 := by
                intro x hx
                rw [hmem3] at hx
                exact hoz2 x hx
              have hmo3 : ∀ s3 : DriverState, s3.db = (env.attachVolumes db2 sattr claimed).2 →
                  s3.volumes = s.volumes → MountedMembersOwned env.host s3 := by
                intro s3 hdb3 hvol3
                refine MountedMembersOwned_of_entries env.host _ s3 ?_ ?_ hmo2
                · rw [hdb3, hmem3]
                · intro e he hpos
                  rw [hvol3] at he
                  exact ⟨e, he, rfl, rfl, hpos⟩
              cases ha : env.attachVolumes db2 sattr claimed with
              | mk r3 db3 =>
                rw [ha] at h hoz3 hmo3 hmem3
                cases r3 with
                | error e =>
                  simp only [Option.some.injEq, Prod.mk.injEq] at h
                  rw [← h.2]
                  exact ⟨hmo3 _ rfl rfl, hoz3⟩
                | ok u =>
                  dsimp only at h
                  cases hmat : env.materializeConfigs db3 claimed
                      (mountpoint env.root pathKey) with
                  | error e =>
                    rw [hmat] at h
                    simp only [Option.some.injEq, Prod.mk.injEq] at h
                    rw [← h.2]
                    exact ⟨hmo3 _ rfl rfl, hoz3⟩
                  | ok u2 =>
                    rw [hmat] at h
                    simp only [Option.some.injEq, Prod.mk.injEq] at h
                    rw [← h.2]
                    refine ⟨?_, hoz3⟩
                    intro e he hpos
                    change e ∈ { pathKey := pathKey, refCount := 1, member := claimed }
                      :: s.volumes at he
                    rcases List.mem_cons.mp he with he | he
                    · rw [he]
                      refine ⟨?_, claimed, ?_, ?_, hsrv⟩
                      · intro name2 u2 i2 hp2
                        rw [hcu]
                        exact parseRequestName_uuid_of_pathKey name name2 serviceUUID u2
                          pathKey idx i2 hp hp2
                      · change claimed ∈ db3.members
                        rw [hmem3]
                        exact hin
                      · simp [sameMemberKey]
                    · exact hmo3 { s with db := db3 } rfl rfl e he hpos

/-- The driver keeps the two state invariants: the state after any `Unmount` call,
successful or not, satisfies them if the state before did. -/
theorem Unmount_preserves_invariants (env : DriverEnv) (s : DriverState) (name : String)
    (hmounted : MountedMembersOwned env.host s)
    (hzonal : OwnedMembersInZone env.host s.db) :
    MountedMembersOwned env.host (Unmount env s name).2 ∧
      OwnedMembersInZone env.host (Unmount env s name).2.db := by
  unfold Unmount
  cases hp : parseRequestName name with
  | error e => exact ⟨hmounted, hzonal⟩
  | ok q =>
    obtain ⟨serviceUUID, pathKey, idx⟩ := q
    dsimp only
    cases hf : s.volumes.find? (fun e => decide (e.pathKey = pathKey)) with
    | none => exact ⟨hmounted, hzonal⟩
    | some entry =>
      dsimp only
      by_cases hrc : 1 < entry.refCount
      · rw [if_pos hrc]
        exact ⟨MountedMembersOwned_of_entries env.host s _ rfl
          (decrRefCount_entries pathKey s.volumes) hmounted, hzonal⟩
      · rw [if_neg hrc]
        unfold kernelUnmount
        by_cases hb : mountpoint env.root pathKey ∈ s.busyPaths
        · rw [if_pos hb]
          exact ⟨hmounted, hzonal⟩
        · rw [if_neg hb]
          dsimp only
          cases env.detachVolumes pathKey entry.member with
          | error e =>
            exact ⟨MountedMembersOwned_of_entries env.host s _ rfl
              (fun e he hpos => ⟨e, he, rfl, rfl, hpos⟩) hmounted, hzonal⟩
          | ok u =>
            exact ⟨MountedMembersOwned_of_entries env.host s _ rfl
              (fun e he hpos => ⟨e, dropEntry_subset pathKey s.volumes e he, rfl, rfl, hpos⟩)
              hmounted, hzonal⟩

/-- A driver at its start satisfies invariant 1 of section 8, and a catalog none of
whose members is recorded on this host, such as one whose members still carry the
sentinel owner given at creation, satisfies the zonal affinity. -/
theorem NewVolumeDriver_invariants (host : HostInfo) (db : MemDB)
    (mountedPaths busyPaths : List String)
    (hnone : ∀ m ∈ db.members, m.ServerInstanceID ≠ host.ServerInstanceID) :
    MountedMembersOwned host (NewVolumeDriver db mountedPaths busyPaths) ∧
      OwnedMembersInZone host (NewVolumeDriver db mountedPaths busyPaths).db :=
  ⟨fun _ he => (nomatch he), fun m hm h => absurd h (hnone m hm)⟩

/-! ## Members of a created service (C25) -/

theorem createConfigFiles_members (env : ManageEnv) (serviceUUID : String) (slot : Nat)
    (now : Int) (fs : List ReplicaConfigFile) :
    ∀ (j : Nat) (db db2 : MemDB) (refs : List (Option MemberConfig)),
      createConfigFiles env serviceUUID slot now fs j db = Except.ok (refs, db2) →
      db2.members = db.members := by
  induction fs with
  | nil =>
    intro j db db2 refs h
    simp only [createConfigFiles, Except.ok.injEq, Prod.mk.injEq] at h
    rw [← h.2]
  | cons f fs ih =>
    intro j db db2 refs h
    unfold createConfigFiles at h
    cases hc : db.CreateConfigFile
        (CreateInitialConfigFile env.GenMD5 serviceUUID (env.genFileID slot j) f.FileName
          env.fileMode f.Content now) with
    | error e => rw [hc] at h; simp at h
    | ok db1 =>
      rw [hc] at h
      dsimp only at h
      have hm1 : db1.members = db.members := by
        unfold MemDB.CreateConfigFile at hc
        split at hc
        · simp at hc
        · simp only [Except.ok.injEq] at hc
          rw [← hc]
      cases hr : createConfigFiles env serviceUUID slot now fs (j + 1) db1 with
      | error e => rw [hr] at h; simp at h
      | ok q =>
        obtain ⟨refs2, db3⟩ := q
        rw [hr] at h
        simp only [Except.ok.injEq, Prod.mk.injEq] at h
        rw [← h.2, ih (j + 1) db1 db3 refs2 hr, hm1]

theorem createMember_members (env : ManageEnv) (req : CreateServiceRequest)
    (serviceUUID : String) (now : Int) (slot : Nat) (db db2 : MemDB)
    (h : createMember env req serviceUUID now slot db = Except.ok db2) :
    ∃ m, m.ServiceUUID = serviceUUID ∧ db2.members = db.members ++ [m] := by
  unfold createMember at h
  cases hp : env.provisionVolumes slot with
  | error e => rw [hp] at h; simp at h
  | ok vols =>
    rw [hp] at h
    dsimp only at h
    cases hc : createConfigFiles env serviceUUID slot now req.Configs 0 db with
    | error e => rw [hc] at h; simp at h
    | ok q =>
      obtain ⟨refs, db1⟩ := q
      rw [hc] at h
      dsimp only at h
      have hm1 := createConfigFiles_members env serviceUUID slot now req.Configs 0 db db1 refs hc
      unfold MemDB.CreateServiceMember at h
      split at h
      · simp at h
      · simp only [Except.ok.injEq] at h
        refine ⟨_, ?_, by rw [← h, ← hm1]⟩
        rfl

theorem createMembers_members (env : ManageEnv) (req : CreateServiceRequest)
    (serviceUUID : String) (now : Int) (slots : List Nat) :
    ∀ (db db2 : MemDB), createMembers env req serviceUUID now slots db = Except.ok db2 →
      ∃ ms, db2.members = db.members ++ ms ∧ ms.length = slots.length ∧
        ∀ m ∈ ms, m.ServiceUUID = serviceUUID := by
  induction slots with
  | nil =>
    intro db db2 h
    simp only [createMembers, Except.ok.injEq] at h
    exact ⟨[], by simp [h], rfl, by simp⟩
  | cons slot slots ih =>
    intro db db2 h
    unfold createMembers at h
    cases hc : createMember env req serviceUUID now slot db with
    | error e => rw [hc] at h; simp at h
    | ok db1 =>
      rw [hc] at h
      dsimp only at h
      obtain ⟨m, hmu, hm1⟩ := createMember_members env req serviceUUID now slot db db1 hc
      obtain ⟨ms, hms, hlen, hall⟩ := ih db1 db2 h
      refine ⟨m :: ms, by rw [hms, hm1]; simp, by simp [hlen], ?_⟩
      intro x hx
      rcases List.mem_cons.mp hx with hx | hx
      · rw [hx]; exact hmu
      · exact hall x hx

theorem CreateServiceAttr_members (db db2 : MemDB) (attr : ServiceAttr)
    (h : db.CreateServiceAttr attr = Except.ok db2) : db2.members = db.members := by
  unfold MemDB.CreateServiceAttr at h
  split at h
  · simp at h
  · simp only [Except.ok.injEq] at h
    rw [← h]

theorem UpdateServiceAttr_members (skipMtime : Bool) (db db2 : MemDB)
    (prior new : ServiceAttr)
    (h : db.UpdateServiceAttr skipMtime prior new = Except.ok db2) :
    db2.members = db.members := by
  unfold MemDB.UpdateServiceAttr at h
  cases hf : db.attrs.find? (fun a => decide (a.ServiceUUID = prior.ServiceUUID)) with
  | none => rw [hf] at h; simp at h
  | some current =>
    rw [hf] at h
    dsimp only at h
    split at h
    · simp only [Except.ok.injEq] at h
      rw [← h]
    · simp at h

/-- C25: after a service is successfully created with `replicas = R` under a service
UUID that has no member in the catalog yet, listing the members of the service returns
exactly R entries, for every R. -/
theorem CreateService_lists_replicas (env : ManageEnv) (db db2 : MemDB)
    (req : CreateServiceRequest) (serviceUUID : String) (now : Int)
    (hnew : ListServiceMembers db serviceUUID = [])
    (hcreate : CreateService env db req serviceUUID now = Except.ok db2) :
    (ListServiceMembers db2 serviceUUID).length = req.Replicas := by
  unfold CreateService at hcreate
  cases ha : db.CreateServiceAttr
      (CreateInitialServiceAttr env.statusCreating serviceUUID req.Replicas req.Cluster
        req.ServiceName req.Volumes req.RegisterDNS env.domain env.hostedZoneID
        req.RequireStaticIP [] now) with
  | error e => rw [ha] at hcreate; simp at hcreate
  | ok db1 =>
    rw [ha] at hcreate
    dsimp only at hcreate
    cases hm : createMembers env req serviceUUID now (List.range req.Replicas) db1 with
    | error e => rw [hm] at hcreate; simp at hcreate
    | ok db3 =>
      rw [hm] at hcreate
      dsimp only at hcreate
      have h1 := CreateServiceAttr_members db db1 _ ha
      obtain ⟨ms, hms, hlen, hall⟩ :=
        createMembers_members env req serviceUUID now (List.range req.Replicas) db1 db3 hm
      have h3 := UpdateServiceAttr_members env.skipMtime db3 db2 _ _ hcreate
      unfold ListServiceMembers at hnew ⊢
      rw [h3, hms, h1, List.filter_append, hnew, List.nil_append]
      have hfilter : ms.filter (fun m => decide (m.ServiceUUID = serviceUUID)) = ms := by
        rw [List.filter_eq_self]
        intro m hmem
        simpa using hall m hmem
      rw [hfilter, hlen, List.length_range]

/-- Witness of C25: scenario S1, service `svc1` created with 3 replicas in an empty
catalog; the members listed are `svc1-0`, `svc1-1` and `svc1-2`. -/
theorem CreateService_lists_replicas_witness :
    ∃ db2,
      CreateService testManageEnv { attrs := [], members := [] } testCreateRequest "uuid1" 100
        = Except.ok db2 ∧
      (ListServiceMembers db2 "uuid1").length = 3 ∧
      (ListServiceMembers db2 "uuid1").map (fun m => m.MemberName)
        = ["svc1-0", "svc1-1", "svc1-2"] :=
  ⟨_, rfl,
    CreateService_lists_replicas testManageEnv { attrs := [], members := [] } _
      testCreateRequest "uuid1" 100 rfl rfl,
    rfl⟩

/-! ## Config file read back from the catalog (C31) -/

/-- C31: when `CreateConfigFile` succeeds, the `ServiceUUID`, `FileID`, `FileMD5`,
`FileName`, `FileMode`, `LastModified` and `Content` of the record it returns are
its seven arguments (the mtime is the caller's, no clock is read); and
`EqualConfigFile` with `skipContent = true` is false for two records whose `FileMD5`
differ, for both values of `skipMtime`. -/
theorem CreateConfigFile_returns_arguments (GenMD5 : String → String)
    (serviceUUID fileID fileMD5 fileName : String) (fileMode : Nat) (mtime : Int)
    (content : String) (c : ConfigFile)
    (h : CreateConfigFile GenMD5 serviceUUID fileID fileMD5 fileName fileMode mtime content
      = Except.ok c) :
    c.ServiceUUID = serviceUUID ∧
    c.FileID = fileID ∧
    c.FileMD5 = fileMD5 ∧
    c.FileName = fileName ∧
    c.FileMode = fileMode ∧
    c.LastModified = mtime ∧
    c.Content = content ∧
    ∀ (c1 c2 : ConfigFile) (skipMtime : Bool), c1.FileMD5 ≠ c2.FileMD5 →
      EqualConfigFile c1 c2 skipMtime true = false := by
  unfold CreateConfigFile at h
  by_cases hmd5 : GenMD5 content = fileMD5
  · simp only [hmd5, ne_eq, not_true_eq_false, if_false, Except.ok.injEq] at h
    subst h
    refine ⟨rfl, rfl, rfl, rfl, rfl, rfl, rfl, ?_⟩
    intro c1 c2 skipMtime hne
    simp [EqualConfigFile, hne]
  · simp [hmd5] at h

/-- Witness of C31: the sample config file read back with its stored checksum and
mtime 100; a record with another `FileMD5` is told apart with `skipContent = true`. -/
theorem CreateConfigFile_returns_arguments_witness :
    CreateConfigFile sampleMD5 "uuid-1" "file-1" "olleh" "c.conf" 420 100 "hello"
      = Except.ok sampleConfigFile ∧
    sampleConfigFile.LastModified = 100 ∧
    sampleConfigFile.Content = "hello" ∧
    EqualConfigFile sampleConfigFile { sampleConfigFile with FileMD5 := "other" } true true
      = false :=
  ⟨rfl,
    (CreateConfigFile_returns_arguments sampleMD5 "uuid-1" "file-1" "olleh" "c.conf" 420 100
      "hello" sampleConfigFile rfl).2.2.2.2.2.1,
    (CreateConfigFile_returns_arguments sampleMD5 "uuid-1" "file-1" "olleh" "c.conf" 420 100
      "hello" sampleConfigFile rfl).2.2.2.2.2.2.1,
    (CreateConfigFile_returns_arguments sampleMD5 "uuid-1" "file-1" "olleh" "c.conf" 420 100
      "hello" sampleConfigFile rfl).2.2.2.2.2.2.2 _ _ true (by decide)⟩

end Firecamp
